import Mathlib

/-!
# Photobooth: session state machine and capture worker

A shallow embedding of `photobooth.c`.  The `PhotoBooth` object is a record;
every function of the source that mutates it is a function on that record.
Calls into GStreamer, GTK, GLib and libgphoto2 are recorded, in program order,
in the `log` field; the few library facts the code depends on (a pad probe gets
a fresh non-zero id, a link or unlink sets or clears the connection, a bin
holds named children) are modelled by the helper functions of the first
section.  Debug and log statements (`GST_DEBUG`, `GST_INFO_OBJECT`,
`GST_DEBUG_BIN_TO_DOT_FILE`, ...) have no effect on the object and are left
out.
-/

namespace Photobooth

/-! ## Types declared in the header `photobooth.h` -/

/-- Modelled from the spec: the session state enum of `photobooth.h` (the
header is not part of the sources).  The spec lists NONE, PREVIEW,
TAKING_PHOTO, PROCESS_PHOTO and WAITING_FOR_ANSWER; these are the five values
`photobooth.c` uses. -/
inductive PhotoboothState
  | PB_STATE_NONE
  | PB_STATE_PREVIEW
  | PB_STATE_TAKING_PHOTO
  | PB_STATE_PROCESS_PHOTO
  | PB_STATE_WAITING_FOR_ANSWER
  deriving DecidableEq, Repr

/-- Modelled from the spec: the capture worker state enum of `photobooth.h`:
INIT, VIDEO, PHOTO, PAUSED, STOP. -/
inductive PhotoboothCaptureThreadState
  | CAPTURE_INIT
  | CAPTURE_VIDEO
  | CAPTURE_PHOTO
  | CAPTURE_PAUSED
  | CAPTURE_STOP
  deriving DecidableEq, Repr

/-- Modelled from the spec: one byte on the control socket.  The header gives
the four command constants distinct values (they are the labels of one C
`switch`); every other byte value `c` is `illegal c`. -/
inductive ControlCommand
  | CONTROL_STOP
  | CONTROL_PAUSE
  | CONTROL_VIDEO
  | CONTROL_PHOTO
  | illegal (c : Nat)
  deriving DecidableEq, Repr

/-- Modelled from the spec: `PREVIEW_FPS` of `photobooth.h`; the spec gives 25
frames per second (a poll timeout of 40 ms). -/
def PREVIEW_FPS : Nat := 25

/-- The camera session `struct _CameraInfo`: the mutex (held or free), the
diagnostic frame counter and the buffer of the last still. -/
structure CameraInfo where
  mutex_locked : Bool
  preview_capture_count : Nat
  size : Nat
  data : Option (List Nat)
  deriving DecidableEq, Repr

/-! ## Library objects the code talks to -/

/-- Functions the code hands to GLib to be run later on the main loop. -/
inductive Callback
  | photo_booth_preview
  | photo_booth_snapshot_prepare
  | photo_booth_snapshot_taken
  deriving DecidableEq, Repr

/-- The states of a GStreamer element. -/
inductive GstState
  | GST_STATE_NULL
  | GST_STATE_READY
  | GST_STATE_PAUSED
  | GST_STATE_PLAYING
  deriving DecidableEq, Repr

/-- Elements that live inside `photo_bin`, by their GStreamer name with `-`
written `_`. -/
inductive ElementName
  | photo_appsrc
  | photo_decoder
  | photo_freeze
  | photo_scale
  | photo_capsfilter
  | photo_overlay
  | photo_tee
  | photo_encoder
  | photo_filesink
  deriving DecidableEq, Repr

/-- Objects whose state the code sets or which it links. -/
inductive GstObject
  | pipeline
  | video_bin
  | photo_bin
  | output_bin
  | audio_pipeline
  | audio_playbin
  | element (e : ElementName)
  deriving DecidableEq, Repr

/-- Pad probe callbacks of the source (`_gst_photo_probecb` and
`_gst_video_probecb` drop every buffer). -/
inductive ProbeCallback
  | gst_photo_probecb
  | gst_video_probecb
  | photo_booth_catch_photo_buffer
  deriving DecidableEq, Repr

/-- What a pad probe callback tells the pad to do with the buffer. -/
inductive GstPadProbeReturn
  | GST_PAD_PROBE_DROP
  | GST_PAD_PROBE_PASS
  | GST_PAD_PROBE_REMOVE
  deriving DecidableEq, Repr

/-- One call out of `photobooth.c` into a library, or into one of its own
camera session operations, as it appears in the call log. -/
inductive Effect
  | photo_booth_window_start_countdown (seconds : Nat)
  | g_timeout_add (delay : Nat) (cb : Callback)
  | audio_set_uri
  | gst_element_set_state (obj : GstObject) (s : GstState)
  | photo_booth_window_set_spinner (spinning : Bool)
  | send_command (c : ControlCommand)
  | gst_pad_add_probe (bin : GstObject) (cb : ProbeCallback) (id : Nat)
  | gst_pad_remove_probe (bin : GstObject) (id : Nat)
  | gst_element_link (src dst : GstObject)
  | gst_element_unlink (src dst : GstObject)
  | gtk_widget_show_button_yes
  | gtk_widget_hide_button_yes
  | gst_bin_add (bin : GstObject) (e : ElementName)
  | gst_bin_remove (bin : GstObject) (e : ElementName)
  | filesink_set_location
  | do_print
  | photo_booth_cam_init
  | gp_camera_init
  | g_main_context_invoke (cb : Callback)
  | poll (timeout : Nat)
  | gp_camera_capture_preview
  | gp_file_get_mime_type
  | photo_booth_cam_close
  | gp_camera_exit
  | photo_booth_take_photo
  | gp_camera_capture
  | gp_file_new
  | gp_camera_file_get
  | gp_file_get_data_and_size
  | gp_camera_file_delete
  | read_command (c : ControlCommand)
  | gp_file_unref
  | photo_booth_flush_pipe
  | g_thread_join
  | close_video_fd
  | unlink_moviepipe
  deriving DecidableEq, Repr

/-- The source pad of a bin.  GLib numbers the probes of one pad 1, 2, 3, ...:
a new probe gets one more than the number of probes added before it
(`n_added`), so `gst_pad_add_probe` never returns 0 here. -/
structure Pad where
  n_added : Nat
  probes : List (Nat × ProbeCallback)
  deriving DecidableEq, Repr

/-- The `PhotoBooth` object together with the part of its private data and of
the media graph that `photobooth.c` reads or changes.

* `state`, `cam_info`, `video_block_id`, `photo_block_id`: fields of the object;
* `countdown`: `priv->countdown`;
* `control`: the bytes written to `WRITE_SOCKET` and not yet read from
  `READ_SOCKET`, oldest first;
* `control_capacity`: how many pending bytes the buffer of the socket pair
  holds; a write made while that many bytes are pending fails;
* `video_linked`, `photo_linked`: whether `video_bin`, `photo_bin` is linked to
  `output_bin`;
* `video_pad`, `photo_pad`: the `src` pads of the two bins;
* `photo_elements`, `photo_links`: children of `photo_bin` and the links
  between them;
* `log`: the calls made so far, oldest first. -/
structure PhotoBooth where
  state : PhotoboothState
  cam_info : Option CameraInfo
  video_block_id : Nat
  photo_block_id : Nat
  countdown : Nat
  control : List ControlCommand
  control_capacity : Nat
  video_linked : Bool
  photo_linked : Bool
  video_pad : Pad
  photo_pad : Pad
  photo_elements : List ElementName
  photo_links : List (ElementName × ElementName)
  log : List Effect
  deriving DecidableEq, Repr

/-! ## Library calls -/

/-- Append one call to the log. -/
def PhotoBooth.emit (pb : PhotoBooth) (e : Effect) : PhotoBooth :=
  { pb with log := pb.log ++ [e] }

/-- Modelled from the spec: the macro `SEND_COMMAND` of `photobooth.h`, a
non-blocking one-byte write to the control socket whose result is not looked
at.  While the buffer has room the byte is queued behind the bytes already
pending; when the buffer is full the write fails, nothing is queued and the
caller goes on: the command is lost.  The call is logged in both cases. -/
def SEND_COMMAND (pb : PhotoBooth) (c : ControlCommand) : PhotoBooth :=
  { pb with
    control :=
      if pb.control.length < pb.control_capacity then pb.control ++ [c] else pb.control,
    log := pb.log ++ [Effect.send_command c] }

/-- The call `gst_element_set_state (obj, s)`. -/
def gst_element_set_state (pb : PhotoBooth) (obj : GstObject) (s : GstState) : PhotoBooth :=
  pb.emit (Effect.gst_element_set_state obj s)

/-- Result of `gst_pad_add_probe` on the `src` pad of `video_bin`: the new id
and the object with the probe installed. -/
def video_pad_add_probe (pb : PhotoBooth) (cb : ProbeCallback) : Nat × PhotoBooth :=
  (pb.video_pad.n_added + 1,
   { pb with
     video_pad := { n_added := pb.video_pad.n_added + 1,
                    probes := pb.video_pad.probes ++ [(pb.video_pad.n_added + 1, cb)] },
     log := pb.log ++
       [Effect.gst_pad_add_probe GstObject.video_bin cb (pb.video_pad.n_added + 1)] })

/-- Result of `gst_pad_add_probe` on the `src` pad of `photo_bin`. -/
def photo_pad_add_probe (pb : PhotoBooth) (cb : ProbeCallback) : Nat × PhotoBooth :=
  (pb.photo_pad.n_added + 1,
   { pb with
     photo_pad := { n_added := pb.photo_pad.n_added + 1,
                    probes := pb.photo_pad.probes ++ [(pb.photo_pad.n_added + 1, cb)] },
     log := pb.log ++
       [Effect.gst_pad_add_probe GstObject.photo_bin cb (pb.photo_pad.n_added + 1)] })

/-- The call `gst_pad_remove_probe` on the `src` pad of `video_bin`: the probe
with this id, if there is one, is gone. -/
def video_pad_remove_probe (pb : PhotoBooth) (id : Nat) : PhotoBooth :=
  { pb with
    video_pad := { pb.video_pad with probes := pb.video_pad.probes.filter (fun p => p.1 ≠ id) },
    log := pb.log ++ [Effect.gst_pad_remove_probe GstObject.video_bin id] }

/-- The call `gst_pad_remove_probe` on the `src` pad of `photo_bin`. -/
def photo_pad_remove_probe (pb : PhotoBooth) (id : Nat) : PhotoBooth :=
  { pb with
    photo_pad := { pb.photo_pad with probes := pb.photo_pad.probes.filter (fun p => p.1 ≠ id) },
    log := pb.log ++ [Effect.gst_pad_remove_probe GstObject.photo_bin id] }

/-- The call `gst_element_link (pb->video_bin, pb->output_bin)`, taken to
succeed. -/
def link_video_bin (pb : PhotoBooth) : PhotoBooth :=
  { pb with video_linked := true,
            log := pb.log ++ [Effect.gst_element_link GstObject.video_bin GstObject.output_bin] }

/-- The call `gst_element_link (pb->photo_bin, pb->output_bin)`, taken to
succeed. -/
def link_photo_bin (pb : PhotoBooth) : PhotoBooth :=
  { pb with photo_linked := true,
            log := pb.log ++ [Effect.gst_element_link GstObject.photo_bin GstObject.output_bin] }

/-- The call `gst_element_unlink (pb->video_bin, pb->output_bin)`. -/
def unlink_video_bin (pb : PhotoBooth) : PhotoBooth :=
  { pb with video_linked := false,
            log := pb.log ++ [Effect.gst_element_unlink GstObject.video_bin GstObject.output_bin] }

/-- The call `gst_element_unlink (pb->photo_bin, pb->output_bin)`. -/
def unlink_photo_bin (pb : PhotoBooth) : PhotoBooth :=
  { pb with photo_linked := false,
            log := pb.log ++ [Effect.gst_element_unlink GstObject.photo_bin GstObject.output_bin] }

/-- The call `gst_bin_get_by_name (GST_BIN (pb->photo_bin), name)` followed by
`GST_IS_ELEMENT`: is there a child of that name. -/
def photo_bin_has (pb : PhotoBooth) (e : ElementName) : Bool :=
  decide (e ∈ pb.photo_elements)

/-- One `gst_bin_add` on `photo_bin`. -/
def photo_bin_add (pb : PhotoBooth) (e : ElementName) : PhotoBooth :=
  { pb with photo_elements := pb.photo_elements ++ [e],
            log := pb.log ++ [Effect.gst_bin_add GstObject.photo_bin e] }

/-- One `gst_bin_remove` on `photo_bin`. -/
def photo_bin_remove (pb : PhotoBooth) (e : ElementName) : PhotoBooth :=
  { pb with photo_elements := pb.photo_elements.filter (fun x => x ≠ e),
            log := pb.log ++ [Effect.gst_bin_remove GstObject.photo_bin e] }

/-- One link between two children of `photo_bin`. -/
def photo_link (pb : PhotoBooth) (a b : ElementName) : PhotoBooth :=
  { pb with photo_links := pb.photo_links ++ [(a, b)],
            log := pb.log ++ [Effect.gst_element_link (GstObject.element a) (GstObject.element b)] }

/-- One unlink between two children of `photo_bin`. -/
def photo_unlink (pb : PhotoBooth) (a b : ElementName) : PhotoBooth :=
  { pb with photo_links := pb.photo_links.filter (fun l => l ≠ (a, b)),
            log := pb.log ++ [Effect.gst_element_unlink (GstObject.element a) (GstObject.element b)] }

/-! ## Start-up -/

/-- How many pending bytes the socket pair made by `photo_booth_init` holds.
The system, not the program, decides this when `socketpair` is called; the
value here is the one of the sample sessions, and the theorems stated for
every `pb` hold for every value. -/
def socket_pair_room : Nat := 256

/-- The function `photo_booth_init`: the fields it sets (`state`, `cam_info`,
the two block ids) and the empty control socket pair it makes, with no media
graph yet.  `countdown` is the value the `countdown` property gives
`priv->countdown` at construction. -/
def photo_booth_init (countdown : Nat) : PhotoBooth :=
  { state := PhotoboothState.PB_STATE_NONE
    cam_info := none
    video_block_id := 0
    photo_block_id := 0
    countdown := countdown
    control := []
    control_capacity := socket_pair_room
    video_linked := false
    photo_linked := false
    video_pad := { n_added := 0, probes := [] }
    photo_pad := { n_added := 0, probes := [] }
    photo_elements := []
    photo_links := []
    log := [] }

/-- The function `photo_booth_setup_gstreamer` (with `build_video_bin` and
`build_photo_bin`), on the run in which every element is created and every
link inside a bin succeeds, so that it returns TRUE: `photo_bin` gets its seven
children, linked in a chain; the pipeline and `output_bin` are set playing; the
three bins are added to the pipeline.  No call links `video_bin` or `photo_bin`
to `output_bin`. -/
def photo_booth_setup_gstreamer (pb : PhotoBooth) : PhotoBooth :=
  let pb := { pb with
    photo_elements := [ElementName.photo_appsrc, ElementName.photo_decoder,
      ElementName.photo_freeze, ElementName.photo_scale, ElementName.photo_capsfilter,
      ElementName.photo_overlay, ElementName.photo_tee]
    photo_links := [(ElementName.photo_appsrc, ElementName.photo_decoder),
      (ElementName.photo_decoder, ElementName.photo_freeze),
      (ElementName.photo_freeze, ElementName.photo_scale),
      (ElementName.photo_scale, ElementName.photo_capsfilter),
      (ElementName.photo_capsfilter, ElementName.photo_overlay),
      (ElementName.photo_overlay, ElementName.photo_tee)] }
  let pb := gst_element_set_state pb GstObject.pipeline GstState.GST_STATE_PLAYING
  let pb := gst_element_set_state pb GstObject.output_bin GstState.GST_STATE_PLAYING
  pb

/-! ## Switching between preview and photo -/

/-- The function `photo_booth_preview`.  It always returns FALSE (it is run
once when used as a GLib source); the result here is the object it leaves. -/
def photo_booth_preview (pb : PhotoBooth) : PhotoBooth :=
  let pb :=
    if pb.video_block_id ≠ 0 then
      let pb := gst_element_set_state pb GstObject.photo_bin GstState.GST_STATE_READY
      let r := photo_pad_add_probe pb ProbeCallback.gst_photo_probecb
      let pb := { r.2 with photo_block_id := r.1 }
      let pb := unlink_photo_bin pb
      let pb := video_pad_remove_probe pb pb.video_block_id
      pb
    else pb
  let pb := link_video_bin pb
  let pb := gst_element_set_state pb GstObject.video_bin GstState.GST_STATE_PLAYING
  { pb with state := PhotoboothState.PB_STATE_PREVIEW }

/-- The function `photo_booth_snapshot_prepare`.  It returns FALSE on both
paths; the result here is the object it leaves. -/
def photo_booth_snapshot_prepare (pb : PhotoBooth) : PhotoBooth :=
  match pb.cam_info with
  | none => pb
  | some _ =>
    let pb := { pb with state := PhotoboothState.PB_STATE_TAKING_PHOTO }
    let pb := pb.emit (Effect.photo_booth_window_set_spinner true)
    let pb := gst_element_set_state pb GstObject.audio_playbin GstState.GST_STATE_READY
    let pb := SEND_COMMAND pb ControlCommand.CONTROL_PHOTO
    let pb := gst_element_set_state pb GstObject.video_bin GstState.GST_STATE_READY
    let r := video_pad_add_probe pb ProbeCallback.gst_video_probecb
    let pb := { r.2 with video_block_id := r.1 }
    let pb := unlink_video_bin pb
    let pb :=
      if pb.photo_block_id ≠ 0 then photo_pad_remove_probe pb pb.photo_block_id
      else pb
    let pb := link_photo_bin pb
    let pb := gst_element_set_state pb GstObject.photo_bin GstState.GST_STATE_PLAYING
    pb

/-- The function `photo_booth_snapshot_start`.  `delay` is a `guint`, so the
arithmetic is modulo 2^32; the delay is handed to `g_timeout_add`, which counts
in milliseconds. -/
def photo_booth_snapshot_start (pb : PhotoBooth) : PhotoBooth :=
  let delay : Nat := 1
  let pb := pb.emit (Effect.photo_booth_window_start_countdown pb.countdown)
  let delay :=
    if pb.countdown > 1 then (pb.countdown * 1000 + (2 ^ 32 - 100)) % 2 ^ 32 else delay
  let pb := pb.emit (Effect.g_timeout_add delay Callback.photo_booth_snapshot_prepare)
  let pb := pb.emit Effect.audio_set_uri
  let pb := gst_element_set_state pb GstObject.audio_pipeline GstState.GST_STATE_PLAYING
  pb

/-- The timers (delay in ms, callback) that have been scheduled with
`g_timeout_add`, oldest first. -/
def scheduled (log : List Effect) : List (Nat × Callback) :=
  log.filterMap (fun e =>
    match e with
    | Effect.g_timeout_add d cb => some (d, cb)
    | _ => none)

/-! ## The photo buffer observer and the operator -/

/-- The function `photo_booth_catch_photo_buffer`, one call per buffer that
passes the `src` pad of `photo_bin`.  The probe return value is `none` on the
path on which the C function ends without a `return` (a session state other
than the three it tests).  `jpegenc` and `filesink` are taken to be created
(the code only logs a failure and goes on), and the link of the new branch to
succeed. -/
def photo_booth_catch_photo_buffer (pb : PhotoBooth) :
    Option GstPadProbeReturn × PhotoBooth :=
  if pb.state = PhotoboothState.PB_STATE_TAKING_PHOTO then
    let pb := { pb with state := PhotoboothState.PB_STATE_PROCESS_PHOTO }
    let pb := pb.emit (Effect.photo_booth_window_set_spinner false)
    let pb := pb.emit Effect.gtk_widget_show_button_yes
    (some GstPadProbeReturn.GST_PAD_PROBE_PASS, pb)
  else if pb.state = PhotoboothState.PB_STATE_PROCESS_PHOTO then
    if photo_bin_has pb ElementName.photo_encoder then
      (some GstPadProbeReturn.GST_PAD_PROBE_PASS,
       { pb with state := PhotoboothState.PB_STATE_WAITING_FOR_ANSWER })
    else
      let pb := pb.emit Effect.filesink_set_location
      let pb := photo_bin_add pb ElementName.photo_encoder
      let pb := photo_bin_add pb ElementName.photo_filesink
      let pb := photo_link pb ElementName.photo_tee ElementName.photo_encoder
      let pb := photo_link pb ElementName.photo_encoder ElementName.photo_filesink
      let pb := gst_element_set_state pb GstObject.photo_bin GstState.GST_STATE_PLAYING
      (some GstPadProbeReturn.GST_PAD_PROBE_PASS, pb)
  else if pb.state = PhotoboothState.PB_STATE_WAITING_FOR_ANSWER then
    let pb := gst_element_set_state pb GstObject.photo_bin GstState.GST_STATE_PAUSED
    let pb := photo_unlink pb ElementName.photo_tee ElementName.photo_encoder
    let pb := photo_unlink pb ElementName.photo_encoder ElementName.photo_filesink
    let pb := photo_bin_remove pb ElementName.photo_encoder
    let pb := photo_bin_remove pb ElementName.photo_filesink
    let pb := gst_element_set_state pb (GstObject.element ElementName.photo_filesink)
      GstState.GST_STATE_NULL
    let pb := gst_element_set_state pb (GstObject.element ElementName.photo_encoder)
      GstState.GST_STATE_NULL
    let pb := { pb with photo_block_id := 0 }
    (some GstPadProbeReturn.GST_PAD_PROBE_REMOVE, pb)
  else (none, pb)

/-- The function `do_print`: it runs the GTK print dialog on the window.  It
reads and writes only the window and the file-level `settings` variable, no
field of the `PhotoBooth` object. -/
def do_print (pb : PhotoBooth) : PhotoBooth :=
  pb.emit Effect.do_print

/-- The function `photo_booth_background_clicked`: `do_print (win); return;`.
The `switch (pb->state)` that follows the `return` in the source is never
reached. -/
def photo_booth_background_clicked (pb : PhotoBooth) : PhotoBooth :=
  do_print pb

/-- The function `photo_booth_print`. -/
def photo_booth_print (pb : PhotoBooth) : PhotoBooth :=
  pb.emit Effect.gtk_widget_hide_button_yes

/-- The function `photo_booth_button_yes_clicked`. -/
def photo_booth_button_yes_clicked (pb : PhotoBooth) : PhotoBooth :=
  if pb.state = PhotoboothState.PB_STATE_WAITING_FOR_ANSWER then photo_booth_print pb
  else pb

/-! ## The camera session and the capture worker -/

/-- What the world outside the program answers during one iteration of the
capture loop: whether `poll` fails, and the return codes of the libgphoto2
calls the iteration may make (`GP_OK` is 0, errors are negative), whether the
preview file has the JPEG MIME type, and the bytes of the still. -/
structure CameraEnv where
  poll_error : Bool
  gp_camera_init : Int
  gp_camera_capture_preview : Int
  mime_is_jpeg : Bool
  gp_camera_capture : Int
  gp_file_new : Int
  gp_camera_file_get : Int
  gp_file_get_data_and_size : Int
  still : List Nat
  gp_camera_file_delete : Int
  deriving DecidableEq, Repr

/-- Local variables of `photo_booth_capture_thread_func`: `state`, whether
`gp_file` is non-NULL, and `captured_frames`. -/
structure CaptureThread where
  state : PhotoboothCaptureThreadState
  gp_file : Bool
  captured_frames : Nat
  deriving DecidableEq, Repr

/-- How one iteration of the capture loop ends: the loop goes round again
(`next`), the thread function has returned through `stop_running`
(`stopped`), or the thread waits for ever in `g_mutex_lock` on a mutex that is
already held (`hung`). -/
inductive LoopResult
  | next (pb : PhotoBooth) (t : CaptureThread)
  | stopped (pb : PhotoBooth) (t : CaptureThread)
  | hung (pb : PhotoBooth) (t : CaptureThread)
  deriving DecidableEq, Repr

/-- The object a loop result carries. -/
def LoopResult.pb : LoopResult → PhotoBooth
  | LoopResult.next pb _ => pb
  | LoopResult.stopped pb _ => pb
  | LoopResult.hung pb _ => pb

/-- The worker's local variables a loop result carries. -/
def LoopResult.thread : LoopResult → CaptureThread
  | LoopResult.next _ t => t
  | LoopResult.stopped _ t => t
  | LoopResult.hung _ t => t

/-- The function `photo_booth_cam_init (&pb->cam_info)`: its return value and
the object it leaves.  `malloc` is taken to succeed. -/
def photo_booth_cam_init (env : CameraEnv) (pb : PhotoBooth) : Bool × PhotoBooth :=
  let pb := pb.emit Effect.photo_booth_cam_init
  let pb := pb.emit Effect.gp_camera_init
  if env.gp_camera_init ≠ 0 then
    (false, { pb with cam_info := none })
  else
    let ci : CameraInfo :=
      { mutex_locked := false, preview_capture_count := 0, size := 0, data := none }
    (true, { pb with cam_info := some ci })

/-- The function `photo_booth_cam_close (&pb->cam_info)` on the session `ci`.
The return value is `none` when the call never returns (the mutex is held);
otherwise it is `GP_OK ? TRUE : FALSE`, which is FALSE. -/
def photo_booth_cam_close (pb : PhotoBooth) (ci : CameraInfo) : Option Bool × PhotoBooth :=
  let pb := pb.emit Effect.photo_booth_cam_close
  if ci.mutex_locked then (none, pb)
  else
    let pb := pb.emit Effect.gp_camera_exit
    (some false, { pb with cam_info := none })

/-- The function `photo_booth_take_photo (pb->cam_info)` on the session `ci`.
The return value is `none` when the call never returns (the mutex is held on
entry). -/
def photo_booth_take_photo (env : CameraEnv) (pb : PhotoBooth) (ci : CameraInfo) :
    Option Bool × PhotoBooth :=
  let pb := pb.emit Effect.photo_booth_take_photo
  if ci.mutex_locked then (none, pb)
  else
    let ci := { ci with mutex_locked := true }
    let pb := pb.emit Effect.gp_camera_capture
    if env.gp_camera_capture < 0 then (some false, { pb with cam_info := some ci })
    else
      let pb := pb.emit Effect.gp_file_new
      let pb := pb.emit Effect.gp_camera_file_get
      if env.gp_camera_file_get < 0 then (some false, { pb with cam_info := some ci })
      else
        let pb := pb.emit Effect.gp_file_get_data_and_size
        let ci :=
          if env.gp_file_get_data_and_size < 0 then ci
          else { ci with data := some env.still, size := env.still.length }
        -- the second `if (gpret < 0)` still tests the result of gp_camera_file_get
        if env.gp_camera_file_get < 0 then (some false, { pb with cam_info := some ci })
        else
          let pb := pb.emit Effect.gp_camera_file_delete
          let ci := { ci with mutex_locked := false }
          (some true, { pb with cam_info := some ci })

/-- The label `stop_running`: release `gp_file` if it is non-NULL, return. -/
def stop_running (pb : PhotoBooth) (t : CaptureThread) : LoopResult :=
  if t.gp_file then LoopResult.stopped (pb.emit Effect.gp_file_unref) t
  else LoopResult.stopped pb t

/-- The `switch (command)` of the capture loop: the worker state after the
command. -/
def apply_command (c : ControlCommand) (state : PhotoboothCaptureThreadState) :
    PhotoboothCaptureThreadState :=
  match c with
  | ControlCommand.CONTROL_STOP => PhotoboothCaptureThreadState.CAPTURE_STOP
  | ControlCommand.CONTROL_PAUSE => PhotoboothCaptureThreadState.CAPTURE_PAUSED
  | ControlCommand.CONTROL_VIDEO => PhotoboothCaptureThreadState.CAPTURE_VIDEO
  | ControlCommand.CONTROL_PHOTO => PhotoboothCaptureThreadState.CAPTURE_PHOTO
  | ControlCommand.illegal _ => state

/-- The first part of the body of `while (TRUE)` in
`photo_booth_capture_thread_func`, from the declaration of `timeout` up to the
call of `poll`: the camera probe when the worker is in INIT without a session,
and the choice of the timeout.  The result is the object, the local variables
and the timeout. -/
def prepare_poll (env : CameraEnv) (pb : PhotoBooth) (t : CaptureThread) :
    PhotoBooth × CaptureThread × Nat :=
  if t.state = PhotoboothCaptureThreadState.CAPTURE_INIT ∧ pb.cam_info.isNone then
    let c := photo_booth_cam_init env pb
    if c.1 then
      (c.2.emit (Effect.g_main_context_invoke Callback.photo_booth_preview),
       { t with state := PhotoboothCaptureThreadState.CAPTURE_VIDEO }, 5000)
    else (c.2, t, 5000)
  else if t.state = PhotoboothCaptureThreadState.CAPTURE_PAUSED then (pb, t, 1000)
  else (pb, t, 1000 / PREVIEW_FPS)

/-- The second part of the body of `while (TRUE)`: the `if` chain on the
result of `poll`.

`poll` on the control socket is modelled by the pending bytes: it fails when
`env.poll_error`, otherwise it reports the socket readable (`ret > 0`,
`revents` set) when a byte is pending and times out (`ret == 0`, `revents`
clear) when none is.  `READ_COMMAND` (a macro of `photobooth.h`) reads the
oldest pending byte. -/
def handle_poll (env : CameraEnv) (pb : PhotoBooth) (t : CaptureThread) : LoopResult :=
  if env.poll_error then stop_running pb t
  else
    match pb.control with
    | [] =>
      if t.state = PhotoboothCaptureThreadState.CAPTURE_VIDEO then
        match pb.cam_info with
        | none => LoopResult.next pb t
        | some ci =>
          if ci.mutex_locked then LoopResult.hung pb t
          else
            let pb := pb.emit Effect.gp_camera_capture_preview
            if env.gp_camera_capture_preview < 0 then
              if env.gp_camera_capture_preview = -7 then
                let t := { t with state := PhotoboothCaptureThreadState.CAPTURE_INIT }
                let pb := { pb with state := PhotoboothState.PB_STATE_NONE }
                let c := photo_booth_cam_close pb ci
                match c.1 with
                | none => LoopResult.hung c.2 t
                | some _ => LoopResult.next c.2 t
              else LoopResult.next pb t
            else
              let pb := pb.emit Effect.gp_file_get_mime_type
              if env.mime_is_jpeg then
                LoopResult.next pb { t with captured_frames := t.captured_frames + 1 }
              else LoopResult.next pb t
      else if t.state = PhotoboothCaptureThreadState.CAPTURE_PHOTO then
        match pb.cam_info with
        | none => LoopResult.next pb t
        | some ci =>
          let c := photo_booth_take_photo env pb ci
          match c.1 with
          | none => LoopResult.hung c.2 t
          | some true =>
            LoopResult.next
              (c.2.emit (Effect.g_main_context_invoke Callback.photo_booth_snapshot_taken)) t
          | some false =>
            LoopResult.next c.2 { t with state := PhotoboothCaptureThreadState.CAPTURE_INIT }
      else LoopResult.next pb t
    | c :: rest =>
      let pb := { pb with control := rest, log := pb.log ++ [Effect.read_command c] }
      LoopResult.next pb { t with state := apply_command c t.state }

/-- One pass through the body of `while (TRUE)` in
`photo_booth_capture_thread_func`: leave through `stop_running` when the state
is STOP, otherwise prepare the poll, poll, and act on its result. -/
def capture_iteration (env : CameraEnv) (pb : PhotoBooth) (t : CaptureThread) : LoopResult :=
  if t.state = PhotoboothCaptureThreadState.CAPTURE_STOP then stop_running pb t
  else
    let r := prepare_poll env pb t
    handle_poll env (r.1.emit (Effect.poll r.2.2)) r.2.1

/-- The capture loop run for as many iterations as there are entries in
`envs` (the answers of the outside world, one per iteration), or until the
thread returns or hangs. -/
def capture_loop : List CameraEnv → PhotoBooth → CaptureThread → LoopResult
  | [], pb, t => LoopResult.next pb t
  | env :: envs, pb, t =>
    match capture_iteration env pb t with
    | LoopResult.next pb1 t1 => capture_loop envs pb1 t1
    | r => r

/-- The function `photo_booth_capture_thread_func` from its entry:
`new_from_fd` is the return code of `gp_file_new_from_fd`, which leaves
`gp_file` NULL when it fails. -/
def photo_booth_capture_thread_func (new_from_fd : Int) (envs : List CameraEnv)
    (pb : PhotoBooth) : LoopResult :=
  if new_from_fd ≠ 0 then
    stop_running pb
      { state := PhotoboothCaptureThreadState.CAPTURE_INIT, gp_file := false, captured_frames := 0 }
  else
    capture_loop envs pb
      { state := PhotoboothCaptureThreadState.CAPTURE_INIT, gp_file := true, captured_frames := 0 }

/-- The call `g_thread_join (pb->capture_thread)` and what happens until it
returns.  The thread is either NULL, as `photo_booth_init` leaves the field
(the call then returns at once), or a capture worker with its local variables
and the answers the outside world gives to its remaining iterations; the call
returns when the worker has returned through `stop_running`.  The result says
whether the call returns, and gives the object with the worker's calls
logged. -/
def g_thread_join (w : Option (CaptureThread × List CameraEnv)) (pb : PhotoBooth) :
    Bool × PhotoBooth :=
  let pb := pb.emit Effect.g_thread_join
  match w with
  | none => (true, pb)
  | some (t, envs) =>
    match capture_loop envs pb t with
    | LoopResult.stopped pb1 _ => (true, pb1)
    | LoopResult.next pb1 _ => (false, pb1)
    | LoopResult.hung pb1 _ => (false, pb1)

/-- The function `photo_booth_finalize`.  `video_fd` is `pb->video_fd`, the
descriptor of the frame pipe, and `w` the capture thread.  The result says
whether the function returns (it does not when the join or the lock in
`photo_booth_cam_close` waits for ever).  `photo_booth_flush_pipe` reads the
pipe empty without blocking and is logged as one call. -/
def photo_booth_finalize (video_fd : Int) (w : Option (CaptureThread × List CameraEnv))
    (pb : PhotoBooth) : Bool × PhotoBooth :=
  let pb := SEND_COMMAND pb ControlCommand.CONTROL_STOP
  let pb := pb.emit Effect.photo_booth_flush_pipe
  let j := g_thread_join w pb
  if j.1 then
    let pb := j.2
    let c : Bool × PhotoBooth :=
      match pb.cam_info with
      | none => (true, pb)
      | some ci =>
        let r := photo_booth_cam_close pb ci
        (r.1.isSome, r.2)
    if c.1 then
      let pb := c.2
      if video_fd ≠ 0 then
        let pb := pb.emit Effect.close_video_fd
        let pb := pb.emit Effect.unlink_moviepipe
        (true, pb)
      else (true, pb)
    else (false, c.2)
  else (false, j.2)

/-- The object at the moment `photo_booth_finalize` calls `g_thread_join`:
STOP has been sent and the pipe flushed. -/
def finalize_at_join (pb : PhotoBooth) : PhotoBooth :=
  (SEND_COMMAND pb ControlCommand.CONTROL_STOP).emit Effect.photo_booth_flush_pipe

/-- How often the call `e` occurs in a log. -/
def calls (e : Effect) (log : List Effect) : Nat :=
  log.count e

/-- The calls made between two points of a run: what the log of `after` holds
beyond the log of `before`. -/
def new_calls (before after : PhotoBooth) : List Effect :=
  after.log.drop before.log.length

/-! ## Construction of the photo sub-graph -/

/-- Which of the `gst_element_factory_make` calls of `build_photo_bin`
returned an element (`true`) and which returned NULL (`false`), by the name of
the C variable. -/
structure PhotoBinElements where
  photo_bin : Bool
  photo_source : Bool
  photo_decoder : Bool
  photo_freeze : Bool
  photo_scale : Bool
  photo_filter : Bool
  photo_overlay : Bool
  photo_tee : Bool
  deriving DecidableEq, Repr

/-- What `build_photo_bin` has done when it returns: whether it returns a bin
(a non-NULL pointer), the elements it has added to the bin, the links it has
made, and whether the bin has got its ghost pad. -/
structure PhotoBinBuild where
  returned : Bool
  added : List ElementName
  linked : List (ElementName × ElementName)
  ghost_pad : Bool
  deriving DecidableEq, Repr

/-- The arguments of a GStreamer `_many` call up to the terminating NULL: the
list is NULL-terminated, so it ends at the first element that was not
created. -/
def until_null : List (ElementName × Bool) → List ElementName
  | [] => []
  | (e, made) :: rest => if made then e :: until_null rest else []

/-- Consecutive pairs of a list. -/
def chain_pairs : List ElementName → List (ElementName × ElementName)
  | a :: b :: rest => (a, b) :: chain_pairs (b :: rest)
  | _ => []

/-- The call `gst_bin_add_many (GST_BIN (bin), e1, ..., NULL)`: nothing when
the bin is NULL, otherwise the arguments up to the first NULL are added. -/
def gst_bin_add_many (bin : Bool) (args : List (ElementName × Bool)) : List ElementName :=
  if bin then until_null args else []

/-- The call `gst_element_link_many (e1, e2, ..., NULL)`: FALSE with nothing
linked when one of the first two arguments is NULL; otherwise the arguments up
to the first NULL are linked in a chain, up to the link that fails
(`link_fails_at`, counted from 0, `none` when every link succeeds).  The
result is the return value and the links made. -/
def gst_element_link_many (args : List (ElementName × Bool)) (link_fails_at : Option Nat) :
    Bool × List (ElementName × ElementName) :=
  match args with
  | (_, true) :: (_, true) :: _ =>
    match link_fails_at with
    | none => (true, chain_pairs (until_null args))
    | some k =>
      if k < (chain_pairs (until_null args)).length
      then (false, (chain_pairs (until_null args)).take k)
      else (true, chain_pairs (until_null args))
  | _ => (false, [])

/-- The C comma operator on truth values: the left operand is evaluated and
dropped, the value is that of the right operand. -/
def comma (_left right : Bool) : Bool :=
  right

/-- The function `build_photo_bin`.  The test before the construction is the C
expression `!(photo_bin && photo_source && photo_decoder && photo_freeze &&
photo_scale && photo_filter, photo_overlay, photo_tee)`: two comma operators,
so its value is that of the last operand, `photo_tee`. -/
def build_photo_bin (e : PhotoBinElements) (link_fails_at : Option Nat) : PhotoBinBuild :=
  let test :=
    comma
      (comma
        (e.photo_bin && e.photo_source && e.photo_decoder && e.photo_freeze && e.photo_scale
          && e.photo_filter)
        e.photo_overlay)
      e.photo_tee
  if !test then
    { returned := false, added := [], linked := [], ghost_pad := false }
  else
    let args := [(ElementName.photo_appsrc, e.photo_source),
      (ElementName.photo_decoder, e.photo_decoder), (ElementName.photo_freeze, e.photo_freeze),
      (ElementName.photo_scale, e.photo_scale), (ElementName.photo_capsfilter, e.photo_filter),
      (ElementName.photo_overlay, e.photo_overlay), (ElementName.photo_tee, e.photo_tee)]
    let added := gst_bin_add_many e.photo_bin args
    let l := gst_element_link_many args link_fails_at
    if !l.1 then
      { returned := false, added := added, linked := l.2, ghost_pad := false }
    else
      { returned := e.photo_bin, added := added, linked := l.2, ghost_pad := e.photo_bin }

/-- Every element of `build_photo_bin` created. -/
def all_elements_made : PhotoBinElements :=
  { photo_bin := true, photo_source := true, photo_decoder := true, photo_freeze := true,
    photo_scale := true, photo_filter := true, photo_overlay := true, photo_tee := true }

/-! ## Runs of the session and sample states -/

/-- A step of the session as far as the links to `output_bin` are concerned: a
call of `photo_booth_preview`, a call of `photo_booth_snapshot_prepare`, or
the capture worker giving `pb->cam_info` a new value (a session after a
successful probe, NULL after a close). -/
inductive SessionCall
  | photo_booth_preview
  | photo_booth_snapshot_prepare
  | set_cam_info (ci : Option CameraInfo)
  deriving DecidableEq, Repr

/-- The object after one step. -/
def SessionCall.apply (c : SessionCall) (pb : PhotoBooth) : PhotoBooth :=
  match c with
  | SessionCall.photo_booth_preview => Photobooth.photo_booth_preview pb
  | SessionCall.photo_booth_snapshot_prepare => Photobooth.photo_booth_snapshot_prepare pb
  | SessionCall.set_cam_info ci => { pb with cam_info := ci }

/-- The object after a sequence of steps, first step first. -/
def run_calls (cs : List SessionCall) (pb : PhotoBooth) : PhotoBooth :=
  cs.foldl (fun b c => c.apply b) pb

/-- Exactly one of `video_bin` and `photo_bin` is linked to `output_bin`. -/
def exactly_one_linked (pb : PhotoBooth) : Bool :=
  xor pb.video_linked pb.photo_linked

/-- The invariant that keeps the links to `output_bin` apart: neither bin is linked while the session state is
NONE, exactly one is linked otherwise, and `photo_bin` is linked only while
`video_block_id` is set. -/
def link_invariant (pb : PhotoBooth) : Prop :=
  (pb.state = PhotoboothState.PB_STATE_NONE → pb.video_linked = false ∧ pb.photo_linked = false)
  ∧ (pb.state ≠ PhotoboothState.PB_STATE_NONE → exactly_one_linked pb = true)
  ∧ (pb.photo_linked = true → pb.video_block_id ≠ 0)

/-- Whether a sequence of steps, begun with camera session `cam`, contains a
step that links a bin to `output_bin`: a `photo_booth_preview` call, or a
`photo_booth_snapshot_prepare` call made while a camera session is present. -/
def started : List SessionCall → Option CameraInfo → Bool
  | [], _ => false
  | SessionCall.photo_booth_preview :: _, _ => true
  | SessionCall.photo_booth_snapshot_prepare :: cs, cam =>
    if cam.isSome then true else started cs cam
  | SessionCall.set_cam_info ci :: cs, _ => started cs ci

/-- A camera session as `photo_booth_cam_init` leaves it. -/
def camera_ready : CameraInfo :=
  { mutex_locked := false, preview_capture_count := 0, size := 0, data := none }

/-- The session in PREVIEW with a camera: start-up with the default countdown
of 5 s, a successful probe, `photo_booth_preview`. -/
def session_preview : PhotoBooth :=
  photo_booth_preview
    { photo_booth_setup_gstreamer (photo_booth_init 5) with cam_info := some camera_ready }

/-- The session in TAKING_PHOTO: `session_preview` after
`photo_booth_snapshot_prepare`. -/
def session_taking_photo : PhotoBooth :=
  photo_booth_snapshot_prepare session_preview

/-- The session in WAITING_FOR_ANSWER with the encoder and writer attached:
`session_taking_photo` after three buffers have passed the observer. -/
def session_waiting : PhotoBooth :=
  (photo_booth_catch_photo_buffer
    (photo_booth_catch_photo_buffer
      (photo_booth_catch_photo_buffer session_taking_photo).2).2).2

/-- The worker's local variables while it streams the preview. -/
def worker_video : CaptureThread :=
  { state := PhotoboothCaptureThreadState.CAPTURE_VIDEO, gp_file := true, captured_frames := 0 }

/-- An iteration in which every library call succeeds and the preview is a
JPEG. -/
def env_ok : CameraEnv :=
  { poll_error := false, gp_camera_init := 0, gp_camera_capture_preview := 0,
    mime_is_jpeg := true, gp_camera_capture := 0, gp_file_new := 0, gp_camera_file_get := 0,
    gp_file_get_data_and_size := 0, still := [255, 216, 255], gp_camera_file_delete := 0 }

/-- Modelled from the spec: the worker state a control command names (STOP,
PAUSE, START_VIDEO, START_PHOTO); a byte that is no command names none. -/
def named_state : ControlCommand → Option PhotoboothCaptureThreadState
  | ControlCommand.CONTROL_STOP => some PhotoboothCaptureThreadState.CAPTURE_STOP
  | ControlCommand.CONTROL_PAUSE => some PhotoboothCaptureThreadState.CAPTURE_PAUSED
  | ControlCommand.CONTROL_VIDEO => some PhotoboothCaptureThreadState.CAPTURE_VIDEO
  | ControlCommand.CONTROL_PHOTO => some PhotoboothCaptureThreadState.CAPTURE_PHOTO
  | ControlCommand.illegal _ => none

/-- The commands read from the control socket, in the order of reading. -/
def commands_read (log : List Effect) : List ControlCommand :=
  log.filterMap (fun e =>
    match e with
    | Effect.read_command c => some c
    | _ => none)

/-- Whether a logged call is a call of a camera session operation (probe,
still capture, close) or of a libgphoto2 function on the camera or on a
captured file. -/
def is_camera_call : Effect → Bool
  | Effect.photo_booth_cam_init => true
  | Effect.gp_camera_init => true
  | Effect.gp_camera_capture_preview => true
  | Effect.gp_file_get_mime_type => true
  | Effect.photo_booth_take_photo => true
  | Effect.gp_camera_capture => true
  | Effect.gp_file_new => true
  | Effect.gp_camera_file_get => true
  | Effect.gp_file_get_data_and_size => true
  | Effect.gp_camera_file_delete => true
  | Effect.photo_booth_cam_close => true
  | Effect.gp_camera_exit => true
  | _ => false

/-- Whether a loop result is a thread waiting for ever on the session mutex. -/
def LoopResult.hangs : LoopResult → Bool
  | LoopResult.hung _ _ => true
  | _ => false

/-- An iteration in which the capture succeeds but the retrieval of the file
from the camera fails. -/
def env_file_get_fails : CameraEnv :=
  { env_ok with gp_camera_file_get := -1 }

/-- The session after a failed still capture, when the operator's next try has
sent START_PHOTO again. -/
def session_retry_after_failure : PhotoBooth :=
  { (capture_iteration { env_ok with gp_camera_capture := -1 }
      { photo_booth_snapshot_prepare session_preview with control := [] }
      { state := PhotoboothCaptureThreadState.CAPTURE_PHOTO, gp_file := true,
        captured_frames := 0 }).pb with
    control := [ControlCommand.CONTROL_PHOTO] }

/-- The preview session at a moment when the buffer of the control socket is
full: two commands are pending and the buffer holds no more than two. -/
def session_preview_full : PhotoBooth :=
  { session_preview with
    control := [ControlCommand.CONTROL_VIDEO, ControlCommand.CONTROL_VIDEO],
    control_capacity := 2 }

/-- The worker's local variables while it is paused. -/
def worker_paused : CaptureThread :=
  { state := PhotoboothCaptureThreadState.CAPTURE_PAUSED, gp_file := true, captured_frames := 0 }

/-- The timeouts (in ms) of the `poll` calls in a log, in the order of the
calls. -/
def polls (log : List Effect) : List Nat :=
  log.filterMap (fun e =>
    match e with
    | Effect.poll timeout => some timeout
    | _ => none)

/-- The worker's local variables on entry to the loop: INIT, `gp_file`
allocated, no frame captured. -/
def worker_init : CaptureThread :=
  { state := PhotoboothCaptureThreadState.CAPTURE_INIT, gp_file := true, captured_frames := 0 }

/-- The worker's local variables while a still is requested. -/
def worker_photo : CaptureThread :=
  { state := PhotoboothCaptureThreadState.CAPTURE_PHOTO, gp_file := true, captured_frames := 0 }

/-- The session right after start-up: no camera, session state NONE. -/
def session_started : PhotoBooth :=
  photo_booth_setup_gstreamer (photo_booth_init 5)

/-- The session in TAKING_PHOTO once the worker has read the START_PHOTO
command: `session_taking_photo` with nothing pending on the control socket. -/
def session_photo_armed : PhotoBooth :=
  { session_taking_photo with control := [] }

/-- The session right after start-up with a byte that is no command pending
on the control socket. -/
def session_started_illegal : PhotoBooth :=
  { session_started with control := [ControlCommand.illegal 63] }

/-- An iteration in which the preview capture succeeds but the file does not
have the JPEG MIME type. -/
def env_wrong_mime : CameraEnv :=
  { env_ok with mime_is_jpeg := false }

/-- An iteration in which the camera probe fails (no device attached). -/
def env_no_camera : CameraEnv :=
  { env_ok with gp_camera_init := -105 }

/-- An iteration in which the preview capture reports the device gone (-7). -/
def env_disconnect : CameraEnv :=
  { env_ok with gp_camera_capture_preview := -7 }

/-- An iteration in which only the deletion of the still from the camera
fails. -/
def env_delete_fails : CameraEnv :=
  { env_ok with gp_camera_file_delete := -1 }

/-- An iteration in which only the creation of the file object fails. -/
def env_file_new_fails : CameraEnv :=
  { env_ok with gp_file_new := -3 }

/-- An iteration in which the still capture fails with the generic error -1. -/
def env_capture_fails : CameraEnv :=
  { env_ok with gp_camera_capture := -1 }

/-- An iteration in which the still capture reports the device gone (-7). -/
def env_capture_disconnect : CameraEnv :=
  { env_ok with gp_camera_capture := -7 }

/-- The object after `n` buffers have arrived at the `src` pad of `photo_bin`
with the observer `photo_booth_catch_photo_buffer` installed: one call per
buffer, until a call returns `GST_PAD_PROBE_REMOVE`; the probe is then gone
and later buffers are not observed. -/
def pass_buffers : Nat → PhotoBooth → PhotoBooth
  | 0, pb => pb
  | n + 1, pb =>
    match photo_booth_catch_photo_buffer pb with
    | (some GstPadProbeReturn.GST_PAD_PROBE_REMOVE, pb1) => pb1
    | (_, pb1) => pass_buffers n pb1

/-- A cycle without operator confirm: switch to the photo, let `n` buffers
pass the observer, switch back to the preview. -/
def photo_cycle (n : Nat) (pb : PhotoBooth) : PhotoBooth :=
  photo_booth_preview (pass_buffers n (photo_booth_snapshot_prepare pb))

/-- The part of an iteration after the poll, entered with object `pb` and
local variables `t`, calls `photo_booth_take_photo` and the call returns TRUE:
the poll has timed out (it did not fail and no command is pending), the worker
state is PHOTO, a camera session exists, and the function's return value on
that session is TRUE. -/
def still_taken (env : CameraEnv) (pb : PhotoBooth) (t : CaptureThread) : Prop :=
  t.state = PhotoboothCaptureThreadState.CAPTURE_PHOTO
    ∧ env.poll_error = false
    ∧ pb.control = []
    ∧ ∃ ci, pb.cam_info = some ci ∧ (photo_booth_take_photo env pb ci).1 = some true

/-! ## The masks of `photoboothmasquerade.c` -/

/-- One detected face: the `x`, `y`, `width` and `height` fields (all `guint`)
of the structure the face detector attaches to a frame. -/
structure Face where
  x : Nat
  y : Nat
  width : Nat
  height : Nat
  deriving DecidableEq, Repr

/-- The session states `photoboothmasquerade.c` tells apart when it shows a
mask; `other` is every other value of the enum. -/
inductive MaskState
  | PB_STATE_COUNTDOWN
  | PB_STATE_PREVIEW
  | PB_STATE_ASK_PRINT
  | other (state : Int)
  deriving DecidableEq, Repr

/-- The fields of `struct _PhotoBoothMask` the code below reads: the image the
pixbuf was loaded from, whether `imagew` is set, and the offsets. -/
structure PhotoBoothMask where
  pixbuf : String
  imagew : Bool
  offset_x : Int
  offset_y : Int
  deriving DecidableEq, Repr

/-- The two widgets of a mask. -/
inductive MaskWidget
  | eventw
  | imagew
  deriving DecidableEq, Repr

/-- The toolkit calls made for a mask.  The position passed to
`gtk_fixed_move` and the size passed to `gdk_pixbuf_scale_simple` are computed
from the face, the mask and (when `scaled`) the width ratio of face and
pixbuf; the calls are recorded with these inputs. -/
inductive MaskEffect
  | photo_booth_mask_connect_events (mask : PhotoBoothMask)
  | gtk_fixed_move (mask : PhotoBoothMask) (face : Face) (scaled : Bool)
  | gtk_image_set_from_pixbuf (mask : PhotoBoothMask) (face : Face) (scaled : Bool)
  | gtk_widget_show (mask : PhotoBoothMask) (widget : MaskWidget)
  | gtk_widget_hide (mask : PhotoBoothMask) (widget : MaskWidget)
  deriving DecidableEq, Repr

/-- Place a mask on a face and show it.  When `imagew` is not set nothing is
done.  `none` as the result is a NULL face being read. -/
def photo_booth_mask_show (mask : PhotoBoothMask) (face : Option Face) (state : MaskState) :
    Option (List MaskEffect) :=
  if !mask.imagew then some []
  else
    match face with
    | none => none
    | some f =>
      let scaled : Bool :=
        state = MaskState.PB_STATE_COUNTDOWN || state = MaskState.PB_STATE_PREVIEW
      let events : List MaskEffect :=
        if !scaled && state = MaskState.PB_STATE_ASK_PRINT then
          [MaskEffect.photo_booth_mask_connect_events mask]
        else []
      some (events ++
        [MaskEffect.gtk_fixed_move mask f scaled,
         MaskEffect.gtk_image_set_from_pixbuf mask f scaled,
         MaskEffect.gtk_widget_show mask MaskWidget.eventw,
         MaskEffect.gtk_widget_show mask MaskWidget.imagew])

/-- Hide a mask.  The argument is the `data` pointer of the list node; `none`
as the result is a NULL pointer being dereferenced. -/
def photo_booth_mask_hide : Option PhotoBoothMask → Option (List MaskEffect)
  | none => none
  | some mask =>
    if !mask.imagew then some []
    else
      some [MaskEffect.gtk_widget_hide mask MaskWidget.eventw,
            MaskEffect.gtk_widget_hide mask MaskWidget.imagew]

/-- The comparison function handed to the sorted insertion: `+1` when the first
face lies to the right of the second, `-1` otherwise (never `0`). -/
def _pbm_sort_faces_by_xpos (f1 f2 : Face) : Int :=
  if f1.x > f2.x then 1 else -1

/-- GLib's `g_list_insert_sorted_with_data`: walk past the elements for which
`func data element > 0` and insert `data` before the first other element, or
at the end. -/
def g_list_insert_sorted_with_data {α : Type} (list : List α) (data : α)
    (func : α → α → Int) : List α :=
  match list with
  | [] => [data]
  | e :: rest =>
    if func data e > 0 then e :: g_list_insert_sorted_with_data rest data func
    else data :: e :: rest

/-- The first loop of `photo_booth_masquerade_faces_detected`: every detected
face, in the order of the list, is inserted into `sorted_faces`. -/
def sorted_faces (faces : List Face) : List Face :=
  faces.foldl (fun sorted face =>
    g_list_insert_sorted_with_data sorted face _pbm_sort_faces_by_xpos) []

/-- The second loop of `photo_booth_masquerade_faces_detected`, from index `i`
on; the list argument holds the `data` pointers of the nodes `i`, `i + 1`, ...
of `masq->masks`. -/
def masks_loop (n_faces : Nat) (sorted : List Face) (state : MaskState) :
    Nat → List (Option PhotoBoothMask) → Option (List MaskEffect)
  | _, [] => some []
  | i, mask :: rest =>
    let step : Option (List MaskEffect) :=
      match mask with
      | some m =>
        if i < n_faces then photo_booth_mask_show m (sorted.get? i) state
        else photo_booth_mask_hide (some m)
      | none => photo_booth_mask_hide none
    match step with
    | none => none
    | some es =>
      match masks_loop n_faces sorted state (i + 1) rest with
      | none => none
      | some more => some (es ++ more)

/-- The handler of a face detection message.  `faces` is `none` when the value
does not hold a list. -/
def photo_booth_masquerade_faces_detected (masks : List (Option PhotoBoothMask))
    (faces : Option (List Face)) (state : MaskState) : Option (List MaskEffect) :=
  let n_faces : Nat := match faces with
    | some fs => fs.length
    | none => 0
  let sorted : List Face := match faces with
    | some fs => sorted_faces fs
    | none => []
  masks_loop n_faces sorted state 0 masks

/-- The two masks `photo_booth_masquerade_init_masks` creates. -/
def init_masks : List PhotoBoothMask :=
  [{ pixbuf := "overlays/mask_nasenbrille.png", imagew := true, offset_x := 0, offset_y := 40 },
   { pixbuf := "overlays/mask_fuchsohren.png", imagew := true, offset_x := 10, offset_y := -120 }]

/-! ## Theorems -/

/-! ### C1: the countdown delay -/

/-- C1, counterexample: with a countdown of 1 s, and with a countdown of 0 s,
`photo_booth_snapshot_start` does not schedule `photo_booth_snapshot_prepare`
after 1000 ms: the one timer it adds has a delay of 1 ms. -/
theorem snapshot_start_short_countdown_not_1000 :
    scheduled (photo_booth_snapshot_start (photo_booth_init 1)).log
        ≠ [(1000, Callback.photo_booth_snapshot_prepare)]
      ∧ scheduled (photo_booth_snapshot_start (photo_booth_init 0)).log
        ≠ [(1000, Callback.photo_booth_snapshot_prepare)]
      ∧ scheduled (photo_booth_snapshot_start (photo_booth_init 1)).log
        = [(1, Callback.photo_booth_snapshot_prepare)]
      ∧ scheduled (photo_booth_snapshot_start (photo_booth_init 0)).log
        = [(1, Callback.photo_booth_snapshot_prepare)] := by
  decide

/-- C1, amended: for every countdown length N with 0 <= N <= 60,
`photo_booth_snapshot_start` schedules exactly one new timer, for
`photo_booth_snapshot_prepare`, after N*1000 - 100 ms when N > 1 and after
1 ms when N <= 1. -/
theorem snapshot_start_delay (pb : PhotoBooth) (h : pb.countdown ≤ 60) :
    scheduled (photo_booth_snapshot_start pb).log
      = scheduled pb.log
        ++ [(if pb.countdown > 1 then pb.countdown * 1000 - 100 else 1,
             Callback.photo_booth_snapshot_prepare)] := by
  by_cases h1 : pb.countdown > 1
  · simp [photo_booth_snapshot_start, scheduled, PhotoBooth.emit, gst_element_set_state,
      List.filterMap_append, h1]
    omega
  · simp [photo_booth_snapshot_start, scheduled, PhotoBooth.emit, gst_element_set_state,
      List.filterMap_append, h1]

/-- Witness of C1 at the default countdown of 5 s: the timer is set to 4900 ms. -/
theorem snapshot_start_delay_witness :
    scheduled (photo_booth_snapshot_start (photo_booth_init 5)).log
      = scheduled (photo_booth_init 5).log
        ++ [(if (photo_booth_init 5).countdown > 1
              then (photo_booth_init 5).countdown * 1000 - 100 else 1,
             Callback.photo_booth_snapshot_prepare)] :=
  snapshot_start_delay (photo_booth_init 5) (by decide)

/-! ### C2: one sub-graph linked to the output -/

/-- The state left by start-up satisfies the link invariant. -/
theorem link_invariant_setup (countdown : Nat) :
    link_invariant (photo_booth_setup_gstreamer (photo_booth_init countdown)) := by
  simp [link_invariant, photo_booth_setup_gstreamer, photo_booth_init, gst_element_set_state,
    PhotoBooth.emit]

/-- Switching to the preview keeps the link invariant. -/
theorem link_invariant_preview (pb : PhotoBooth) (h : link_invariant pb) :
    link_invariant (photo_booth_preview pb) := by
  obtain ⟨_, _, h3⟩ := h
  by_cases hb : pb.video_block_id = 0
  · have hp : pb.photo_linked = false := by
      cases hl : pb.photo_linked
      · rfl
      · exact absurd hb (h3 hl)
    simp [link_invariant, photo_booth_preview, hb, link_video_bin, gst_element_set_state,
      PhotoBooth.emit, exactly_one_linked, hp]
  · simp [link_invariant, photo_booth_preview, hb, link_video_bin, gst_element_set_state,
      PhotoBooth.emit, exactly_one_linked, photo_pad_add_probe, unlink_photo_bin,
      video_pad_remove_probe]

/-- Switching to the photo keeps the link invariant. -/
theorem link_invariant_snapshot_prepare (pb : PhotoBooth) (h : link_invariant pb) :
    link_invariant (photo_booth_snapshot_prepare pb) := by
  cases hc : pb.cam_info with
  | none => simpa [photo_booth_snapshot_prepare, hc] using h
  | some ci =>
    by_cases hb : pb.photo_block_id = 0
    · simp [link_invariant, photo_booth_snapshot_prepare, hc, hb, link_photo_bin,
        gst_element_set_state, PhotoBooth.emit, exactly_one_linked, video_pad_add_probe,
        unlink_video_bin, SEND_COMMAND]
    · simp [link_invariant, photo_booth_snapshot_prepare, hc, hb, link_photo_bin,
        gst_element_set_state, PhotoBooth.emit, exactly_one_linked, video_pad_add_probe,
        unlink_video_bin, SEND_COMMAND, photo_pad_remove_probe]

/-- Every sequence of steps keeps the link invariant. -/
theorem link_invariant_run (cs : List SessionCall) (pb : PhotoBooth) (h : link_invariant pb) :
    link_invariant (run_calls cs pb) := by
  induction cs generalizing pb with
  | nil => simpa [run_calls] using h
  | cons c cs ih =>
    have hstep : link_invariant (c.apply pb) := by
      cases c with
      | photo_booth_preview => exact link_invariant_preview pb h
      | photo_booth_snapshot_prepare => exact link_invariant_snapshot_prepare pb h
      | set_cam_info ci => exact h
    simpa [run_calls] using ih (c.apply pb) hstep

/-- Under the link invariant the two bins are not both linked to the output. -/
theorem never_both_linked (pb : PhotoBooth) (h : link_invariant pb) :
    (pb.video_linked && pb.photo_linked) = false := by
  obtain ⟨h1, h2, _⟩ := h
  by_cases hs : pb.state = PhotoboothState.PB_STATE_NONE
  · simp [(h1 hs).1]
  · have hx := h2 hs
    simp only [exactly_one_linked] at hx
    revert hx
    cases pb.video_linked <;> cases pb.photo_linked <;> simp

/-- No step of a run takes the session state back to NONE. -/
theorem state_left_none_run (cs : List SessionCall) (pb : PhotoBooth)
    (h : pb.state ≠ PhotoboothState.PB_STATE_NONE) :
    (run_calls cs pb).state ≠ PhotoboothState.PB_STATE_NONE := by
  induction cs generalizing pb with
  | nil => simpa [run_calls] using h
  | cons c cs ih =>
    have hstep : (c.apply pb).state ≠ PhotoboothState.PB_STATE_NONE := by
      cases c with
      | photo_booth_preview => simp [SessionCall.apply, photo_booth_preview]
      | photo_booth_snapshot_prepare =>
        cases hc : pb.cam_info with
        | none => simpa [SessionCall.apply, photo_booth_snapshot_prepare, hc] using h
        | some ci =>
          by_cases hb : pb.photo_block_id = 0 <;>
            simp [SessionCall.apply, photo_booth_snapshot_prepare, hc, hb, link_photo_bin,
              gst_element_set_state, PhotoBooth.emit, video_pad_add_probe, unlink_video_bin,
              SEND_COMMAND, photo_pad_remove_probe]
      | set_cam_info ci => exact h
    simpa [run_calls] using ih (c.apply pb) hstep

/-- From a state in NONE, exactly one bin is linked after a run precisely when
the run contains a linking step. -/
theorem exactly_one_linked_run (cs : List SessionCall) (pb : PhotoBooth)
    (h : link_invariant pb) (hs : pb.state = PhotoboothState.PB_STATE_NONE) :
    exactly_one_linked (run_calls cs pb) = started cs pb.cam_info := by
  induction cs generalizing pb with
  | nil =>
    obtain ⟨h1, _, _⟩ := h
    simp [run_calls, started, exactly_one_linked, (h1 hs).1, (h1 hs).2]
  | cons c cs ih =>
    cases c with
    | photo_booth_preview =>
      have hi := link_invariant_run cs _ (link_invariant_preview pb h)
      have hn : (run_calls cs (photo_booth_preview pb)).state ≠ PhotoboothState.PB_STATE_NONE :=
        state_left_none_run cs _ (by simp [photo_booth_preview])
      simpa [run_calls, started, SessionCall.apply] using hi.2.1 hn
    | photo_booth_snapshot_prepare =>
      cases hc : pb.cam_info with
      | none =>
        have hp : photo_booth_snapshot_prepare pb = pb := by
          simp [photo_booth_snapshot_prepare, hc]
        have := ih pb h hs
        simpa [run_calls, started, SessionCall.apply, hp, hc] using this
      | some ci =>
        have hi := link_invariant_run cs _ (link_invariant_snapshot_prepare pb h)
        have hn : (run_calls cs (photo_booth_snapshot_prepare pb)).state
            ≠ PhotoboothState.PB_STATE_NONE := by
          apply state_left_none_run
          by_cases hb : pb.photo_block_id = 0 <;>
            simp [photo_booth_snapshot_prepare, hc, hb, link_photo_bin,
              gst_element_set_state, PhotoBooth.emit, video_pad_add_probe, unlink_video_bin,
              SEND_COMMAND, photo_pad_remove_probe]
        simpa [run_calls, started, SessionCall.apply, hc] using hi.2.1 hn
    | set_cam_info ci =>
      have := ih { pb with cam_info := ci } h hs
      simpa [run_calls, started, SessionCall.apply] using this

/-- C2, counterexample: in the state left by `photo_booth_setup_gstreamer`
neither `video_bin` nor `photo_bin` is linked to `output_bin`, so it is not the
case that exactly one of them is; the same holds after a
`photo_booth_snapshot_prepare` call made while there is no camera session. -/
theorem setup_gstreamer_links_nothing :
    exactly_one_linked (photo_booth_setup_gstreamer (photo_booth_init 5)) = false
      ∧ (photo_booth_setup_gstreamer (photo_booth_init 5)).video_linked = false
      ∧ (photo_booth_setup_gstreamer (photo_booth_init 5)).photo_linked = false
      ∧ exactly_one_linked
          (run_calls [SessionCall.photo_booth_snapshot_prepare]
            (photo_booth_setup_gstreamer (photo_booth_init 5))) = false := by
  decide

/-- C2, amended: in every state reachable from the state left by
`photo_booth_setup_gstreamer` through any sequence of `photo_booth_preview`
and `photo_booth_snapshot_prepare` calls (with the camera session appearing
and disappearing in between), `video_bin` and `photo_bin` are never both
linked to `output_bin`; exactly one of them is linked once the sequence
contains a `photo_booth_preview` call or a `photo_booth_snapshot_prepare`
call made with a camera session present, and neither is linked before that. -/
theorem exactly_one_linked_iff_started (countdown : Nat) (cs : List SessionCall) :
    ((run_calls cs (photo_booth_setup_gstreamer (photo_booth_init countdown))).video_linked
        && (run_calls cs (photo_booth_setup_gstreamer (photo_booth_init countdown))).photo_linked)
        = false
      ∧ exactly_one_linked
          (run_calls cs (photo_booth_setup_gstreamer (photo_booth_init countdown)))
        = started cs none := by
  have hinv := link_invariant_setup countdown
  have hnone : (photo_booth_setup_gstreamer (photo_booth_init countdown)).state
      = PhotoboothState.PB_STATE_NONE := rfl
  have hcam : (photo_booth_setup_gstreamer (photo_booth_init countdown)).cam_info = none := rfl
  constructor
  · exact never_both_linked _ (link_invariant_run cs _ hinv)
  · rw [← hcam]
    exact exactly_one_linked_run cs _ hinv hnone

/-! ### C3: the buffer handshake -/

/-- First case of the observer: in TAKING_PHOTO it moves to PROCESS_PHOTO,
hides the spinner and shows the confirm button. -/
theorem catch_photo_buffer_taking (pb : PhotoBooth)
    (hs : pb.state = PhotoboothState.PB_STATE_TAKING_PHOTO) :
    photo_booth_catch_photo_buffer pb
      = (some GstPadProbeReturn.GST_PAD_PROBE_PASS,
         { pb with state := PhotoboothState.PB_STATE_PROCESS_PHOTO,
                   log := pb.log ++ [Effect.photo_booth_window_set_spinner false,
                     Effect.gtk_widget_show_button_yes] }) := by
  simp [photo_booth_catch_photo_buffer, hs, PhotoBooth.emit]

/-- Second case of the observer: in PROCESS_PHOTO without an encoder it
attaches encoder and writer and keeps the state. -/
theorem catch_photo_buffer_attach (pb : PhotoBooth)
    (hs : pb.state = PhotoboothState.PB_STATE_PROCESS_PHOTO)
    (he : ElementName.photo_encoder ∉ pb.photo_elements) :
    photo_booth_catch_photo_buffer pb
      = (some GstPadProbeReturn.GST_PAD_PROBE_PASS,
         { pb with
           photo_elements := pb.photo_elements
             ++ [ElementName.photo_encoder, ElementName.photo_filesink],
           photo_links := pb.photo_links
             ++ [(ElementName.photo_tee, ElementName.photo_encoder),
                 (ElementName.photo_encoder, ElementName.photo_filesink)],
           log := pb.log ++ [Effect.filesink_set_location,
             Effect.gst_bin_add GstObject.photo_bin ElementName.photo_encoder,
             Effect.gst_bin_add GstObject.photo_bin ElementName.photo_filesink,
             Effect.gst_element_link (GstObject.element ElementName.photo_tee)
               (GstObject.element ElementName.photo_encoder),
             Effect.gst_element_link (GstObject.element ElementName.photo_encoder)
               (GstObject.element ElementName.photo_filesink),
             Effect.gst_element_set_state GstObject.photo_bin GstState.GST_STATE_PLAYING] }) := by
  simp [photo_booth_catch_photo_buffer, hs, photo_bin_has, he, PhotoBooth.emit, photo_bin_add,
    photo_link, gst_element_set_state]

/-- Third case of the observer: in PROCESS_PHOTO with the encoder present it
moves to WAITING_FOR_ANSWER and does nothing else. -/
theorem catch_photo_buffer_attached (pb : PhotoBooth)
    (hs : pb.state = PhotoboothState.PB_STATE_PROCESS_PHOTO)
    (he : ElementName.photo_encoder ∈ pb.photo_elements) :
    photo_booth_catch_photo_buffer pb
      = (some GstPadProbeReturn.GST_PAD_PROBE_PASS,
         { pb with state := PhotoboothState.PB_STATE_WAITING_FOR_ANSWER }) := by
  simp [photo_booth_catch_photo_buffer, hs, photo_bin_has, he]

/-- C3, counterexample: from TAKING_PHOTO with no encoder in `photo_bin`, two
buffers at the observer leave the session in PROCESS_PHOTO, not in
WAITING_FOR_ANSWER (the second buffer attaches the encoder and writer and
leaves the state alone). -/
theorem two_buffers_not_waiting :
    session_taking_photo.state = PhotoboothState.PB_STATE_TAKING_PHOTO
      ∧ ElementName.photo_encoder ∉ session_taking_photo.photo_elements
      ∧ (photo_booth_catch_photo_buffer
          (photo_booth_catch_photo_buffer session_taking_photo).2).2.state
        ≠ PhotoboothState.PB_STATE_WAITING_FOR_ANSWER
      ∧ (photo_booth_catch_photo_buffer
          (photo_booth_catch_photo_buffer session_taking_photo).2).2.state
        = PhotoboothState.PB_STATE_PROCESS_PHOTO := by
  decide

/-- C3, amended: starting from TAKING_PHOTO with no encoder+writer branch in
`photo_bin`, `photo_booth_catch_photo_buffer` moves the session to
PROCESS_PHOTO on the first buffer (attaching nothing); on the second buffer it
adds `photo-encoder` and `photo-filesink` to `photo_bin`, links tee, encoder and
writer, and leaves the session in PROCESS_PHOTO; on the third buffer it moves
the session to WAITING_FOR_ANSWER with the branch still attached.  Every one of
the three calls lets the buffer pass. -/
theorem three_buffers_to_waiting (pb : PhotoBooth)
    (hs : pb.state = PhotoboothState.PB_STATE_TAKING_PHOTO)
    (he : ElementName.photo_encoder ∉ pb.photo_elements) :
    (photo_booth_catch_photo_buffer pb).2.state = PhotoboothState.PB_STATE_PROCESS_PHOTO
      ∧ (photo_booth_catch_photo_buffer pb).2.photo_elements = pb.photo_elements
      ∧ (photo_booth_catch_photo_buffer pb).2.photo_links = pb.photo_links
      ∧ (photo_booth_catch_photo_buffer (photo_booth_catch_photo_buffer pb).2).2.state
          = PhotoboothState.PB_STATE_PROCESS_PHOTO
      ∧ (photo_booth_catch_photo_buffer (photo_booth_catch_photo_buffer pb).2).2.photo_elements
          = pb.photo_elements ++ [ElementName.photo_encoder, ElementName.photo_filesink]
      ∧ (photo_booth_catch_photo_buffer (photo_booth_catch_photo_buffer pb).2).2.photo_links
          = pb.photo_links ++ [(ElementName.photo_tee, ElementName.photo_encoder),
              (ElementName.photo_encoder, ElementName.photo_filesink)]
      ∧ (photo_booth_catch_photo_buffer
          (photo_booth_catch_photo_buffer (photo_booth_catch_photo_buffer pb).2).2).2.state
          = PhotoboothState.PB_STATE_WAITING_FOR_ANSWER
      ∧ (photo_booth_catch_photo_buffer
          (photo_booth_catch_photo_buffer (photo_booth_catch_photo_buffer pb).2).2).2.photo_elements
          = pb.photo_elements ++ [ElementName.photo_encoder, ElementName.photo_filesink]
      ∧ (photo_booth_catch_photo_buffer pb).1 = some GstPadProbeReturn.GST_PAD_PROBE_PASS
      ∧ (photo_booth_catch_photo_buffer (photo_booth_catch_photo_buffer pb).2).1
          = some GstPadProbeReturn.GST_PAD_PROBE_PASS
      ∧ (photo_booth_catch_photo_buffer
          (photo_booth_catch_photo_buffer (photo_booth_catch_photo_buffer pb).2).2).1
          = some GstPadProbeReturn.GST_PAD_PROBE_PASS := by
  have h1 := catch_photo_buffer_taking pb hs
  have h2 := catch_photo_buffer_attach (photo_booth_catch_photo_buffer pb).2
    (by rw [h1]) (by rw [h1]; exact he)
  have h3 := catch_photo_buffer_attached
    (photo_booth_catch_photo_buffer (photo_booth_catch_photo_buffer pb).2).2
    (by rw [h2]; rw [h1]) (by rw [h2]; simp)
  refine ⟨?_, ?_, ?_, ?_, ?_, ?_, ?_, ?_, ?_, ?_, ?_⟩
  · rw [h1]
  · rw [h1]
  · rw [h1]
  · rw [h2]; rw [h1]
  · rw [h2]; rw [h1]
  · rw [h2]; rw [h1]
  · rw [h3]
  · rw [h3]; rw [h2]; rw [h1]
  · rw [h1]
  · rw [h2]
  · rw [h3]

/-- Witness of C3 at `session_taking_photo`. -/
theorem three_buffers_to_waiting_witness :
    (photo_booth_catch_photo_buffer
      (photo_booth_catch_photo_buffer
        (photo_booth_catch_photo_buffer session_taking_photo).2).2).2.state
      = PhotoboothState.PB_STATE_WAITING_FOR_ANSWER :=
  (three_buffers_to_waiting session_taking_photo (by decide) (by decide)).2.2.2.2.2.2.1

/-! ### C4, C5: a click on the background -/

/-- C4, the code at the failing input: a background click in PREVIEW runs the
print dialog and nothing else; no timer is scheduled, the countdown is not
started and the session stays in PREVIEW. -/
theorem background_clicked_in_preview :
    session_preview.state = PhotoboothState.PB_STATE_PREVIEW
      ∧ (photo_booth_background_clicked session_preview).log
          = session_preview.log ++ [Effect.do_print]
      ∧ scheduled (photo_booth_background_clicked session_preview).log = []
      ∧ scheduled (photo_booth_snapshot_start session_preview).log
          = [(4900, Callback.photo_booth_snapshot_prepare)]
      ∧ (photo_booth_background_clicked session_preview).state
          = PhotoboothState.PB_STATE_PREVIEW := by
  decide

/-- C5, the code at the failing input: a background click in
WAITING_FOR_ANSWER runs the print dialog and nothing else; the confirm button
is not hidden, the session stays in WAITING_FOR_ANSWER and `photo_bin`, not
`video_bin`, stays linked to the output. -/
theorem background_clicked_in_waiting :
    session_waiting.state = PhotoboothState.PB_STATE_WAITING_FOR_ANSWER
      ∧ (photo_booth_background_clicked session_waiting).log
          = session_waiting.log ++ [Effect.do_print]
      ∧ (photo_booth_background_clicked session_waiting).state
          = PhotoboothState.PB_STATE_WAITING_FOR_ANSWER
      ∧ (photo_booth_background_clicked session_waiting).video_linked = false
      ∧ (photo_booth_background_clicked session_waiting).photo_linked = true := by
  decide

/-! ### C6: the confirm button -/

/-- C6: `photo_booth_button_yes_clicked` hides the confirm button if and only
if the session state is WAITING_FOR_ANSWER: in that state the one call it
makes is the hide, made before it returns; in every other state it makes no
call and changes nothing.  In no state does it change the session state. -/
theorem button_yes_clicked_hides_iff_waiting (pb : PhotoBooth) :
    (photo_booth_button_yes_clicked pb).log
        = pb.log ++ (if pb.state = PhotoboothState.PB_STATE_WAITING_FOR_ANSWER
            then [Effect.gtk_widget_hide_button_yes] else [])
      ∧ (photo_booth_button_yes_clicked pb
          = if pb.state = PhotoboothState.PB_STATE_WAITING_FOR_ANSWER
              then { pb with log := pb.log ++ [Effect.gtk_widget_hide_button_yes] } else pb)
      ∧ (photo_booth_button_yes_clicked pb).state = pb.state := by
  by_cases h : pb.state = PhotoboothState.PB_STATE_WAITING_FOR_ANSWER <;>
    simp [photo_booth_button_yes_clicked, photo_booth_print, PhotoBooth.emit, h]

/-! ### C7: who detaches the encoder and writer -/

/-- C7, counterexample: in WAITING_FOR_ANSWER with the encoder and writer
attached, neither the confirm (`photo_booth_button_yes_clicked`) nor the retry
(`photo_booth_preview`) detaches them: after either call `photo-encoder` and
`photo-filesink` are still children of `photo_bin`, still linked to the tee. -/
theorem confirm_and_retry_keep_encoder :
    session_waiting.state = PhotoboothState.PB_STATE_WAITING_FOR_ANSWER
      ∧ ElementName.photo_encoder ∈ session_waiting.photo_elements
      ∧ ElementName.photo_encoder ∈ (photo_booth_button_yes_clicked session_waiting).photo_elements
      ∧ ElementName.photo_filesink ∈ (photo_booth_button_yes_clicked session_waiting).photo_elements
      ∧ (ElementName.photo_tee, ElementName.photo_encoder)
          ∈ (photo_booth_button_yes_clicked session_waiting).photo_links
      ∧ ElementName.photo_encoder ∈ (photo_booth_preview session_waiting).photo_elements
      ∧ ElementName.photo_filesink ∈ (photo_booth_preview session_waiting).photo_elements
      ∧ (ElementName.photo_tee, ElementName.photo_encoder)
          ∈ (photo_booth_preview session_waiting).photo_links := by
  decide

/-- C7, amended: the encoder+writer branch is detached by the buffer observer,
not by the operator's action: the first buffer that
`photo_booth_catch_photo_buffer` sees in WAITING_FOR_ANSWER unlinks and removes
`photo-encoder` and `photo-filesink` (and asks for its own probe to be
removed), whereas `photo_booth_button_yes_clicked` and `photo_booth_preview`
leave the children and links of `photo_bin` as they are. -/
theorem encoder_detached_by_observer (pb : PhotoBooth)
    (hs : pb.state = PhotoboothState.PB_STATE_WAITING_FOR_ANSWER) :
    ElementName.photo_encoder ∉ (photo_booth_catch_photo_buffer pb).2.photo_elements
      ∧ ElementName.photo_filesink ∉ (photo_booth_catch_photo_buffer pb).2.photo_elements
      ∧ (ElementName.photo_tee, ElementName.photo_encoder)
          ∉ (photo_booth_catch_photo_buffer pb).2.photo_links
      ∧ (ElementName.photo_encoder, ElementName.photo_filesink)
          ∉ (photo_booth_catch_photo_buffer pb).2.photo_links
      ∧ (photo_booth_catch_photo_buffer pb).1 = some GstPadProbeReturn.GST_PAD_PROBE_REMOVE
      ∧ (photo_booth_button_yes_clicked pb).photo_elements = pb.photo_elements
      ∧ (photo_booth_button_yes_clicked pb).photo_links = pb.photo_links
      ∧ (photo_booth_preview pb).photo_elements = pb.photo_elements
      ∧ (photo_booth_preview pb).photo_links = pb.photo_links := by
  refine ⟨?_, ?_, ?_, ?_, ?_, ?_, ?_, ?_, ?_⟩
  · simp [photo_booth_catch_photo_buffer, hs, gst_element_set_state, PhotoBooth.emit,
      photo_unlink, photo_bin_remove, List.mem_filter]
  · simp [photo_booth_catch_photo_buffer, hs, gst_element_set_state, PhotoBooth.emit,
      photo_unlink, photo_bin_remove, List.mem_filter]
  · simp [photo_booth_catch_photo_buffer, hs, gst_element_set_state, PhotoBooth.emit,
      photo_unlink, photo_bin_remove, List.mem_filter]
  · simp [photo_booth_catch_photo_buffer, hs, gst_element_set_state, PhotoBooth.emit,
      photo_unlink, photo_bin_remove, List.mem_filter]
  · simp [photo_booth_catch_photo_buffer, hs]
  · simp [photo_booth_button_yes_clicked, photo_booth_print, PhotoBooth.emit, hs]
  · simp [photo_booth_button_yes_clicked, photo_booth_print, PhotoBooth.emit, hs]
  · by_cases hb : pb.video_block_id = 0 <;>
      simp [photo_booth_preview, hb, link_video_bin, gst_element_set_state, PhotoBooth.emit,
        photo_pad_add_probe, unlink_photo_bin, video_pad_remove_probe]
  · by_cases hb : pb.video_block_id = 0 <;>
      simp [photo_booth_preview, hb, link_video_bin, gst_element_set_state, PhotoBooth.emit,
        photo_pad_add_probe, unlink_photo_bin, video_pad_remove_probe]

/-- Witness of C7 at `session_waiting`: the next buffer removes the encoder. -/
theorem encoder_detached_by_observer_witness :
    ElementName.photo_encoder ∉ (photo_booth_catch_photo_buffer session_waiting).2.photo_elements :=
  (encoder_detached_by_observer session_waiting (by decide)).1

/-! ### C8, C9, C10: the capture worker and its commands -/

/-- What the part of an iteration before the poll can do: it leaves the
control socket alone, keeps `gp_file`, never sets the state to STOP, and calls
nothing but the camera probe and the start-preview callback. -/
theorem prepare_poll_frame (env : CameraEnv) (pb : PhotoBooth) (t : CaptureThread) :
    (prepare_poll env pb t).1.control = pb.control
      ∧ (prepare_poll env pb t).2.1.gp_file = t.gp_file
      ∧ (t.state ≠ PhotoboothCaptureThreadState.CAPTURE_STOP →
          (prepare_poll env pb t).2.1.state ≠ PhotoboothCaptureThreadState.CAPTURE_STOP)
      ∧ ∃ before, (prepare_poll env pb t).1.log = pb.log ++ before
          ∧ calls Effect.gp_camera_capture_preview before = 0
          ∧ calls Effect.photo_booth_take_photo before = 0
          ∧ calls Effect.gp_camera_capture before = 0
          ∧ calls Effect.photo_booth_cam_close before = 0
          ∧ commands_read before = [] := by
  by_cases hi : t.state = PhotoboothCaptureThreadState.CAPTURE_INIT ∧ pb.cam_info = none
  · by_cases hok : env.gp_camera_init = 0
    · refine ⟨?_, ?_, ?_, [Effect.photo_booth_cam_init, Effect.gp_camera_init,
        Effect.g_main_context_invoke Callback.photo_booth_preview], ?_, ?_⟩ <;>
        simp [prepare_poll, hi, photo_booth_cam_init, hok, PhotoBooth.emit, calls, commands_read]
    · refine ⟨?_, ?_, ?_, [Effect.photo_booth_cam_init, Effect.gp_camera_init], ?_, ?_⟩ <;>
        simp [prepare_poll, hi, photo_booth_cam_init, hok, PhotoBooth.emit, calls, commands_read]
  · by_cases hp : t.state = PhotoboothCaptureThreadState.CAPTURE_PAUSED
    · refine ⟨?_, ?_, ?_, [], ?_, ?_⟩ <;>
        simp [prepare_poll, hi, hp, calls, commands_read]
    · refine ⟨?_, ?_, ?_, [], ?_, ?_⟩ <;>
        simp [prepare_poll, hi, hp, calls, commands_read]

/-- An iteration of a running worker that finds a command pending, as an
equation: after the part before the poll, the poll and the read of the oldest
pending byte are the only calls, and the state is the one the `switch` gives. -/
theorem capture_iteration_command_eq (env : CameraEnv) (pb : PhotoBooth) (t : CaptureThread)
    (c : ControlCommand) (rest : List ControlCommand)
    (hlive : t.state ≠ PhotoboothCaptureThreadState.CAPTURE_STOP)
    (hq : pb.control = c :: rest) (hpoll : env.poll_error = false) :
    capture_iteration env pb t
      = LoopResult.next
          { (prepare_poll env pb t).1 with
            control := rest,
            log := (prepare_poll env pb t).1.log
              ++ [Effect.poll (prepare_poll env pb t).2.2, Effect.read_command c] }
          { (prepare_poll env pb t).2.1 with
            state := apply_command c (prepare_poll env pb t).2.1.state } := by
  have hc : (prepare_poll env pb t).1.control = c :: rest := by
    rw [(prepare_poll_frame env pb t).1, hq]
  simp [capture_iteration, hlive, handle_poll, hpoll, PhotoBooth.emit, hc]

/-- One iteration of a running worker that finds a command pending: the
iteration ends normally, exactly that command has been taken off the socket,
and the iteration has made no preview capture and no still capture. -/
theorem capture_iteration_command (env : CameraEnv) (pb : PhotoBooth) (t : CaptureThread)
    (c : ControlCommand) (rest : List ControlCommand)
    (hlive : t.state ≠ PhotoboothCaptureThreadState.CAPTURE_STOP)
    (hq : pb.control = c :: rest) (hpoll : env.poll_error = false) :
    ∃ pb1 t1 new,
      capture_iteration env pb t = LoopResult.next pb1 t1
        ∧ pb1.control = rest
        ∧ pb1.log = pb.log ++ new
        ∧ commands_read new = [c]
        ∧ calls Effect.gp_camera_capture_preview new = 0
        ∧ calls Effect.photo_booth_take_photo new = 0
        ∧ calls Effect.gp_camera_capture new = 0
        ∧ t1.gp_file = t.gp_file
        ∧ t1.state = apply_command c (prepare_poll env pb t).2.1.state := by
  obtain ⟨_, hg, _, before, hlog, h1, h2, h3, _, h5⟩ := prepare_poll_frame env pb t
  refine ⟨_, _, before ++ [Effect.poll (prepare_poll env pb t).2.2, Effect.read_command c],
    capture_iteration_command_eq env pb t c rest hlive hq hpoll, rfl, ?_, ?_, ?_, ?_, ?_, ?_, rfl⟩
  · simp [hlog]
  · simp only [commands_read] at h5
    simp [commands_read, List.filterMap_append, h5]
  · simp only [calls] at h1
    simp [calls, List.count_append, h1]
  · simp only [calls] at h2
    simp [calls, List.count_append, h2]
  · simp only [calls] at h3
    simp [calls, List.count_append, h3]
  · simpa using hg

/-- The new calls of a log that extends another are the extension. -/
theorem new_calls_append (pb pb1 : PhotoBooth) (new : List Effect)
    (h : pb1.log = pb.log ++ new) : new_calls pb pb1 = new := by
  simp [new_calls, h]

/-- An iteration entered in PHOTO whose poll times out, with a camera session
present: `photo_booth_take_photo` is called once, there is no preview capture,
and the one `gp_camera_capture` is issued unless the session mutex is held. -/
theorem capture_iteration_photo_timeout (env : CameraEnv) (pb : PhotoBooth) (t : CaptureThread)
    (ci : CameraInfo)
    (hs : t.state = PhotoboothCaptureThreadState.CAPTURE_PHOTO)
    (hq : pb.control = []) (hcam : pb.cam_info = some ci) (hpoll : env.poll_error = false) :
    calls Effect.photo_booth_take_photo (new_calls pb (capture_iteration env pb t).pb) = 1
      ∧ calls Effect.gp_camera_capture_preview (new_calls pb (capture_iteration env pb t).pb) = 0
      ∧ (ci.mutex_locked = false →
          calls Effect.gp_camera_capture (new_calls pb (capture_iteration env pb t).pb) = 1) := by
  by_cases hl : ci.mutex_locked = true
  · simp [capture_iteration, hs, prepare_poll, handle_poll, hpoll, hq, hcam,
      photo_booth_take_photo, PhotoBooth.emit, hl, new_calls, calls, LoopResult.pb]
  · by_cases h1 : env.gp_camera_capture < 0
    · simp [capture_iteration, hs, prepare_poll, handle_poll, hpoll, hq, hcam,
        photo_booth_take_photo, PhotoBooth.emit, hl, h1, new_calls, calls, LoopResult.pb]
    · by_cases h2 : env.gp_camera_file_get < 0
      · simp [capture_iteration, hs, prepare_poll, handle_poll, hpoll, hq, hcam,
          photo_booth_take_photo, PhotoBooth.emit, hl, h1, h2, new_calls, calls, LoopResult.pb]
      · simp [capture_iteration, hs, prepare_poll, handle_poll, hpoll, hq, hcam,
          photo_booth_take_photo, PhotoBooth.emit, hl, h1, h2, new_calls, calls, LoopResult.pb]

/-- A valid command other than STOP does not stop the worker. -/
theorem apply_command_live (c : ControlCommand) (s0 : PhotoboothCaptureThreadState)
    (hv : named_state c ≠ none) (hc : c ≠ ControlCommand.CONTROL_STOP) :
    apply_command c s0 ≠ PhotoboothCaptureThreadState.CAPTURE_STOP := by
  cases c <;> simp [apply_command, named_state] at *

/-- The state after a valid command is the one it names. -/
theorem named_state_apply (c : ControlCommand) (s0 : PhotoboothCaptureThreadState)
    (hv : named_state c ≠ none) : named_state c = some (apply_command c s0) := by
  cases c <;> simp [apply_command, named_state] at *

/-- Draining a queue of valid commands, one iteration per command. -/
theorem commands_drained (pre : List ControlCommand) :
    ∀ (envs : List CameraEnv) (pb : PhotoBooth) (t : CaptureThread) (c : ControlCommand)
      (rest : List ControlCommand),
      t.state ≠ PhotoboothCaptureThreadState.CAPTURE_STOP →
      pb.control = pre ++ c :: rest →
      (∀ x ∈ pre ++ [c], named_state x ≠ none) →
      ControlCommand.CONTROL_STOP ∉ pre →
      (∀ e ∈ envs, e.poll_error = false) →
      envs.length = pre.length + 1 →
      ∃ pb1 t1 new,
        capture_loop envs pb t = LoopResult.next pb1 t1
          ∧ pb1.control = rest
          ∧ named_state c = some t1.state
          ∧ pb1.log = pb.log ++ new
          ∧ commands_read new = pre ++ [c]
          ∧ calls Effect.gp_camera_capture_preview new = 0
          ∧ calls Effect.photo_booth_take_photo new = 0
          ∧ calls Effect.gp_camera_capture new = 0 := by
  induction pre with
  | nil =>
    intro envs pb t c rest hlive hq hvalid _ hpoll hlen
    match envs, hlen with
    | [e], _ =>
      obtain ⟨pb1, t1, new, hit, hc, hlog, hr, h1, h2, h3, _, hst⟩ :=
        capture_iteration_command e pb t c rest hlive (by simpa using hq)
          (hpoll e (by simp))
      refine ⟨pb1, t1, new, ?_, hc, ?_, hlog, by simpa using hr, h1, h2, h3⟩
      · simp [capture_loop, hit]
      · rw [hst]
        exact named_state_apply c _ (hvalid c (by simp))
  | cons x pre ih =>
    intro envs pb t c rest hlive hq hvalid hnostop hpoll hlen
    match envs, hlen with
    | e :: es, hlen =>
      obtain ⟨pb1, t1, new1, hit, hc, hlog, hr, h1, h2, h3, _, hst⟩ :=
        capture_iteration_command e pb t x (pre ++ c :: rest) hlive (by simpa using hq)
          (hpoll e (by simp))
      have hx : x ≠ ControlCommand.CONTROL_STOP := by
        intro hx
        exact hnostop (by simp [hx])
      have hlive1 : t1.state ≠ PhotoboothCaptureThreadState.CAPTURE_STOP := by
        rw [hst]
        exact apply_command_live x _ (hvalid x (by simp)) hx
      obtain ⟨pb2, t2, new2, hloop, hc2, hn2, hlog2, hr2, k1, k2, k3⟩ :=
        ih es pb1 t1 c rest hlive1 hc
          (fun y hy => hvalid y (by
            simp only [List.cons_append, List.mem_cons]
            exact Or.inr hy))
          (fun hmem => hnostop (List.mem_cons_of_mem _ hmem))
          (fun e2 he2 => hpoll e2 (List.mem_cons_of_mem _ he2))
          (by simpa using hlen)
      refine ⟨pb2, t2, new1 ++ new2, ?_, hc2, hn2, ?_, ?_, ?_, ?_, ?_⟩
      · simp [capture_loop, hit, hloop]
      · rw [hlog2, hlog, List.append_assoc]
      · simp only [commands_read] at hr hr2
        simp [commands_read, List.filterMap_append, hr, hr2]
      · simp only [calls] at h1 k1
        simp [calls, List.count_append, h1, k1]
      · simp only [calls] at h2 k2
        simp [calls, List.count_append, h2, k2]
      · simp only [calls] at h3 k3
        simp [calls, List.count_append, h3, k3]

/-! #### C8 -/

/-- C8: in the capture loop, an iteration entered in VIDEO that finds
START_PHOTO pending ends with the worker state PHOTO (and makes no capture);
the next iteration whose poll times out, with a camera session present, calls
`photo_booth_take_photo` exactly once and makes no preview capture.  (The
still capture itself, `gp_camera_capture`, is then issued once, provided the
session mutex is free.) -/
theorem start_photo_then_one_still (env1 env2 : CameraEnv) (pb pb2 : PhotoBooth)
    (t : CaptureThread) (rest : List ControlCommand) (ci : CameraInfo)
    (hs : t.state = PhotoboothCaptureThreadState.CAPTURE_VIDEO)
    (hq : pb.control = ControlCommand.CONTROL_PHOTO :: rest)
    (h1 : env1.poll_error = false) (h2 : env2.poll_error = false)
    (hq2 : pb2.control = []) (hcam : pb2.cam_info = some ci) :
    (∃ pb1 t1,
        capture_iteration env1 pb t = LoopResult.next pb1 t1
          ∧ t1.state = PhotoboothCaptureThreadState.CAPTURE_PHOTO
          ∧ pb1.control = rest
          ∧ calls Effect.gp_camera_capture_preview (new_calls pb pb1) = 0
          ∧ calls Effect.photo_booth_take_photo (new_calls pb pb1) = 0)
      ∧ calls Effect.photo_booth_take_photo
          (new_calls pb2 (capture_iteration env2 pb2 (capture_iteration env1 pb t).thread).pb) = 1
      ∧ calls Effect.gp_camera_capture_preview
          (new_calls pb2 (capture_iteration env2 pb2 (capture_iteration env1 pb t).thread).pb) = 0
      ∧ (ci.mutex_locked = false →
          calls Effect.gp_camera_capture
            (new_calls pb2 (capture_iteration env2 pb2 (capture_iteration env1 pb t).thread).pb)
            = 1) := by
  have hlive : t.state ≠ PhotoboothCaptureThreadState.CAPTURE_STOP := by simp [hs]
  obtain ⟨pb1, t1, new, hit, hc, hlog, _, k1, k2, _, _, hst⟩ :=
    capture_iteration_command env1 pb t ControlCommand.CONTROL_PHOTO rest hlive hq h1
  have hphoto : t1.state = PhotoboothCaptureThreadState.CAPTURE_PHOTO := by
    rw [hst]; rfl
  have hnew := new_calls_append pb pb1 new hlog
  refine ⟨⟨pb1, t1, hit, hphoto, hc, by rw [hnew]; exact k1, by rw [hnew]; exact k2⟩, ?_⟩
  have ht : (capture_iteration env1 pb t).thread = t1 := by rw [hit]; rfl
  rw [ht]
  exact capture_iteration_photo_timeout env2 pb2 t1 ci hphoto hq2 hcam h2

/-- Witness of C8: the worker streaming the preview receives the START_PHOTO
that `photo_booth_snapshot_prepare` has sent, then its poll times out. -/
theorem start_photo_then_one_still_witness :
    calls Effect.photo_booth_take_photo
        (new_calls { session_taking_photo with control := [] }
          (capture_iteration env_ok { session_taking_photo with control := [] }
            (capture_iteration env_ok session_taking_photo worker_video).thread).pb) = 1
      ∧ calls Effect.gp_camera_capture_preview
        (new_calls { session_taking_photo with control := [] }
          (capture_iteration env_ok { session_taking_photo with control := [] }
            (capture_iteration env_ok session_taking_photo worker_video).thread).pb) = 0 :=
  ⟨(start_photo_then_one_still env_ok env_ok session_taking_photo
      { session_taking_photo with control := [] } worker_video [] camera_ready
      rfl (by decide) rfl rfl rfl (by decide)).2.1,
   (start_photo_then_one_still env_ok env_ok session_taking_photo
      { session_taking_photo with control := [] } worker_video [] camera_ready
      rfl (by decide) rfl rfl rfl (by decide)).2.2.1⟩

/-! #### C9 -/

/-- C9: let valid control commands be pending on the control channel, `pre`
followed by `c` (and then `rest`), with no STOP among `pre`, and let the
worker be running (its state is not STOP; any other starting state will do).
Then `pre.length + 1` loop iterations read exactly the commands `pre ++ [c]`,
in send order, and leave `rest` pending: one command per iteration.  The
worker ends in the state named by `c`, the last command applied, and none of
these iterations makes a preview capture or a still capture.  Taking every
initial segment of a pending sequence for `pre ++ [c]` gives the statement iteration by
iteration. -/
theorem commands_applied_in_order (envs : List CameraEnv) (pb : PhotoBooth) (t : CaptureThread)
    (pre : List ControlCommand) (c : ControlCommand) (rest : List ControlCommand)
    (hlive : t.state ≠ PhotoboothCaptureThreadState.CAPTURE_STOP)
    (hq : pb.control = pre ++ c :: rest)
    (hvalid : ∀ x ∈ pre ++ [c], named_state x ≠ none)
    (hnostop : ControlCommand.CONTROL_STOP ∉ pre)
    (hpoll : ∀ e ∈ envs, e.poll_error = false)
    (hlen : envs.length = pre.length + 1) :
    ∃ pb1 t1,
      capture_loop envs pb t = LoopResult.next pb1 t1
        ∧ pb1.control = rest
        ∧ named_state c = some t1.state
        ∧ commands_read (new_calls pb pb1) = pre ++ [c]
        ∧ calls Effect.gp_camera_capture_preview (new_calls pb pb1) = 0
        ∧ calls Effect.photo_booth_take_photo (new_calls pb pb1) = 0
        ∧ calls Effect.gp_camera_capture (new_calls pb pb1) = 0 := by
  obtain ⟨pb1, t1, new, hloop, hc, hn, hlog, hr, h1, h2, h3⟩ :=
    commands_drained pre envs pb t c rest hlive hq hvalid hnostop hpoll hlen
  have hnew := new_calls_append pb pb1 new hlog
  exact ⟨pb1, t1, hloop, hc, hn, by rw [hnew]; exact hr, by rw [hnew]; exact h1,
    by rw [hnew]; exact h2, by rw [hnew]; exact h3⟩

/-- Witness of C9: PAUSE, START_VIDEO, START_PHOTO pending for a worker that
streams the preview; three iterations later the worker is in PHOTO. -/
theorem commands_applied_in_order_witness :
    ∃ pb1 t1,
      capture_loop [env_ok, env_ok, env_ok]
          { session_preview with control := [ControlCommand.CONTROL_PAUSE,
              ControlCommand.CONTROL_VIDEO, ControlCommand.CONTROL_PHOTO] } worker_video
        = LoopResult.next pb1 t1
        ∧ pb1.control = []
        ∧ named_state ControlCommand.CONTROL_PHOTO = some t1.state
        ∧ commands_read
            (new_calls { session_preview with control := [ControlCommand.CONTROL_PAUSE,
              ControlCommand.CONTROL_VIDEO, ControlCommand.CONTROL_PHOTO] } pb1)
          = [ControlCommand.CONTROL_PAUSE, ControlCommand.CONTROL_VIDEO]
            ++ [ControlCommand.CONTROL_PHOTO]
        ∧ calls Effect.gp_camera_capture_preview
            (new_calls { session_preview with control := [ControlCommand.CONTROL_PAUSE,
              ControlCommand.CONTROL_VIDEO, ControlCommand.CONTROL_PHOTO] } pb1) = 0
        ∧ calls Effect.photo_booth_take_photo
            (new_calls { session_preview with control := [ControlCommand.CONTROL_PAUSE,
              ControlCommand.CONTROL_VIDEO, ControlCommand.CONTROL_PHOTO] } pb1) = 0
        ∧ calls Effect.gp_camera_capture
            (new_calls { session_preview with control := [ControlCommand.CONTROL_PAUSE,
              ControlCommand.CONTROL_VIDEO, ControlCommand.CONTROL_PHOTO] } pb1) = 0 :=
  commands_applied_in_order [env_ok, env_ok, env_ok]
    { session_preview with control := [ControlCommand.CONTROL_PAUSE,
        ControlCommand.CONTROL_VIDEO, ControlCommand.CONTROL_PHOTO] } worker_video
    [ControlCommand.CONTROL_PAUSE, ControlCommand.CONTROL_VIDEO] ControlCommand.CONTROL_PHOTO []
    (by decide) rfl (by decide) (by decide) (by decide) rfl

/-! #### C10 -/

/-- C10: whatever state a running worker is in, the iteration in which it
reads STOP ends with that read, and the very next iteration leaves through
`stop_running` before anything else: it releases the preview file object if
one was allocated and returns, with no poll and no camera call, and the camera
session is as the read left it.  However many further iterations the loop is
offered, it has returned after the second. -/
theorem stop_terminates_next_iteration (env1 env2 : CameraEnv) (more : List CameraEnv)
    (pb : PhotoBooth) (t : CaptureThread) (rest : List ControlCommand)
    (hlive : t.state ≠ PhotoboothCaptureThreadState.CAPTURE_STOP)
    (hq : pb.control = ControlCommand.CONTROL_STOP :: rest)
    (hpoll : env1.poll_error = false) :
    ∃ pb1 t1,
      capture_iteration env1 pb t = LoopResult.next pb1 t1
        ∧ (∃ before, pb1.log = before ++ [Effect.read_command ControlCommand.CONTROL_STOP])
        ∧ t1.state = PhotoboothCaptureThreadState.CAPTURE_STOP
        ∧ capture_iteration env2 pb1 t1
            = LoopResult.stopped
                { pb1 with log := pb1.log ++ (if t.gp_file then [Effect.gp_file_unref] else []) }
                t1
        ∧ capture_loop (env1 :: env2 :: more) pb t
            = LoopResult.stopped
                { pb1 with log := pb1.log ++ (if t.gp_file then [Effect.gp_file_unref] else []) }
                t1 := by
  have hit := capture_iteration_command_eq env1 pb t ControlCommand.CONTROL_STOP rest hlive hq hpoll
  have hg := (prepare_poll_frame env1 pb t).2.1
  have h2 : capture_iteration env2
      { (prepare_poll env1 pb t).1 with
        control := rest,
        log := (prepare_poll env1 pb t).1.log
          ++ [Effect.poll (prepare_poll env1 pb t).2.2,
              Effect.read_command ControlCommand.CONTROL_STOP] }
      { (prepare_poll env1 pb t).2.1 with
        state := apply_command ControlCommand.CONTROL_STOP (prepare_poll env1 pb t).2.1.state }
      = LoopResult.stopped
          { (prepare_poll env1 pb t).1 with
            control := rest,
            log := (prepare_poll env1 pb t).1.log
              ++ [Effect.poll (prepare_poll env1 pb t).2.2,
                  Effect.read_command ControlCommand.CONTROL_STOP]
              ++ (if t.gp_file then [Effect.gp_file_unref] else []) }
          { (prepare_poll env1 pb t).2.1 with
            state := apply_command ControlCommand.CONTROL_STOP
              (prepare_poll env1 pb t).2.1.state } := by
    cases hf : t.gp_file <;>
      simp [capture_iteration, apply_command, stop_running, hg, hf, PhotoBooth.emit]
  refine ⟨_, _, hit, ⟨(prepare_poll env1 pb t).1.log ++ [Effect.poll (prepare_poll env1 pb t).2.2],
    by simp⟩, rfl, h2, ?_⟩
  simp only [capture_loop, hit]
  rw [h2]

/-- Witness of C10: the worker streaming the preview reads STOP. -/
theorem stop_terminates_next_iteration_witness :
    ∃ pb1 t1,
      capture_iteration env_ok
          { session_preview with control := [ControlCommand.CONTROL_STOP] } worker_video
        = LoopResult.next pb1 t1
        ∧ (∃ before, pb1.log = before ++ [Effect.read_command ControlCommand.CONTROL_STOP])
        ∧ t1.state = PhotoboothCaptureThreadState.CAPTURE_STOP
        ∧ capture_iteration env_ok pb1 t1
            = LoopResult.stopped
                { pb1 with log := pb1.log
                    ++ (if worker_video.gp_file then [Effect.gp_file_unref] else []) }
                t1
        ∧ capture_loop (env_ok :: env_ok :: [env_ok])
            { session_preview with control := [ControlCommand.CONTROL_STOP] } worker_video
            = LoopResult.stopped
                { pb1 with log := pb1.log
                    ++ (if worker_video.gp_file then [Effect.gp_file_unref] else []) }
                t1 :=
  stop_terminates_next_iteration env_ok env_ok [env_ok]
    { session_preview with control := [ControlCommand.CONTROL_STOP] } worker_video []
    (by decide) rfl rfl

/-! ### C11: the poll timeout -/

/-- What `photo_booth_take_photo` does to the object: it appends to the log
calls that are neither a poll nor a posted callback, and touches nothing but
the log and the camera session, which stays in place. -/
theorem take_photo_frame (env : CameraEnv) (pb : PhotoBooth) (ci : CameraInfo)
    (hcam : pb.cam_info = some ci) :
    ∃ new, (photo_booth_take_photo env pb ci).2.log = pb.log ++ new
      ∧ polls new = []
      ∧ (∀ cb, calls (Effect.g_main_context_invoke cb) new = 0)
      ∧ calls Effect.photo_booth_cam_init new = 0
      ∧ calls Effect.photo_booth_cam_close new = 0
      ∧ calls Effect.photo_booth_take_photo new = 1
      ∧ (photo_booth_take_photo env pb ci).2.state = pb.state
      ∧ (photo_booth_take_photo env pb ci).2.control = pb.control
      ∧ (photo_booth_take_photo env pb ci).2.cam_info ≠ none := by
  by_cases hl : ci.mutex_locked = true
  · refine ⟨[Effect.photo_booth_take_photo], ?_⟩
    simp [photo_booth_take_photo, PhotoBooth.emit, hl, polls, calls, hcam]
  · by_cases h1 : env.gp_camera_capture < 0
    · refine ⟨[Effect.photo_booth_take_photo, Effect.gp_camera_capture], ?_⟩
      simp [photo_booth_take_photo, PhotoBooth.emit, hl, h1, polls, calls]
    · by_cases h2 : env.gp_camera_file_get < 0
      · refine ⟨[Effect.photo_booth_take_photo, Effect.gp_camera_capture, Effect.gp_file_new,
          Effect.gp_camera_file_get], ?_⟩
        simp [photo_booth_take_photo, PhotoBooth.emit, hl, h1, h2, polls, calls]
      · refine ⟨[Effect.photo_booth_take_photo, Effect.gp_camera_capture, Effect.gp_file_new,
          Effect.gp_camera_file_get, Effect.gp_file_get_data_and_size,
          Effect.gp_camera_file_delete], ?_⟩
        simp [photo_booth_take_photo, PhotoBooth.emit, hl, h1, h2, polls, calls]

/-- What the part of an iteration after the poll does to the object: it makes
no further poll, probes no camera and never posts the start-preview callback;
it leaves a missing camera session missing. -/
theorem handle_poll_frame (env : CameraEnv) (pb : PhotoBooth) (t : CaptureThread) :
    ∃ new, (handle_poll env pb t).pb.log = pb.log ++ new
      ∧ polls new = []
      ∧ calls (Effect.g_main_context_invoke Callback.photo_booth_preview) new = 0
      ∧ calls Effect.photo_booth_cam_init new = 0
      ∧ (pb.cam_info = none → (handle_poll env pb t).pb.cam_info = none) := by
  by_cases hp : env.poll_error = true
  · cases hf : t.gp_file
    · exact ⟨[], by simp [handle_poll, hp, stop_running, hf, LoopResult.pb, polls, calls]⟩
    · exact ⟨[Effect.gp_file_unref],
        by simp [handle_poll, hp, stop_running, hf, LoopResult.pb, polls, calls, PhotoBooth.emit]⟩
  · cases hq : pb.control with
    | cons c rest =>
      exact ⟨[Effect.read_command c],
        by simp [handle_poll, hp, hq, LoopResult.pb, polls, calls]⟩
    | nil =>
      by_cases hv : t.state = PhotoboothCaptureThreadState.CAPTURE_VIDEO
      · cases hc : pb.cam_info with
        | none => exact ⟨[], by simp [handle_poll, hp, hq, hv, hc, LoopResult.pb, polls, calls]⟩
        | some ci =>
          by_cases hl : ci.mutex_locked = true
          · exact ⟨[], by simp [handle_poll, hp, hq, hv, hc, hl, LoopResult.pb, polls, calls]⟩
          · by_cases h1 : env.gp_camera_capture_preview < 0
            · by_cases h7 : env.gp_camera_capture_preview = -7
              · exact ⟨[Effect.gp_camera_capture_preview, Effect.photo_booth_cam_close,
                  Effect.gp_camera_exit],
                  by simp [handle_poll, hp, hq, hv, hc, hl, h7, photo_booth_cam_close,
                    PhotoBooth.emit, LoopResult.pb, polls, calls]⟩
              · exact ⟨[Effect.gp_camera_capture_preview],
                  by simp [handle_poll, hp, hq, hv, hc, hl, h1, h7, PhotoBooth.emit,
                    LoopResult.pb, polls, calls]⟩
            · cases hm : env.mime_is_jpeg <;>
                exact ⟨[Effect.gp_camera_capture_preview, Effect.gp_file_get_mime_type],
                  by simp [handle_poll, hp, hq, hv, hc, hl, h1, hm, PhotoBooth.emit,
                    LoopResult.pb, polls, calls]⟩
      · by_cases hph : t.state = PhotoboothCaptureThreadState.CAPTURE_PHOTO
        · cases hc : pb.cam_info with
          | none =>
            exact ⟨[], by simp [handle_poll, hp, hq, hph, hc, LoopResult.pb, polls, calls]⟩
          | some ci =>
            obtain ⟨new, hlog, k1, k2, k3, _, _, _, _, _⟩ := take_photo_frame env pb ci hc
            cases hr : (photo_booth_take_photo env pb ci).1 with
            | none =>
              refine ⟨new, ?_, k1, k2 _, k3, ?_⟩
              · simp [handle_poll, hp, hq, hph, hc, hr, LoopResult.pb, hlog]
              · simp [hc]
            | some ok =>
              cases ok with
              | false =>
                refine ⟨new, ?_, k1, k2 _, k3, ?_⟩
                · simp [handle_poll, hp, hq, hph, hc, hr, LoopResult.pb, hlog]
                · simp [hc]
              | true =>
                refine ⟨new ++ [Effect.g_main_context_invoke Callback.photo_booth_snapshot_taken],
                  ?_, ?_, ?_, ?_, ?_⟩
                · simp [handle_poll, hp, hq, hph, hc, hr, LoopResult.pb, hlog, PhotoBooth.emit]
                · simp only [polls] at k1
                  simp [polls, List.filterMap_append, k1]
                · have := k2 Callback.photo_booth_preview
                  simp only [calls] at this
                  simp [calls, List.count_append, this]
                · simp only [calls] at k3
                  simp [calls, List.count_append, k3]
                · simp [hc]
        · exact ⟨[], by simp [handle_poll, hp, hq, hv, hph, LoopResult.pb, polls, calls]⟩

/-- The part of an iteration before the poll, spelled out: the calls it makes,
the timeout it chooses, the worker state and the camera session it leaves. -/
theorem prepare_poll_eq (env : CameraEnv) (pb : PhotoBooth) (t : CaptureThread) :
    (prepare_poll env pb t).1.log
        = pb.log ++
          (if t.state = PhotoboothCaptureThreadState.CAPTURE_INIT ∧ pb.cam_info = none then
            [Effect.photo_booth_cam_init, Effect.gp_camera_init]
              ++ (if env.gp_camera_init = 0
                    then [Effect.g_main_context_invoke Callback.photo_booth_preview] else [])
           else [])
      ∧ (prepare_poll env pb t).2.2
        = (if t.state = PhotoboothCaptureThreadState.CAPTURE_INIT ∧ pb.cam_info = none then 5000
           else if t.state = PhotoboothCaptureThreadState.CAPTURE_PAUSED then 1000
           else 1000 / PREVIEW_FPS)
      ∧ (prepare_poll env pb t).2.1.state
        = (if t.state = PhotoboothCaptureThreadState.CAPTURE_INIT ∧ pb.cam_info = none
              ∧ env.gp_camera_init = 0
            then PhotoboothCaptureThreadState.CAPTURE_VIDEO else t.state)
      ∧ (prepare_poll env pb t).1.cam_info
        = (if t.state = PhotoboothCaptureThreadState.CAPTURE_INIT ∧ pb.cam_info = none
              ∧ env.gp_camera_init = 0
            then some camera_ready else pb.cam_info)
      ∧ (prepare_poll env pb t).1.state = pb.state
      ∧ (prepare_poll env pb t).2.1.captured_frames = t.captured_frames := by
  by_cases hi : t.state = PhotoboothCaptureThreadState.CAPTURE_INIT ∧ pb.cam_info = none
  · by_cases hok : env.gp_camera_init = 0
    · simp [prepare_poll, hi, photo_booth_cam_init, hok, PhotoBooth.emit, camera_ready]
    · simp [prepare_poll, hi, photo_booth_cam_init, hok, PhotoBooth.emit, hi.2]
  · have hi3 : ¬(t.state = PhotoboothCaptureThreadState.CAPTURE_INIT ∧ pb.cam_info = none
        ∧ env.gp_camera_init = 0) := fun h => hi ⟨h.1, h.2.1⟩
    by_cases hp : t.state = PhotoboothCaptureThreadState.CAPTURE_PAUSED
    · simp [prepare_poll, hi, hp]
    · simp [prepare_poll, hi, hi3, hp]

/-- The calls of one iteration of a running worker: those made before the
poll, the poll, and those made after it. -/
theorem capture_iteration_log (env : CameraEnv) (pb : PhotoBooth) (t : CaptureThread)
    (hlive : t.state ≠ PhotoboothCaptureThreadState.CAPTURE_STOP) :
    ∃ after,
      new_calls pb (capture_iteration env pb t).pb
          = (if t.state = PhotoboothCaptureThreadState.CAPTURE_INIT ∧ pb.cam_info = none then
              [Effect.photo_booth_cam_init, Effect.gp_camera_init]
                ++ (if env.gp_camera_init = 0
                      then [Effect.g_main_context_invoke Callback.photo_booth_preview] else [])
             else [])
            ++ [Effect.poll (prepare_poll env pb t).2.2] ++ after
        ∧ polls after = []
        ∧ calls (Effect.g_main_context_invoke Callback.photo_booth_preview) after = 0
        ∧ calls Effect.photo_booth_cam_init after = 0 := by
  obtain ⟨after, hlog, h1, h2, h3, _⟩ :=
    handle_poll_frame env ((prepare_poll env pb t).1.emit (Effect.poll (prepare_poll env pb t).2.2))
      (prepare_poll env pb t).2.1
  refine ⟨after, ?_, h1, h2, h3⟩
  apply new_calls_append
  simp only [capture_iteration, hlive, if_false]
  rw [hlog]
  simp [PhotoBooth.emit, (prepare_poll_eq env pb t).1]

/-- C11, counterexample: in the iteration in which the camera probe succeeds
the worker state is VIDEO and a camera session exists when `poll` is called,
yet the timeout passed to `poll` is 5000 ms, not 1000 / PREVIEW_FPS = 40 ms. -/
theorem probe_success_polls_5000 :
    (prepare_poll env_ok session_started worker_init).2.1.state
        = PhotoboothCaptureThreadState.CAPTURE_VIDEO
      ∧ (prepare_poll env_ok session_started worker_init).1.cam_info ≠ none
      ∧ polls (new_calls session_started
          (capture_iteration env_ok session_started worker_init).pb) = [5000]
      ∧ polls (new_calls session_started
          (capture_iteration env_ok session_started worker_init).pb) ≠ [1000 / PREVIEW_FPS] := by
  decide

/-- C11, amended: in every iteration of the capture worker loop `poll` is
called exactly once, and its timeout is determined by the worker state and the
camera session held at the start of the iteration, before any probe: 5000 ms
when the state is INIT and there is no camera session (also when the probe of
that iteration then succeeds and the state is VIDEO at the poll), 1000 ms when
the state is PAUSED, and 1000 / PREVIEW_FPS = 40 ms otherwise, that is for
VIDEO, for PHOTO and for INIT with a session present. -/
theorem poll_timeout_by_entry_state (env : CameraEnv) (pb : PhotoBooth) (t : CaptureThread)
    (hlive : t.state ≠ PhotoboothCaptureThreadState.CAPTURE_STOP) :
    polls (new_calls pb (capture_iteration env pb t).pb)
        = [if t.state = PhotoboothCaptureThreadState.CAPTURE_INIT ∧ pb.cam_info = none then 5000
           else if t.state = PhotoboothCaptureThreadState.CAPTURE_PAUSED then 1000
           else 1000 / PREVIEW_FPS]
      ∧ 1000 / PREVIEW_FPS = 40 := by
  obtain ⟨after, hlog, h1, _, _⟩ := capture_iteration_log env pb t hlive
  refine ⟨?_, by decide⟩
  rw [hlog, (prepare_poll_eq env pb t).2.1]
  simp only [polls] at h1
  by_cases hi : t.state = PhotoboothCaptureThreadState.CAPTURE_INIT ∧ pb.cam_info = none
  · by_cases hok : env.gp_camera_init = 0 <;>
      simp [polls, List.filterMap_append, h1, hi, hok]
  · simp [polls, List.filterMap_append, h1, hi]

/-- Witness of C11: the worker that streams the preview polls with 40 ms. -/
theorem poll_timeout_by_entry_state_witness :
    polls (new_calls session_preview (capture_iteration env_ok session_preview worker_video).pb)
        = [if worker_video.state = PhotoboothCaptureThreadState.CAPTURE_INIT
              ∧ session_preview.cam_info = none then 5000
           else if worker_video.state = PhotoboothCaptureThreadState.CAPTURE_PAUSED then 1000
           else 1000 / PREVIEW_FPS]
      ∧ 1000 / PREVIEW_FPS = 40 :=
  poll_timeout_by_entry_state env_ok session_preview worker_video (by decide)

/-! ### C12: the camera probe -/

/-- The worker state at the end of an iteration in which no command is
pending and the camera probe has just succeeded: VIDEO, unless the first
preview capture at once reports the device gone. -/
theorem probe_success_ends_in_video (env : CameraEnv) (pb : PhotoBooth) (t : CaptureThread)
    (hs : t.state = PhotoboothCaptureThreadState.CAPTURE_INIT) (hc : pb.cam_info = none)
    (hok : env.gp_camera_init = 0) (hq : pb.control = [])
    (h7 : env.gp_camera_capture_preview ≠ -7) :
    (capture_iteration env pb t).thread.state = PhotoboothCaptureThreadState.CAPTURE_VIDEO := by
  by_cases hp : env.poll_error = true
  · cases hf : t.gp_file <;>
      simp [capture_iteration, hs, prepare_poll, hc, photo_booth_cam_init, hok, PhotoBooth.emit,
        handle_poll, hp, stop_running, hf, LoopResult.thread]
  · by_cases h1 : env.gp_camera_capture_preview < 0
    · simp [capture_iteration, hs, prepare_poll, hc, photo_booth_cam_init, hok, PhotoBooth.emit,
        handle_poll, hp, hq, h1, h7, LoopResult.thread]
    · cases hm : env.mime_is_jpeg <;>
        simp [capture_iteration, hs, prepare_poll, hc, photo_booth_cam_init, hok, PhotoBooth.emit,
          handle_poll, hp, hq, h1, hm, LoopResult.thread]

/-- The worker state at the end of an iteration in which no command is
pending and the camera probe has failed: still INIT. -/
theorem probe_failure_ends_in_init (env : CameraEnv) (pb : PhotoBooth) (t : CaptureThread)
    (hs : t.state = PhotoboothCaptureThreadState.CAPTURE_INIT) (hc : pb.cam_info = none)
    (hbad : env.gp_camera_init ≠ 0) (hq : pb.control = []) :
    (capture_iteration env pb t).thread.state = PhotoboothCaptureThreadState.CAPTURE_INIT := by
  by_cases hp : env.poll_error = true
  · cases hf : t.gp_file <;>
      simp [capture_iteration, hs, prepare_poll, hc, photo_booth_cam_init, hbad, PhotoBooth.emit,
        handle_poll, hp, stop_running, hf, LoopResult.thread]
  · simp [capture_iteration, hs, prepare_poll, hc, photo_booth_cam_init, hbad, PhotoBooth.emit,
      handle_poll, hp, hq, LoopResult.thread]

/-- An iteration whose camera probe fails posts no still callback and leaves
no session, whatever the poll reports. -/
theorem probe_failure_frame (env : CameraEnv) (pb : PhotoBooth) (t : CaptureThread)
    (hs : t.state = PhotoboothCaptureThreadState.CAPTURE_INIT) (hc : pb.cam_info = none)
    (hbad : env.gp_camera_init ≠ 0) :
    calls (Effect.g_main_context_invoke Callback.photo_booth_snapshot_taken)
        (new_calls pb (capture_iteration env pb t).pb) = 0
      ∧ (capture_iteration env pb t).pb.cam_info = none := by
  by_cases hp : env.poll_error = true
  · cases hf : t.gp_file <;>
      simp [capture_iteration, hs, prepare_poll, hc, photo_booth_cam_init, hbad, PhotoBooth.emit,
        handle_poll, hp, stop_running, hf, LoopResult.pb, new_calls, calls]
  · cases hq : pb.control <;>
      simp [capture_iteration, hs, prepare_poll, hc, photo_booth_cam_init, hbad, PhotoBooth.emit,
        handle_poll, hp, hq, LoopResult.pb, new_calls, calls]

/-- C12: a capture worker in INIT with no camera session probes the camera
once.  If the probe (`photo_booth_cam_init`) succeeds, the worker state is
VIDEO and a fresh session exists when the iteration reaches its poll, and the
iteration posts the start-preview callback (`photo_booth_preview`) exactly
once; with no command pending the iteration also ends in VIDEO (unless the
first preview capture at once reports the device gone).  If the probe fails,
the iteration posts no callback, leaves no session, and leaves the state INIT
(at the poll, and at the end of the iteration when no command is pending). -/
theorem probe_moves_to_video (env : CameraEnv) (pb : PhotoBooth) (t : CaptureThread)
    (hs : t.state = PhotoboothCaptureThreadState.CAPTURE_INIT) (hc : pb.cam_info = none) :
    calls Effect.photo_booth_cam_init (new_calls pb (capture_iteration env pb t).pb) = 1
      ∧ (env.gp_camera_init = 0 →
          (prepare_poll env pb t).2.1.state = PhotoboothCaptureThreadState.CAPTURE_VIDEO
            ∧ (prepare_poll env pb t).1.cam_info = some camera_ready
            ∧ calls (Effect.g_main_context_invoke Callback.photo_booth_preview)
                (new_calls pb (capture_iteration env pb t).pb) = 1
            ∧ (pb.control = [] → env.gp_camera_capture_preview ≠ -7 →
                (capture_iteration env pb t).thread.state
                  = PhotoboothCaptureThreadState.CAPTURE_VIDEO))
      ∧ (env.gp_camera_init ≠ 0 →
          (prepare_poll env pb t).2.1.state = PhotoboothCaptureThreadState.CAPTURE_INIT
            ∧ calls (Effect.g_main_context_invoke Callback.photo_booth_preview)
                (new_calls pb (capture_iteration env pb t).pb) = 0
            ∧ calls (Effect.g_main_context_invoke Callback.photo_booth_snapshot_taken)
                (new_calls pb (capture_iteration env pb t).pb) = 0
            ∧ (capture_iteration env pb t).pb.cam_info = none
            ∧ (pb.control = [] →
                (capture_iteration env pb t).thread.state
                  = PhotoboothCaptureThreadState.CAPTURE_INIT)) := by
  have hlive : t.state ≠ PhotoboothCaptureThreadState.CAPTURE_STOP := by simp [hs]
  obtain ⟨after, hlog, _, h2, h3⟩ := capture_iteration_log env pb t hlive
  obtain ⟨_, _, hst, hcam, _, _⟩ := prepare_poll_eq env pb t
  simp only [calls] at h2 h3
  refine ⟨?_, ?_, ?_⟩
  · rw [hlog]
    by_cases hok : env.gp_camera_init = 0 <;>
      simp [calls, List.count_append, hs, hc, hok, h3]
  · intro hok
    refine ⟨by simp [hst, hs, hc, hok], by simp [hcam, hs, hc, hok], ?_,
      fun hq h7 => probe_success_ends_in_video env pb t hs hc hok hq h7⟩
    rw [hlog]
    simp [calls, List.count_append, hs, hc, hok, h2]
  · intro hbad
    refine ⟨by simp [hst, hs, hc, hbad], ?_, ?_, ?_,
      fun hq => probe_failure_ends_in_init env pb t hs hc hbad hq⟩
    · rw [hlog]
      simp [calls, List.count_append, hs, hc, hbad, h2]
    · exact (probe_failure_frame env pb t hs hc hbad).1
    · exact (probe_failure_frame env pb t hs hc hbad).2

/-- Witness of C12: start-up with a camera attached; the first iteration
probes, posts the start-preview callback once and is in VIDEO at its poll. -/
theorem probe_moves_to_video_witness :
    (prepare_poll env_ok session_started worker_init).2.1.state
        = PhotoboothCaptureThreadState.CAPTURE_VIDEO
      ∧ calls (Effect.g_main_context_invoke Callback.photo_booth_preview)
          (new_calls session_started (capture_iteration env_ok session_started worker_init).pb)
          = 1
      ∧ calls (Effect.g_main_context_invoke Callback.photo_booth_preview)
          (new_calls session_started
            (capture_iteration env_no_camera session_started worker_init).pb) = 0
      ∧ (capture_iteration env_no_camera session_started worker_init).pb.cam_info = none :=
  ⟨((probe_moves_to_video env_ok session_started worker_init rfl rfl).2.1 rfl).1,
   ((probe_moves_to_video env_ok session_started worker_init rfl rfl).2.1 rfl).2.2.1,
   ((probe_moves_to_video env_no_camera session_started worker_init rfl rfl).2.2
      (by decide)).2.1,
   ((probe_moves_to_video env_no_camera session_started worker_init rfl rfl).2.2
      (by decide)).2.2.2.1⟩

/-! ### C13, C14, C15: hardware errors -/

/-- An iteration entered in PHOTO whose poll times out and whose still capture
fails (the capture itself or the file retrieval returns an error): the loop
goes on, the worker state is INIT, the session state is untouched, and the
camera session is still there, with its mutex held; it has not been closed. -/
theorem failed_still_iteration (env : CameraEnv) (pb : PhotoBooth) (t : CaptureThread)
    (ci : CameraInfo)
    (hs : t.state = PhotoboothCaptureThreadState.CAPTURE_PHOTO)
    (hq : pb.control = []) (hp : env.poll_error = false)
    (hc : pb.cam_info = some ci) (hl : ci.mutex_locked = false)
    (hfail : env.gp_camera_capture < 0 ∨ env.gp_camera_file_get < 0) :
    ∃ pb1,
      capture_iteration env pb t
          = LoopResult.next pb1 { t with state := PhotoboothCaptureThreadState.CAPTURE_INIT }
        ∧ pb1.state = pb.state
        ∧ pb1.cam_info = some { ci with mutex_locked := true }
        ∧ calls Effect.photo_booth_cam_close (new_calls pb pb1) = 0
        ∧ calls (Effect.g_main_context_invoke Callback.photo_booth_snapshot_taken)
            (new_calls pb pb1) = 0 := by
  by_cases h1 : env.gp_camera_capture < 0
  · refine ⟨{ pb with cam_info := some { ci with mutex_locked := true },
                       log := pb.log ++ [Effect.poll (1000 / PREVIEW_FPS),
                         Effect.photo_booth_take_photo, Effect.gp_camera_capture] },
      ?_, rfl, rfl, by simp [new_calls, calls], by simp [new_calls, calls]⟩
    simp [capture_iteration, hs, prepare_poll, handle_poll, hp, hq, hc,
      photo_booth_take_photo, PhotoBooth.emit, hl, h1]
  · have h2 : env.gp_camera_file_get < 0 := hfail.resolve_left h1
    refine ⟨{ pb with cam_info := some { ci with mutex_locked := true },
                       log := pb.log ++ [Effect.poll (1000 / PREVIEW_FPS),
                         Effect.photo_booth_take_photo, Effect.gp_camera_capture,
                         Effect.gp_file_new, Effect.gp_camera_file_get] },
      ?_, rfl, rfl, by simp [new_calls, calls], by simp [new_calls, calls]⟩
    simp [capture_iteration, hs, prepare_poll, handle_poll, hp, hq, hc,
      photo_booth_take_photo, PhotoBooth.emit, hl, h1, h2]

/-- An iteration entered in VIDEO whose poll times out and whose preview
capture reports the device gone (-7): the worker closes the camera session,
sets the session state to NONE and its own state to INIT, and the loop goes
on. -/
theorem preview_disconnect_iteration (env : CameraEnv) (pb : PhotoBooth) (t : CaptureThread)
    (ci : CameraInfo)
    (hs : t.state = PhotoboothCaptureThreadState.CAPTURE_VIDEO)
    (hq : pb.control = []) (hp : env.poll_error = false)
    (hc : pb.cam_info = some ci) (hl : ci.mutex_locked = false)
    (h7 : env.gp_camera_capture_preview = -7) :
    capture_iteration env pb t
      = LoopResult.next
          { pb with state := PhotoboothState.PB_STATE_NONE, cam_info := none,
                    log := pb.log ++ [Effect.poll (1000 / PREVIEW_FPS),
                      Effect.gp_camera_capture_preview, Effect.photo_booth_cam_close,
                      Effect.gp_camera_exit] }
          { t with state := PhotoboothCaptureThreadState.CAPTURE_INIT } := by
  simp [capture_iteration, hs, prepare_poll, handle_poll, hp, hq, hc, hl, h7,
    photo_booth_cam_close, PhotoBooth.emit]

/-- An iteration entered in INIT without a session, with no command pending,
whose probe fails: the loop goes on, the worker state is INIT, there is no
session and the session state is untouched. -/
theorem failed_probe_iteration (env : CameraEnv) (pb : PhotoBooth) (t : CaptureThread)
    (hs : t.state = PhotoboothCaptureThreadState.CAPTURE_INIT)
    (hq : pb.control = []) (hp : env.poll_error = false)
    (hc : pb.cam_info = none) (hbad : env.gp_camera_init ≠ 0) :
    capture_iteration env pb t
      = LoopResult.next
          { pb with log := pb.log ++ [Effect.photo_booth_cam_init, Effect.gp_camera_init,
              Effect.poll 5000] } t := by
  cases pb
  simp only at hc hq
  subst hc hq
  simp [capture_iteration, hs, prepare_poll, handle_poll, hp, hbad,
    photo_booth_cam_init, PhotoBooth.emit]

/-- C13, the code at the failing input: the worker is in PHOTO with a camera
session, its poll times out and `gp_camera_capture` fails.  The worker state
becomes INIT, but the session pointer stays set, so in the following
iterations, with no command pending, `state == CAPTURE_INIT && !pb->cam_info`
is false: `photo_booth_cam_init` is not called again, in the next iteration or
in the two after it, and the worker stays in INIT. -/
theorem failed_still_does_not_reprobe :
    (capture_iteration env_capture_fails session_photo_armed worker_photo).thread.state
        = PhotoboothCaptureThreadState.CAPTURE_INIT
      ∧ (capture_iteration env_capture_fails session_photo_armed worker_photo).pb.cam_info
        ≠ none
      ∧ calls Effect.photo_booth_cam_init
          (new_calls (capture_iteration env_capture_fails session_photo_armed worker_photo).pb
            (capture_iteration env_ok
              (capture_iteration env_capture_fails session_photo_armed worker_photo).pb
              (capture_iteration env_capture_fails session_photo_armed worker_photo).thread).pb)
        = 0
      ∧ calls Effect.photo_booth_cam_init
          (new_calls session_photo_armed
            (capture_loop [env_capture_fails, env_ok, env_ok, env_ok]
              session_photo_armed worker_photo).pb) = 0
      ∧ (capture_loop [env_capture_fails, env_ok, env_ok, env_ok]
            session_photo_armed worker_photo).thread.state
        = PhotoboothCaptureThreadState.CAPTURE_INIT := by
  decide

/-- C14, the code at the failing input: the worker is in PHOTO with a camera
session, its poll times out and `gp_camera_capture` reports the device gone
(-7).  The worker state becomes INIT, but `photo_booth_cam_close` is not
called and the session pointer is not NULL.  (In VIDEO, the same return code
from the preview capture does close the session.) -/
theorem still_disconnect_keeps_session :
    (capture_iteration env_capture_disconnect session_photo_armed worker_photo).thread.state
        = PhotoboothCaptureThreadState.CAPTURE_INIT
      ∧ (capture_iteration env_capture_disconnect session_photo_armed worker_photo).pb.cam_info
        ≠ none
      ∧ calls Effect.photo_booth_cam_close
          (new_calls session_photo_armed
            (capture_iteration env_capture_disconnect session_photo_armed worker_photo).pb) = 0
      ∧ (capture_iteration env_disconnect session_preview worker_video).pb.cam_info = none
      ∧ (capture_iteration env_disconnect session_preview worker_video).thread.state
        = PhotoboothCaptureThreadState.CAPTURE_INIT
      ∧ calls Effect.photo_booth_cam_close
          (new_calls session_preview
            (capture_iteration env_disconnect session_preview worker_video).pb) = 1 := by
  decide

/-- C15, counterexample: after each of the three hardware errors the session
state is not PREVIEW.  A failed probe at start-up leaves it NONE; a disconnect
during the preview capture turns PREVIEW into NONE; a failed still capture
leaves it TAKING_PHOTO. -/
theorem hardware_errors_leave_no_preview :
    (capture_iteration env_no_camera session_started worker_init).pb.state
        = PhotoboothState.PB_STATE_NONE
      ∧ session_preview.state = PhotoboothState.PB_STATE_PREVIEW
      ∧ (capture_iteration env_disconnect session_preview worker_video).pb.state
        = PhotoboothState.PB_STATE_NONE
      ∧ (capture_iteration env_capture_fails session_photo_armed worker_photo).pb.state
        = PhotoboothState.PB_STATE_TAKING_PHOTO
      ∧ (capture_iteration env_no_camera session_started worker_init).pb.state
        ≠ PhotoboothState.PB_STATE_PREVIEW
      ∧ (capture_iteration env_disconnect session_preview worker_video).pb.state
        ≠ PhotoboothState.PB_STATE_PREVIEW
      ∧ (capture_iteration env_capture_fails session_photo_armed worker_photo).pb.state
        ≠ PhotoboothState.PB_STATE_PREVIEW := by
  decide

/-- C15, amended: after each kind of hardware error handled by the capture
worker, in an iteration whose poll times out, the loop goes on (the process
keeps running) and the worker state is INIT; the session state is not set to
PREVIEW.  A failed camera probe and a failed still capture leave the session
state as it was; a disconnect (-7) during the preview capture sets it to NONE
and closes the camera session. -/
theorem hardware_errors_degrade_to_init (env : CameraEnv) (pb : PhotoBooth) (t : CaptureThread)
    (hq : pb.control = []) (hp : env.poll_error = false) :
    (t.state = PhotoboothCaptureThreadState.CAPTURE_INIT → pb.cam_info = none →
        env.gp_camera_init ≠ 0 →
        ∃ pb1 t1, capture_iteration env pb t = LoopResult.next pb1 t1
          ∧ t1.state = PhotoboothCaptureThreadState.CAPTURE_INIT
          ∧ pb1.state = pb.state ∧ pb1.cam_info = none)
      ∧ (∀ ci, t.state = PhotoboothCaptureThreadState.CAPTURE_VIDEO → pb.cam_info = some ci →
          ci.mutex_locked = false → env.gp_camera_capture_preview = -7 →
          ∃ pb1 t1, capture_iteration env pb t = LoopResult.next pb1 t1
            ∧ t1.state = PhotoboothCaptureThreadState.CAPTURE_INIT
            ∧ pb1.state = PhotoboothState.PB_STATE_NONE ∧ pb1.cam_info = none)
      ∧ (∀ ci, t.state = PhotoboothCaptureThreadState.CAPTURE_PHOTO → pb.cam_info = some ci →
          ci.mutex_locked = false →
          env.gp_camera_capture < 0 ∨ env.gp_camera_file_get < 0 →
          ∃ pb1 t1, capture_iteration env pb t = LoopResult.next pb1 t1
            ∧ t1.state = PhotoboothCaptureThreadState.CAPTURE_INIT
            ∧ pb1.state = pb.state) := by
  refine ⟨?_, ?_, ?_⟩
  · intro hs hc hbad
    exact ⟨_, _, failed_probe_iteration env pb t hs hq hp hc hbad, hs, rfl, hc⟩
  · intro ci hs hc hl h7
    exact ⟨_, _, preview_disconnect_iteration env pb t ci hs hq hp hc hl h7, rfl, rfl, rfl⟩
  · intro ci hs hc hl hfail
    obtain ⟨pb1, hit, hst, _, _, _⟩ := failed_still_iteration env pb t ci hs hq hp hc hl hfail
    exact ⟨pb1, _, hit, rfl, hst⟩

/-- Witness of C15: the three errors at sample states. -/
theorem hardware_errors_degrade_to_init_witness :
    (∃ pb1 t1, capture_iteration env_no_camera session_started worker_init
          = LoopResult.next pb1 t1
        ∧ t1.state = PhotoboothCaptureThreadState.CAPTURE_INIT
        ∧ pb1.state = session_started.state ∧ pb1.cam_info = none)
      ∧ (∃ pb1 t1, capture_iteration env_disconnect session_preview worker_video
          = LoopResult.next pb1 t1
        ∧ t1.state = PhotoboothCaptureThreadState.CAPTURE_INIT
        ∧ pb1.state = PhotoboothState.PB_STATE_NONE ∧ pb1.cam_info = none)
      ∧ (∃ pb1 t1, capture_iteration env_capture_fails session_photo_armed worker_photo
          = LoopResult.next pb1 t1
        ∧ t1.state = PhotoboothCaptureThreadState.CAPTURE_INIT
        ∧ pb1.state = session_photo_armed.state) :=
  ⟨(hardware_errors_degrade_to_init env_no_camera session_started worker_init rfl rfl).1
      rfl rfl (by decide),
   (hardware_errors_degrade_to_init env_disconnect session_preview worker_video rfl rfl).2.1
      camera_ready rfl rfl rfl rfl,
   (hardware_errors_degrade_to_init env_capture_fails session_photo_armed worker_photo
      rfl rfl).2.2 camera_ready rfl rfl rfl (Or.inl (by decide))⟩

/-! ### C16: when the still callback is posted -/

/-- After the poll, the still callback is posted once if
`photo_booth_take_photo` was called and returned TRUE, and not at all
otherwise. -/
theorem handle_poll_posts_still (env : CameraEnv) (pb : PhotoBooth) (t : CaptureThread) :
    (still_taken env pb t →
        calls (Effect.g_main_context_invoke Callback.photo_booth_snapshot_taken)
            (new_calls pb (handle_poll env pb t).pb) = 1
          ∧ calls Effect.photo_booth_take_photo (new_calls pb (handle_poll env pb t).pb) = 1)
      ∧ (¬ still_taken env pb t →
        calls (Effect.g_main_context_invoke Callback.photo_booth_snapshot_taken)
            (new_calls pb (handle_poll env pb t).pb) = 0) := by
  constructor
  · rintro ⟨hs, hp, hq, ci, hc, hr⟩
    obtain ⟨new, hlog, _, k2, _, _, k5, _, _, _⟩ := take_photo_frame env pb ci hc
    have k2s := k2 Callback.photo_booth_snapshot_taken
    simp only [calls] at k2s k5
    have hnew : new_calls pb (handle_poll env pb t).pb
        = new ++ [Effect.g_main_context_invoke Callback.photo_booth_snapshot_taken] := by
      apply new_calls_append
      simp [handle_poll, hp, hq, hs, hc, hr, LoopResult.pb, hlog, PhotoBooth.emit]
    rw [hnew]
    simp [calls, List.count_append, k2s, k5]
  · intro hno
    by_cases hp : env.poll_error = true
    · cases hf : t.gp_file <;>
        simp [handle_poll, hp, stop_running, hf, LoopResult.pb, new_calls, calls, PhotoBooth.emit]
    · cases hq : pb.control with
      | cons c rest => simp [handle_poll, hp, hq, LoopResult.pb, new_calls, calls]
      | nil =>
        by_cases hv : t.state = PhotoboothCaptureThreadState.CAPTURE_VIDEO
        · cases hc : pb.cam_info with
          | none => simp [handle_poll, hp, hq, hv, hc, LoopResult.pb, new_calls, calls]
          | some ci =>
            by_cases hl : ci.mutex_locked = true
            · simp [handle_poll, hp, hq, hv, hc, hl, LoopResult.pb, new_calls, calls]
            · by_cases h1 : env.gp_camera_capture_preview < 0
              · by_cases h7 : env.gp_camera_capture_preview = -7
                · simp [handle_poll, hp, hq, hv, hc, hl, h7, photo_booth_cam_close,
                    PhotoBooth.emit, LoopResult.pb, new_calls, calls]
                · simp [handle_poll, hp, hq, hv, hc, hl, h1, h7, PhotoBooth.emit,
                    LoopResult.pb, new_calls, calls]
              · cases hm : env.mime_is_jpeg <;>
                  simp [handle_poll, hp, hq, hv, hc, hl, h1, hm, PhotoBooth.emit,
                    LoopResult.pb, new_calls, calls]
        · by_cases hph : t.state = PhotoboothCaptureThreadState.CAPTURE_PHOTO
          · cases hc : pb.cam_info with
            | none => simp [handle_poll, hp, hq, hph, hc, LoopResult.pb, new_calls, calls]
            | some ci =>
              obtain ⟨new, hlog, _, k2, _, _, _, _, _, _⟩ := take_photo_frame env pb ci hc
              have k2s := k2 Callback.photo_booth_snapshot_taken
              cases hr : (photo_booth_take_photo env pb ci).1 with
              | none =>
                have hnew : new_calls pb (handle_poll env pb t).pb = new := by
                  apply new_calls_append
                  simp [handle_poll, hp, hq, hph, hc, hr, LoopResult.pb, hlog]
                rw [hnew]; exact k2s
              | some ok =>
                cases ok with
                | false =>
                  have hnew : new_calls pb (handle_poll env pb t).pb = new := by
                    apply new_calls_append
                    simp [handle_poll, hp, hq, hph, hc, hr, LoopResult.pb, hlog]
                  rw [hnew]; exact k2s
                | true =>
                  exact absurd ⟨hph, by simpa using hp, hq, ci, hc, hr⟩ hno
          · simp [handle_poll, hp, hq, hv, hph, LoopResult.pb, new_calls, calls]

/-- The calls of one iteration of a running worker are those up to and
including the poll followed by those made on the result of the poll. -/
theorem capture_iteration_calls_split (env : CameraEnv) (pb : PhotoBooth) (t : CaptureThread)
    (hlive : t.state ≠ PhotoboothCaptureThreadState.CAPTURE_STOP) :
    new_calls pb (capture_iteration env pb t).pb
      = new_calls pb ((prepare_poll env pb t).1.emit (Effect.poll (prepare_poll env pb t).2.2))
        ++ new_calls ((prepare_poll env pb t).1.emit (Effect.poll (prepare_poll env pb t).2.2))
            (handle_poll env
              ((prepare_poll env pb t).1.emit (Effect.poll (prepare_poll env pb t).2.2))
              (prepare_poll env pb t).2.1).pb := by
  obtain ⟨after, hlog, _⟩ :=
    handle_poll_frame env ((prepare_poll env pb t).1.emit (Effect.poll (prepare_poll env pb t).2.2))
      (prepare_poll env pb t).2.1
  obtain ⟨before, hb, _⟩ := (prepare_poll_frame env pb t).2.2.2
  have h1 : ((prepare_poll env pb t).1.emit (Effect.poll (prepare_poll env pb t).2.2)).log
      = pb.log ++ (before ++ [Effect.poll (prepare_poll env pb t).2.2]) := by
    simp [PhotoBooth.emit, hb]
  rw [new_calls_append _ _ _ hlog, new_calls_append _ _ _ h1]
  apply new_calls_append
  simp only [capture_iteration, hlive, if_false]
  rw [hlog, h1, List.append_assoc]

/-- C16: in every iteration of the capture worker loop, the still-injection
callback `photo_booth_snapshot_taken` is posted (once) if and only if that
iteration called `photo_booth_take_photo` and the call returned TRUE, which
happens only in an iteration entered in PHOTO whose poll timed out with a
camera session present.  It is posted at most once, never in an iteration
entered in another state (VIDEO, PAUSED, INIT, STOP), never in an iteration
that reads a command, and never when the capture call returns FALSE or does
not return. -/
theorem snapshot_taken_posted_iff (env : CameraEnv) (pb : PhotoBooth) (t : CaptureThread) :
    (calls (Effect.g_main_context_invoke Callback.photo_booth_snapshot_taken)
          (new_calls pb (capture_iteration env pb t).pb) = 1
        ↔ still_taken env (pb.emit (Effect.poll (1000 / PREVIEW_FPS))) t)
      ∧ calls (Effect.g_main_context_invoke Callback.photo_booth_snapshot_taken)
          (new_calls pb (capture_iteration env pb t).pb) ≤ 1
      ∧ (calls (Effect.g_main_context_invoke Callback.photo_booth_snapshot_taken)
            (new_calls pb (capture_iteration env pb t).pb) = 1 →
          calls Effect.photo_booth_take_photo (new_calls pb (capture_iteration env pb t).pb) = 1)
      ∧ (t.state ≠ PhotoboothCaptureThreadState.CAPTURE_PHOTO →
          calls (Effect.g_main_context_invoke Callback.photo_booth_snapshot_taken)
            (new_calls pb (capture_iteration env pb t).pb) = 0)
      ∧ (pb.control ≠ [] →
          calls (Effect.g_main_context_invoke Callback.photo_booth_snapshot_taken)
            (new_calls pb (capture_iteration env pb t).pb) = 0)
      ∧ (∀ ci, pb.cam_info = some ci →
          (photo_booth_take_photo env (pb.emit (Effect.poll (1000 / PREVIEW_FPS))) ci).1
            ≠ some true →
          calls (Effect.g_main_context_invoke Callback.photo_booth_snapshot_taken)
            (new_calls pb (capture_iteration env pb t).pb) = 0) := by
  -- the two cases the rest follows from
  have key : (still_taken env (pb.emit (Effect.poll (1000 / PREVIEW_FPS))) t →
        calls (Effect.g_main_context_invoke Callback.photo_booth_snapshot_taken)
            (new_calls pb (capture_iteration env pb t).pb) = 1
          ∧ calls Effect.photo_booth_take_photo
            (new_calls pb (capture_iteration env pb t).pb) = 1)
      ∧ (¬ still_taken env (pb.emit (Effect.poll (1000 / PREVIEW_FPS))) t →
        calls (Effect.g_main_context_invoke Callback.photo_booth_snapshot_taken)
            (new_calls pb (capture_iteration env pb t).pb) = 0) := by
    by_cases hstop : t.state = PhotoboothCaptureThreadState.CAPTURE_STOP
    · constructor
      · rintro ⟨hs, _⟩
        rw [hstop] at hs
        exact absurd hs (by decide)
      · intro _
        cases hf : t.gp_file <;>
          simp [capture_iteration, hstop, stop_running, hf, LoopResult.pb, new_calls, calls,
            PhotoBooth.emit]
    · rw [capture_iteration_calls_split env pb t hstop]
      obtain ⟨hlog, _, hst, _, _, _⟩ := prepare_poll_eq env pb t
      have hpre : new_calls pb
          ((prepare_poll env pb t).1.emit (Effect.poll (prepare_poll env pb t).2.2))
          = (if t.state = PhotoboothCaptureThreadState.CAPTURE_INIT ∧ pb.cam_info = none then
              [Effect.photo_booth_cam_init, Effect.gp_camera_init]
                ++ (if env.gp_camera_init = 0
                      then [Effect.g_main_context_invoke Callback.photo_booth_preview] else [])
             else []) ++ [Effect.poll (prepare_poll env pb t).2.2] := by
        apply new_calls_append
        simp [PhotoBooth.emit, hlog]
      have hpre0 : calls (Effect.g_main_context_invoke Callback.photo_booth_snapshot_taken)
          (new_calls pb
            ((prepare_poll env pb t).1.emit (Effect.poll (prepare_poll env pb t).2.2))) = 0
          ∧ calls Effect.photo_booth_take_photo
          (new_calls pb
            ((prepare_poll env pb t).1.emit (Effect.poll (prepare_poll env pb t).2.2))) = 0 := by
        rw [hpre]
        by_cases hi : t.state = PhotoboothCaptureThreadState.CAPTURE_INIT ∧ pb.cam_info = none
        · by_cases hok : env.gp_camera_init = 0 <;> simp [calls, hi, hok]
        · simp [calls, hi]
      obtain ⟨hyes, hno⟩ := handle_poll_posts_still env
        ((prepare_poll env pb t).1.emit (Effect.poll (prepare_poll env pb t).2.2))
        (prepare_poll env pb t).2.1
      simp only [calls] at hpre0 hyes hno
      by_cases hph : t.state = PhotoboothCaptureThreadState.CAPTURE_PHOTO
      · have hP : prepare_poll env pb t = (pb, t, 1000 / PREVIEW_FPS) := by
          simp [prepare_poll, hph]
        rw [hP] at hyes hno hpre0 ⊢
        constructor
        · intro h
          obtain ⟨a, b⟩ := hyes h
          simp [calls, List.count_append, hpre0.1, hpre0.2, a, b]
        · intro h
          simp [calls, List.count_append, hpre0.1, hno h]
      · have hT : (prepare_poll env pb t).2.1.state
            ≠ PhotoboothCaptureThreadState.CAPTURE_PHOTO := by
          rw [hst]
          split
          · decide
          · exact hph
        have hfalse : ¬ still_taken env
            ((prepare_poll env pb t).1.emit (Effect.poll (prepare_poll env pb t).2.2))
            (prepare_poll env pb t).2.1 := fun h => hT h.1
        constructor
        · intro h
          exact absurd h.1 hph
        · intro _
          simp [calls, List.count_append, hpre0.1, hno hfalse]
  obtain ⟨kyes, kno⟩ := key
  by_cases hst : still_taken env (pb.emit (Effect.poll (1000 / PREVIEW_FPS))) t
  · obtain ⟨a, b⟩ := kyes hst
    refine ⟨⟨fun _ => hst, fun _ => a⟩, by omega, fun _ => b, ?_, ?_, ?_⟩
    · intro h; exact absurd hst.1 h
    · intro h; exact absurd (by simpa [PhotoBooth.emit] using hst.2.2.1) h
    · intro ci hc hr
      obtain ⟨_, _, _, ci2, hc2, hr2⟩ := hst
      have : ci2 = ci := by
        have h3 : (pb.emit (Effect.poll (1000 / PREVIEW_FPS))).cam_info = pb.cam_info := rfl
        rw [h3, hc] at hc2
        exact (Option.some.inj hc2).symm
      rw [this] at hr2
      exact absurd hr2 hr
  · have z := kno hst
    refine ⟨⟨fun h => by omega, fun h => absurd h hst⟩, by omega, fun h => by omega,
      fun _ => z, fun _ => z, fun _ _ _ => z⟩

/-- Witness of C16: the worker armed for a still, every call succeeding, posts
the callback once. -/
theorem snapshot_taken_posted_iff_witness :
    calls (Effect.g_main_context_invoke Callback.photo_booth_snapshot_taken)
      (new_calls session_photo_armed
        (capture_iteration env_ok session_photo_armed worker_photo).pb) = 1 :=
  (snapshot_taken_posted_iff env_ok session_photo_armed worker_photo).1.2
    ⟨rfl, rfl, rfl, camera_ready, rfl, by decide⟩

/-! ### C17: the return value of `photo_booth_take_photo` -/

/-- C17, counterexample: `photo_booth_take_photo` returns TRUE although a
sub-step has failed: when only `gp_camera_file_delete` returns an error, and
when only `gp_file_new` returns an error. -/
theorem take_photo_true_despite_failure :
    env_delete_fails.gp_camera_file_delete < 0
      ∧ (photo_booth_take_photo env_delete_fails session_photo_armed camera_ready).1 = some true
      ∧ env_file_new_fails.gp_file_new < 0
      ∧ (photo_booth_take_photo env_file_new_fails session_photo_armed camera_ready).1
        = some true := by
  decide

/-- C17, amended: `photo_booth_take_photo` (entered with the session mutex
free) returns FALSE whenever the capture (`gp_camera_capture`) or the file
retrieval (`gp_camera_file_get`) returns a negative code.  The return codes of
`gp_file_new` and `gp_camera_file_delete` are not tested: when the capture, the
retrieval and the read of data and size succeed, it returns TRUE whatever
those two return.  It returns TRUE only if capture and retrieval succeeded. -/
theorem take_photo_return_value (env : CameraEnv) (pb : PhotoBooth) (ci : CameraInfo)
    (hl : ci.mutex_locked = false) :
    (env.gp_camera_capture < 0 ∨ env.gp_camera_file_get < 0 →
        (photo_booth_take_photo env pb ci).1 = some false)
      ∧ (0 ≤ env.gp_camera_capture → 0 ≤ env.gp_camera_file_get →
          0 ≤ env.gp_file_get_data_and_size →
          (photo_booth_take_photo env pb ci).1 = some true)
      ∧ ((photo_booth_take_photo env pb ci).1 = some true →
          0 ≤ env.gp_camera_capture ∧ 0 ≤ env.gp_camera_file_get) := by
  by_cases h1 : env.gp_camera_capture < 0
  · refine ⟨fun _ => ?_, fun h => absurd h1 (not_lt.mpr h), fun h => ?_⟩
    · simp [photo_booth_take_photo, hl, h1]
    · simp [photo_booth_take_photo, hl, h1] at h
  · by_cases h2 : env.gp_camera_file_get < 0
    · refine ⟨fun _ => ?_, fun _ h => absurd h2 (not_lt.mpr h), fun h => ?_⟩
      · simp [photo_booth_take_photo, hl, h1, h2]
      · simp [photo_booth_take_photo, hl, h1, h2] at h
    · refine ⟨fun h => ?_, fun _ _ _ => ?_, fun _ => ⟨not_lt.mp h1, not_lt.mp h2⟩⟩
      · rcases h with h | h
        · exact absurd h h1
        · exact absurd h h2
      · simp [photo_booth_take_photo, hl, h1, h2]

/-- Witness of C17: a failed capture gives FALSE, a run in which only the
deletion fails gives TRUE. -/
theorem take_photo_return_value_witness :
    (photo_booth_take_photo env_capture_fails session_photo_armed camera_ready).1 = some false
      ∧ (photo_booth_take_photo env_delete_fails session_photo_armed camera_ready).1
        = some true :=
  ⟨(take_photo_return_value env_capture_fails session_photo_armed camera_ready rfl).1
      (Or.inl (by decide)),
   (take_photo_return_value env_delete_fails session_photo_armed camera_ready rfl).2.1
      (by decide) (by decide) (by decide)⟩

/-! ### C18: the camera probe function -/

/-- C18: `photo_booth_cam_init` returns TRUE if and only if `gp_camera_init`
returns `GP_OK` (0).  When it returns FALSE the session pointer it hands back
is NULL; when it returns TRUE the pointer is set, to a session with still
size 0, still data NULL, frame counter 0 and the mutex released. -/
theorem cam_init_iff_probe_ok (env : CameraEnv) (pb : PhotoBooth) :
    ((photo_booth_cam_init env pb).1 = true ↔ env.gp_camera_init = 0)
      ∧ ((photo_booth_cam_init env pb).1 = false → (photo_booth_cam_init env pb).2.cam_info = none)
      ∧ ((photo_booth_cam_init env pb).1 = true →
          ∃ ci, (photo_booth_cam_init env pb).2.cam_info = some ci
            ∧ ci.size = 0 ∧ ci.data = none ∧ ci.preview_capture_count = 0
            ∧ ci.mutex_locked = false) := by
  by_cases hok : env.gp_camera_init = 0
  · simp [photo_booth_cam_init, hok]
  · simp [photo_booth_cam_init, hok]

/-! ### C19: the topology after a photo cycle -/

/-- Fourth case of the observer: in WAITING_FOR_ANSWER it unlinks and removes
encoder and writer and asks for its own removal. -/
theorem catch_photo_buffer_detach (pb : PhotoBooth)
    (hs : pb.state = PhotoboothState.PB_STATE_WAITING_FOR_ANSWER) :
    (photo_booth_catch_photo_buffer pb).1 = some GstPadProbeReturn.GST_PAD_PROBE_REMOVE
      ∧ (photo_booth_catch_photo_buffer pb).2.photo_elements
        = (pb.photo_elements.filter (fun x => x ≠ ElementName.photo_encoder)).filter
            (fun x => x ≠ ElementName.photo_filesink)
      ∧ (photo_booth_catch_photo_buffer pb).2.photo_links
        = (pb.photo_links.filter
            (fun l => l ≠ (ElementName.photo_tee, ElementName.photo_encoder))).filter
            (fun l => l ≠ (ElementName.photo_encoder, ElementName.photo_filesink))
      ∧ (photo_booth_catch_photo_buffer pb).2.video_block_id = pb.video_block_id := by
  simp [photo_booth_catch_photo_buffer, hs, gst_element_set_state, PhotoBooth.emit,
    photo_unlink, photo_bin_remove]

/-- A buffer that the observer lets pass is followed by the remaining ones. -/
theorem pass_buffers_pass (n : Nat) (pb : PhotoBooth)
    (h : (photo_booth_catch_photo_buffer pb).1 = some GstPadProbeReturn.GST_PAD_PROBE_PASS) :
    pass_buffers (n + 1) pb = pass_buffers n (photo_booth_catch_photo_buffer pb).2 := by
  rcases hc : photo_booth_catch_photo_buffer pb with ⟨r, pb1⟩
  rw [hc] at h
  simp only at h
  subst h
  simp [pass_buffers, hc]

/-- A buffer at which the observer removes itself is the last one observed. -/
theorem pass_buffers_remove (n : Nat) (pb : PhotoBooth)
    (h : (photo_booth_catch_photo_buffer pb).1 = some GstPadProbeReturn.GST_PAD_PROBE_REMOVE) :
    pass_buffers (n + 1) pb = (photo_booth_catch_photo_buffer pb).2 := by
  rcases hc : photo_booth_catch_photo_buffer pb with ⟨r, pb1⟩
  rw [hc] at h
  simp only at h
  subst h
  simp [pass_buffers, hc]

/-- The children and links of `photo_bin` after `n` observed buffers, counted
from TAKING_PHOTO with no encoder and writer: the branch is there after the
second and the third buffer and at no other time. -/
theorem pass_buffers_topology (n : Nat) (pb : PhotoBooth)
    (hs : pb.state = PhotoboothState.PB_STATE_TAKING_PHOTO)
    (he : ElementName.photo_encoder ∉ pb.photo_elements)
    (hf : ElementName.photo_filesink ∉ pb.photo_elements)
    (hl1 : (ElementName.photo_tee, ElementName.photo_encoder) ∉ pb.photo_links)
    (hl2 : (ElementName.photo_encoder, ElementName.photo_filesink) ∉ pb.photo_links) :
    (pass_buffers n pb).video_block_id = pb.video_block_id
      ∧ (pass_buffers n pb).photo_elements
        = (if n = 2 ∨ n = 3
            then pb.photo_elements ++ [ElementName.photo_encoder, ElementName.photo_filesink]
            else pb.photo_elements)
      ∧ (pass_buffers n pb).photo_links
        = (if n = 2 ∨ n = 3
            then pb.photo_links ++ [(ElementName.photo_tee, ElementName.photo_encoder),
              (ElementName.photo_encoder, ElementName.photo_filesink)]
            else pb.photo_links) := by
  have e1 := catch_photo_buffer_taking pb hs
  have e2 := catch_photo_buffer_attach (photo_booth_catch_photo_buffer pb).2
    (by rw [e1]) (by rw [e1]; exact he)
  have e3 := catch_photo_buffer_attached
    (photo_booth_catch_photo_buffer (photo_booth_catch_photo_buffer pb).2).2
    (by rw [e2]; rw [e1]) (by rw [e2]; simp)
  have e4 := catch_photo_buffer_detach
    (photo_booth_catch_photo_buffer
      (photo_booth_catch_photo_buffer (photo_booth_catch_photo_buffer pb).2).2).2
    (by rw [e3])
  have p1 : ∀ k, pass_buffers (k + 1) pb = pass_buffers k (photo_booth_catch_photo_buffer pb).2 :=
    fun k => pass_buffers_pass k pb (by rw [e1])
  have p2 : ∀ k, pass_buffers (k + 1) (photo_booth_catch_photo_buffer pb).2
      = pass_buffers k (photo_booth_catch_photo_buffer (photo_booth_catch_photo_buffer pb).2).2 :=
    fun k => pass_buffers_pass k _ (by rw [e2])
  have p3 : ∀ k, pass_buffers (k + 1)
        (photo_booth_catch_photo_buffer (photo_booth_catch_photo_buffer pb).2).2
      = pass_buffers k (photo_booth_catch_photo_buffer
          (photo_booth_catch_photo_buffer (photo_booth_catch_photo_buffer pb).2).2).2 :=
    fun k => pass_buffers_pass k _ (by rw [e3])
  have p4 : ∀ k, pass_buffers (k + 1)
        (photo_booth_catch_photo_buffer
          (photo_booth_catch_photo_buffer (photo_booth_catch_photo_buffer pb).2).2).2
      = (photo_booth_catch_photo_buffer (photo_booth_catch_photo_buffer
          (photo_booth_catch_photo_buffer (photo_booth_catch_photo_buffer pb).2).2).2).2 :=
    fun k => pass_buffers_remove k _ e4.1
  match n with
  | 0 => simp [pass_buffers]
  | 1 =>
    rw [p1 0]
    simp [pass_buffers, e1]
  | 2 =>
    rw [p1 1, p2 0]
    simp only [pass_buffers]
    rw [e2]
    simp only []
    rw [e1]
    simp
  | 3 =>
    rw [p1 2, p2 1, p3 0]
    simp only [pass_buffers]
    rw [e3]
    simp only []
    rw [e2]
    simp only []
    rw [e1]
    simp
  | k + 4 =>
    rw [p1 (k + 3), p2 (k + 2), p3 (k + 1), p4 k]
    have hne : ¬ (k + 4 = 2 ∨ k + 4 = 3) := by omega
    rw [if_neg hne, if_neg hne]
    refine ⟨?_, ?_, ?_⟩
    · rw [e4.2.2.2, e3, e2, e1]
    · rw [e4.2.1, e3, e2, e1]
      simp [List.filter_append]
      intro a ha
      exact ⟨fun h => hf (h ▸ ha), fun h => he (h ▸ ha)⟩
    · rw [e4.2.2.1, e3, e2, e1]
      simp [List.filter_append]
      intro a b hab
      exact ⟨fun h1 h2 => hl2 (by subst h1 h2; exact hab),
        fun h1 h2 => hl1 (by subst h1 h2; exact hab)⟩

/-- What `photo_booth_snapshot_prepare` leaves when a camera session exists:
the session state TAKING_PHOTO, a set `video_block_id`, and the children and
links of `photo_bin` as they were. -/
theorem snapshot_prepare_topology (pb : PhotoBooth) (ci : CameraInfo)
    (hcam : pb.cam_info = some ci) :
    (photo_booth_snapshot_prepare pb).state = PhotoboothState.PB_STATE_TAKING_PHOTO
      ∧ (photo_booth_snapshot_prepare pb).video_block_id ≠ 0
      ∧ (photo_booth_snapshot_prepare pb).photo_elements = pb.photo_elements
      ∧ (photo_booth_snapshot_prepare pb).photo_links = pb.photo_links := by
  by_cases hb : pb.photo_block_id = 0 <;>
    simp [photo_booth_snapshot_prepare, hcam, hb, link_photo_bin, gst_element_set_state,
      PhotoBooth.emit, video_pad_add_probe, unlink_video_bin, SEND_COMMAND,
      photo_pad_remove_probe]

/-- What `photo_booth_preview` leaves: `video_bin` linked, `photo_bin`
unlinked when `video_block_id` is set, and the children and links of
`photo_bin` as they were. -/
theorem preview_topology (pb : PhotoBooth) :
    (photo_booth_preview pb).video_linked = true
      ∧ (pb.video_block_id ≠ 0 → (photo_booth_preview pb).photo_linked = false)
      ∧ (photo_booth_preview pb).photo_elements = pb.photo_elements
      ∧ (photo_booth_preview pb).photo_links = pb.photo_links := by
  by_cases hb : pb.video_block_id = 0 <;>
    simp [photo_booth_preview, hb, link_video_bin, gst_element_set_state, PhotoBooth.emit,
      photo_pad_add_probe, unlink_photo_bin, video_pad_remove_probe]

/-- C19, counterexample: from the preview with no encoder and writer, a switch
to the photo, two (or three) buffers at the observer and a switch back leave
`photo-encoder` and `photo-filesink` attached to `photo_bin`, linked to the
tee; the branch was attached during the cycle, by the second buffer, with no
operator confirm. -/
theorem photo_cycle_keeps_encoder :
    session_preview.video_linked = true
      ∧ ElementName.photo_encoder ∉ session_preview.photo_elements
      ∧ ElementName.photo_filesink ∉ session_preview.photo_elements
      ∧ ElementName.photo_encoder ∈ (photo_cycle 2 session_preview).photo_elements
      ∧ (ElementName.photo_tee, ElementName.photo_encoder)
          ∈ (photo_cycle 2 session_preview).photo_links
      ∧ ElementName.photo_encoder ∈ (photo_cycle 3 session_preview).photo_elements
      ∧ (photo_cycle 2 session_preview).photo_elements ≠ session_preview.photo_elements
      ∧ ElementName.photo_encoder
          ∈ (pass_buffers 2 (photo_booth_snapshot_prepare session_preview)).photo_elements := by
  decide

/-- C19, amended: starting from a state with a camera session in which no
encoder+writer branch exists, switching to photo
(`photo_booth_snapshot_prepare`), letting `n` photo buffers pass the observer
without an operator confirm, and switching back (`photo_booth_preview`) leaves
the preview linked to the output and the photo sub-graph not linked.  The
children and links of the photo sub-graph are those from before the switch if
`n` is 0, 1 or at least 4; if `n` is 2 or 3 the encoder+writer branch is still
attached.  During the cycle the branch is attached exactly after the second
and after the third buffer: the second buffer attaches it, the fourth
detaches it. -/
theorem photo_cycle_topology (n : Nat) (pb : PhotoBooth) (ci : CameraInfo)
    (hcam : pb.cam_info = some ci)
    (he : ElementName.photo_encoder ∉ pb.photo_elements)
    (hf : ElementName.photo_filesink ∉ pb.photo_elements)
    (hl1 : (ElementName.photo_tee, ElementName.photo_encoder) ∉ pb.photo_links)
    (hl2 : (ElementName.photo_encoder, ElementName.photo_filesink) ∉ pb.photo_links) :
    (photo_cycle n pb).video_linked = true
      ∧ (photo_cycle n pb).photo_linked = false
      ∧ (photo_cycle n pb).photo_elements
        = (if n = 2 ∨ n = 3
            then pb.photo_elements ++ [ElementName.photo_encoder, ElementName.photo_filesink]
            else pb.photo_elements)
      ∧ (photo_cycle n pb).photo_links
        = (if n = 2 ∨ n = 3
            then pb.photo_links ++ [(ElementName.photo_tee, ElementName.photo_encoder),
              (ElementName.photo_encoder, ElementName.photo_filesink)]
            else pb.photo_links)
      ∧ (∀ k, (pass_buffers k (photo_booth_snapshot_prepare pb)).photo_elements
          = (if k = 2 ∨ k = 3
              then pb.photo_elements ++ [ElementName.photo_encoder, ElementName.photo_filesink]
              else pb.photo_elements)) := by
  obtain ⟨hs, hb, hel, hlk⟩ := snapshot_prepare_topology pb ci hcam
  have hk : ∀ k, _ := fun k =>
    pass_buffers_topology k (photo_booth_snapshot_prepare pb) hs
      (by rw [hel]; exact he) (by rw [hel]; exact hf)
      (by rw [hlk]; exact hl1) (by rw [hlk]; exact hl2)
  obtain ⟨kb, kel, klk⟩ := hk n
  obtain ⟨pv, pp, pel, plk⟩ :=
    preview_topology (pass_buffers n (photo_booth_snapshot_prepare pb))
  refine ⟨pv, pp (by rw [kb]; exact hb), ?_, ?_, ?_⟩
  · simp only [photo_cycle]
    rw [pel, kel, hel]
  · simp only [photo_cycle]
    rw [plk, klk, hlk]
  · intro k
    rw [(hk k).2.1, hel]

/-- Witness of C19: from the preview, a cycle with four buffers restores the
children of `photo_bin`. -/
theorem photo_cycle_topology_witness :
    (photo_cycle 4 session_preview).photo_elements
      = (if 4 = 2 ∨ 4 = 3
          then session_preview.photo_elements
            ++ [ElementName.photo_encoder, ElementName.photo_filesink]
          else session_preview.photo_elements) :=
  (photo_cycle_topology 4 session_preview camera_ready rfl (by decide) (by decide) (by decide)
    (by decide)).2.2.1

/-! ### C20: the shutdown order -/

/-- One iteration only adds to the log. -/
theorem capture_iteration_extends (env : CameraEnv) (pb : PhotoBooth) (t : CaptureThread) :
    ∃ new, (capture_iteration env pb t).pb.log = pb.log ++ new := by
  by_cases hstop : t.state = PhotoboothCaptureThreadState.CAPTURE_STOP
  · cases hf : t.gp_file
    · exact ⟨[], by simp [capture_iteration, hstop, stop_running, hf, LoopResult.pb]⟩
    · exact ⟨[Effect.gp_file_unref],
        by simp [capture_iteration, hstop, stop_running, hf, LoopResult.pb, PhotoBooth.emit]⟩
  · obtain ⟨after, hlog, _⟩ :=
      handle_poll_frame env
        ((prepare_poll env pb t).1.emit (Effect.poll (prepare_poll env pb t).2.2))
        (prepare_poll env pb t).2.1
    obtain ⟨before, hb, _⟩ := (prepare_poll_frame env pb t).2.2.2
    refine ⟨before ++ [Effect.poll (prepare_poll env pb t).2.2] ++ after, ?_⟩
    simp only [capture_iteration, hstop, if_false]
    rw [hlog]
    simp [PhotoBooth.emit, hb]

/-- The capture loop only adds to the log. -/
theorem capture_loop_extends (envs : List CameraEnv) :
    ∀ (pb : PhotoBooth) (t : CaptureThread),
      ∃ new, (capture_loop envs pb t).pb.log = pb.log ++ new := by
  induction envs with
  | nil => intro pb t; exact ⟨[], by simp [capture_loop, LoopResult.pb]⟩
  | cons env envs ih =>
    intro pb t
    obtain ⟨new1, h1⟩ := capture_iteration_extends env pb t
    cases hit : capture_iteration env pb t with
    | next pb1 t1 =>
      obtain ⟨new2, h2⟩ := ih pb1 t1
      rw [hit] at h1
      simp only [LoopResult.pb] at h1
      exact ⟨new1 ++ new2, by simp [capture_loop, hit, h2, h1]⟩
    | stopped pb1 t1 =>
      rw [hit] at h1
      exact ⟨new1, by simpa [capture_loop, hit] using h1⟩
    | hung pb1 t1 =>
      rw [hit] at h1
      exact ⟨new1, by simpa [capture_loop, hit] using h1⟩

/-- The join logs its own call first and then only adds the worker's calls. -/
theorem g_thread_join_extends (w : Option (CaptureThread × List CameraEnv)) (pb : PhotoBooth) :
    ∃ worker_calls, (g_thread_join w pb).2.log = pb.log ++ Effect.g_thread_join :: worker_calls := by
  cases w with
  | none => exact ⟨[], by simp [g_thread_join, PhotoBooth.emit]⟩
  | some p =>
    obtain ⟨t, envs⟩ := p
    obtain ⟨new, h⟩ := capture_loop_extends envs (pb.emit Effect.g_thread_join) t
    refine ⟨new, ?_⟩
    cases hl : capture_loop envs (pb.emit Effect.g_thread_join) t <;>
      · rw [hl] at h
        simp only [LoopResult.pb] at h
        simp only [g_thread_join, hl]
        simp [h, PhotoBooth.emit]

/-- What `photo_booth_finalize` does once the join has returned, and that it
does nothing when the join does not return. -/
theorem finalize_after_join (video_fd : Int) (w : Option (CaptureThread × List CameraEnv))
    (pb : PhotoBooth) :
    ((g_thread_join w (finalize_at_join pb)).1 = false →
        photo_booth_finalize video_fd w pb = (false, (g_thread_join w (finalize_at_join pb)).2))
      ∧ ((g_thread_join w (finalize_at_join pb)).1 = true →
          (photo_booth_finalize video_fd w pb).2.log
              = (g_thread_join w (finalize_at_join pb)).2.log
                ++ ((match (g_thread_join w (finalize_at_join pb)).2.cam_info with
                    | none => []
                    | some ci =>
                      if ci.mutex_locked then [Effect.photo_booth_cam_close]
                      else [Effect.photo_booth_cam_close, Effect.gp_camera_exit])
                  ++ (if video_fd ≠ 0 ∧ (photo_booth_finalize video_fd w pb).1 = true
                        then [Effect.close_video_fd, Effect.unlink_moviepipe] else []))
            ∧ ((photo_booth_finalize video_fd w pb).1 = true
                ↔ ∀ ci, (g_thread_join w (finalize_at_join pb)).2.cam_info = some ci
                    → ci.mutex_locked = false)) := by
  have hfold : (SEND_COMMAND pb ControlCommand.CONTROL_STOP).emit Effect.photo_booth_flush_pipe
      = finalize_at_join pb := rfl
  simp only [photo_booth_finalize, hfold]
  generalize g_thread_join w (finalize_at_join pb) = J
  obtain ⟨j1, j2⟩ := J
  cases j1 with
  | false => simp
  | true =>
    cases hc : j2.cam_info with
    | none =>
      by_cases hfd : video_fd = 0 <;> simp [hc, hfd, PhotoBooth.emit]
    | some ci =>
      cases hl : ci.mutex_locked with
      | true => simp [hc, photo_booth_cam_close, hl, PhotoBooth.emit]
      | false =>
        by_cases hfd : video_fd = 0 <;>
          simp [hc, hfd, PhotoBooth.emit, photo_booth_cam_close, hl]

/-- C20: `photo_booth_finalize` performs its steps in this order, for every
session, every capture thread and every pipe descriptor.  It sends STOP on the
control channel and flushes the frame pipe, and up to there the camera session
is untouched.  Then it joins the capture thread: with no thread
(`pb->capture_thread` NULL) the join returns at once; with a worker the join
runs the worker's remaining iterations and returns exactly when the worker has
returned through its STOP exit.  While the worker has not returned the
function makes no further call: it closes nothing.  Once the join has
returned, and only then, it closes the camera session if one exists, and after
the close has returned it closes and unlinks the pipe (when the descriptor is
non-zero).  When the function returns, the join has returned and no session is
left. -/
theorem finalize_order (video_fd : Int) (w : Option (CaptureThread × List CameraEnv))
    (pb : PhotoBooth) :
    new_calls pb (finalize_at_join pb)
        = [Effect.send_command ControlCommand.CONTROL_STOP, Effect.photo_booth_flush_pipe]
      ∧ (finalize_at_join pb).cam_info = pb.cam_info
      ∧ (w = none →
          g_thread_join w (finalize_at_join pb)
            = (true, (finalize_at_join pb).emit Effect.g_thread_join))
      ∧ (∀ t envs, w = some (t, envs) →
          (g_thread_join w (finalize_at_join pb)).2
              = (capture_loop envs ((finalize_at_join pb).emit Effect.g_thread_join) t).pb
            ∧ ((g_thread_join w (finalize_at_join pb)).1 = true
                ↔ ∃ pb1 t1,
                    capture_loop envs ((finalize_at_join pb).emit Effect.g_thread_join) t
                      = LoopResult.stopped pb1 t1))
      ∧ (∃ worker_calls,
          new_calls (finalize_at_join pb) (g_thread_join w (finalize_at_join pb)).2
            = Effect.g_thread_join :: worker_calls)
      ∧ ((g_thread_join w (finalize_at_join pb)).1 = false →
          photo_booth_finalize video_fd w pb
            = (false, (g_thread_join w (finalize_at_join pb)).2))
      ∧ ((g_thread_join w (finalize_at_join pb)).1 = true →
          new_calls (g_thread_join w (finalize_at_join pb)).2
              (photo_booth_finalize video_fd w pb).2
            = (match (g_thread_join w (finalize_at_join pb)).2.cam_info with
                | none => []
                | some ci =>
                  if ci.mutex_locked then [Effect.photo_booth_cam_close]
                  else [Effect.photo_booth_cam_close, Effect.gp_camera_exit])
              ++ (if video_fd ≠ 0 ∧ (photo_booth_finalize video_fd w pb).1 = true
                    then [Effect.close_video_fd, Effect.unlink_moviepipe] else []))
      ∧ ((photo_booth_finalize video_fd w pb).1 = true →
          (g_thread_join w (finalize_at_join pb)).1 = true
            ∧ (photo_booth_finalize video_fd w pb).2.cam_info = none)
      ∧ new_calls pb (photo_booth_finalize video_fd w pb).2
          = [Effect.send_command ControlCommand.CONTROL_STOP, Effect.photo_booth_flush_pipe]
            ++ new_calls (finalize_at_join pb) (g_thread_join w (finalize_at_join pb)).2
            ++ new_calls (g_thread_join w (finalize_at_join pb)).2
                (photo_booth_finalize video_fd w pb).2 := by
  obtain ⟨wc, hj⟩ := g_thread_join_extends w (finalize_at_join pb)
  have hA : (finalize_at_join pb).log
      = pb.log ++ [Effect.send_command ControlCommand.CONTROL_STOP,
          Effect.photo_booth_flush_pipe] := by
    simp [finalize_at_join, SEND_COMMAND, PhotoBooth.emit]
  have hjoin : new_calls (finalize_at_join pb) (g_thread_join w (finalize_at_join pb)).2
      = Effect.g_thread_join :: wc := new_calls_append _ _ _ hj
  have hafter := finalize_after_join video_fd w pb
  have hext : ∃ rest, (photo_booth_finalize video_fd w pb).2.log
      = (g_thread_join w (finalize_at_join pb)).2.log ++ rest := by
    cases hj1 : (g_thread_join w (finalize_at_join pb)).1 with
    | false => exact ⟨[], by rw [hafter.1 hj1]; simp⟩
    | true => exact ⟨_, (hafter.2 hj1).1⟩
  obtain ⟨rest, hrest⟩ := hext
  refine ⟨new_calls_append _ _ _ hA, ?_, ?_, ?_, ⟨wc, hjoin⟩, hafter.1, ?_, ?_, ?_⟩
  · simp [finalize_at_join, SEND_COMMAND, PhotoBooth.emit]
  · intro hw
    subst hw
    simp [g_thread_join]
  · intro t envs hw
    subst hw
    cases hl : capture_loop envs ((finalize_at_join pb).emit Effect.g_thread_join) t <;>
      simp [g_thread_join, hl, LoopResult.pb]
  · intro hj1
    exact new_calls_append _ _ _ (hafter.2 hj1).1
  · intro hret
    cases hj1 : (g_thread_join w (finalize_at_join pb)).1 with
    | false =>
      rw [hafter.1 hj1] at hret
      simp at hret
    | true =>
      refine ⟨rfl, ?_⟩
      have hfold : (SEND_COMMAND pb ControlCommand.CONTROL_STOP).emit
          Effect.photo_booth_flush_pipe = finalize_at_join pb := rfl
      simp only [photo_booth_finalize, hfold] at hret ⊢
      generalize g_thread_join w (finalize_at_join pb) = J at hj1 hret ⊢
      obtain ⟨j1, j2⟩ := J
      simp only at hj1
      subst hj1
      cases hc : j2.cam_info with
      | none => by_cases hfd : video_fd = 0 <;> simp [hc, hfd, PhotoBooth.emit]
      | some ci =>
        cases hl : ci.mutex_locked with
        | true => simp [hc, photo_booth_cam_close, hl] at hret
        | false =>
          by_cases hfd : video_fd = 0 <;>
            simp [hc, hfd, PhotoBooth.emit, photo_booth_cam_close, hl]
  · rw [hjoin]
    have hr : new_calls (g_thread_join w (finalize_at_join pb)).2
        (photo_booth_finalize video_fd w pb).2 = rest := new_calls_append _ _ _ hrest
    rw [hr]
    apply new_calls_append
    rw [hrest, hj, hA]
    simp

/-- Witness of C20: shutdown while the worker streams the preview.  The worker
reads STOP in its first iteration and returns in its second; then the session
is closed, then the pipe.  And a shutdown that finds the control buffer full:
STOP is lost, the worker goes on with the commands that were pending, the join
has not returned when the iterations end and the session is still open. -/
theorem finalize_order_witness :
    new_calls session_preview
        (photo_booth_finalize 5 (some (worker_video, [env_ok, env_ok])) session_preview).2
      = [Effect.send_command ControlCommand.CONTROL_STOP, Effect.photo_booth_flush_pipe,
          Effect.g_thread_join, Effect.poll 40,
          Effect.read_command ControlCommand.CONTROL_STOP, Effect.gp_file_unref,
          Effect.photo_booth_cam_close, Effect.gp_camera_exit,
          Effect.close_video_fd, Effect.unlink_moviepipe]
      ∧ (photo_booth_finalize 5 (some (worker_video, [env_ok, env_ok])) session_preview).1 = true
      ∧ (photo_booth_finalize 5 (some (worker_video, [env_ok, env_ok, env_ok]))
          session_preview_full).1 = false
      ∧ calls Effect.photo_booth_cam_close
          (photo_booth_finalize 5 (some (worker_video, [env_ok, env_ok, env_ok]))
            session_preview_full).2.log = 0
      ∧ (photo_booth_finalize 5 (some (worker_video, [env_ok, env_ok, env_ok]))
          session_preview_full).2.cam_info = some camera_ready := by
  have h := (finalize_order 5 (some (worker_video, [env_ok, env_ok])) session_preview).2.2.2.2.2.2.2.2
  refine ⟨?_, by decide, by decide, by decide, by decide⟩
  rw [h]
  decide

/-! ### C21: where START_PHOTO is sent in the switch to photo -/

/-- The calls of `photo_booth_snapshot_prepare` when a camera session exists,
in program order. -/
theorem snapshot_prepare_calls (pb : PhotoBooth) (ci : CameraInfo)
    (hcam : pb.cam_info = some ci) :
    new_calls pb (photo_booth_snapshot_prepare pb)
      = [Effect.photo_booth_window_set_spinner true,
          Effect.gst_element_set_state GstObject.audio_playbin GstState.GST_STATE_READY,
          Effect.send_command ControlCommand.CONTROL_PHOTO,
          Effect.gst_element_set_state GstObject.video_bin GstState.GST_STATE_READY,
          Effect.gst_pad_add_probe GstObject.video_bin ProbeCallback.gst_video_probecb
            (pb.video_pad.n_added + 1),
          Effect.gst_element_unlink GstObject.video_bin GstObject.output_bin]
        ++ (if pb.photo_block_id ≠ 0
              then [Effect.gst_pad_remove_probe GstObject.photo_bin pb.photo_block_id] else [])
        ++ [Effect.gst_element_link GstObject.photo_bin GstObject.output_bin,
            Effect.gst_element_set_state GstObject.photo_bin GstState.GST_STATE_PLAYING] := by
  apply new_calls_append
  by_cases hb : pb.photo_block_id = 0 <;>
    simp [photo_booth_snapshot_prepare, hcam, hb, link_photo_bin, gst_element_set_state,
      PhotoBooth.emit, video_pad_add_probe, unlink_video_bin, SEND_COMMAND,
      photo_pad_remove_probe]

/-- C21, counterexample: in the switch to photo made from the preview, the
START_PHOTO command is the third call, made before the preview sub-graph is
quiesced, blocked and unlinked and before the photo sub-graph is linked and
set running; the last call is the state change of `photo_bin`, not the
command. -/
theorem start_photo_not_sent_last :
    new_calls session_preview (photo_booth_snapshot_prepare session_preview)
        = [Effect.photo_booth_window_set_spinner true,
            Effect.gst_element_set_state GstObject.audio_playbin GstState.GST_STATE_READY,
            Effect.send_command ControlCommand.CONTROL_PHOTO,
            Effect.gst_element_set_state GstObject.video_bin GstState.GST_STATE_READY,
            Effect.gst_pad_add_probe GstObject.video_bin ProbeCallback.gst_video_probecb 1,
            Effect.gst_element_unlink GstObject.video_bin GstObject.output_bin,
            Effect.gst_element_link GstObject.photo_bin GstObject.output_bin,
            Effect.gst_element_set_state GstObject.photo_bin GstState.GST_STATE_PLAYING]
      ∧ (new_calls session_preview (photo_booth_snapshot_prepare session_preview)).getLast?
        ≠ some (Effect.send_command ControlCommand.CONTROL_PHOTO) := by
  decide

/-- C21, amended: in the switch-to-photo sequence performed by
`photo_booth_snapshot_prepare` (with a camera session present), the
START_PHOTO command is sent to the worker early: it is issued after the
spinner is shown and the audio cue is stopped, and before the preview
sub-graph is quiesced, blocked with a drop probe and unlinked from the output,
before any block on the photo sub-graph's pad is lifted, and before the photo
sub-graph is linked to the output and set running.  It is sent exactly once.
The send is a non-blocking write: the byte is queued behind the pending ones
when the socket buffer has room and is lost when the buffer is full, and the
switch goes on in both cases. -/
theorem start_photo_sent_before_switch (pb : PhotoBooth) (ci : CameraInfo)
    (hcam : pb.cam_info = some ci) :
    new_calls pb (photo_booth_snapshot_prepare pb)
        = [Effect.photo_booth_window_set_spinner true,
            Effect.gst_element_set_state GstObject.audio_playbin GstState.GST_STATE_READY,
            Effect.send_command ControlCommand.CONTROL_PHOTO]
          ++ ([Effect.gst_element_set_state GstObject.video_bin GstState.GST_STATE_READY,
              Effect.gst_pad_add_probe GstObject.video_bin ProbeCallback.gst_video_probecb
                (pb.video_pad.n_added + 1),
              Effect.gst_element_unlink GstObject.video_bin GstObject.output_bin]
            ++ (if pb.photo_block_id ≠ 0
                  then [Effect.gst_pad_remove_probe GstObject.photo_bin pb.photo_block_id]
                  else [])
            ++ [Effect.gst_element_link GstObject.photo_bin GstObject.output_bin,
                Effect.gst_element_set_state GstObject.photo_bin GstState.GST_STATE_PLAYING])
      ∧ calls (Effect.send_command ControlCommand.CONTROL_PHOTO)
          (new_calls pb (photo_booth_snapshot_prepare pb)) = 1
      ∧ (photo_booth_snapshot_prepare pb).control
          = (if pb.control.length < pb.control_capacity
              then pb.control ++ [ControlCommand.CONTROL_PHOTO] else pb.control) := by
  refine ⟨?_, ?_, ?_⟩
  · rw [snapshot_prepare_calls pb ci hcam]
    simp
  · rw [snapshot_prepare_calls pb ci hcam]
    by_cases hb : pb.photo_block_id = 0 <;> simp [calls, hb]
  · by_cases hb : pb.photo_block_id = 0 <;>
      simp [photo_booth_snapshot_prepare, hcam, hb, link_photo_bin, gst_element_set_state,
        PhotoBooth.emit, video_pad_add_probe, unlink_video_bin, SEND_COMMAND,
        photo_pad_remove_probe]

/-- Witness of C21: the whole statement at `session_preview`, where the buffer
has room and the command is queued, and at `session_preview_full`, where the
buffer is full and the command is lost while the calls are the same. -/
theorem start_photo_sent_before_switch_witness :
    (new_calls session_preview (photo_booth_snapshot_prepare session_preview)
        = [Effect.photo_booth_window_set_spinner true,
            Effect.gst_element_set_state GstObject.audio_playbin GstState.GST_STATE_READY,
            Effect.send_command ControlCommand.CONTROL_PHOTO]
          ++ ([Effect.gst_element_set_state GstObject.video_bin GstState.GST_STATE_READY,
              Effect.gst_pad_add_probe GstObject.video_bin ProbeCallback.gst_video_probecb
                (session_preview.video_pad.n_added + 1),
              Effect.gst_element_unlink GstObject.video_bin GstObject.output_bin]
            ++ (if session_preview.photo_block_id ≠ 0
                  then [Effect.gst_pad_remove_probe GstObject.photo_bin
                    session_preview.photo_block_id]
                  else [])
            ++ [Effect.gst_element_link GstObject.photo_bin GstObject.output_bin,
                Effect.gst_element_set_state GstObject.photo_bin GstState.GST_STATE_PLAYING])
      ∧ calls (Effect.send_command ControlCommand.CONTROL_PHOTO)
          (new_calls session_preview (photo_booth_snapshot_prepare session_preview)) = 1
      ∧ (photo_booth_snapshot_prepare session_preview).control
          = (if session_preview.control.length < session_preview.control_capacity
              then session_preview.control ++ [ControlCommand.CONTROL_PHOTO]
              else session_preview.control))
      ∧ (photo_booth_snapshot_prepare session_preview).control = [ControlCommand.CONTROL_PHOTO]
      ∧ (new_calls session_preview_full (photo_booth_snapshot_prepare session_preview_full)
          = [Effect.photo_booth_window_set_spinner true,
              Effect.gst_element_set_state GstObject.audio_playbin GstState.GST_STATE_READY,
              Effect.send_command ControlCommand.CONTROL_PHOTO]
            ++ ([Effect.gst_element_set_state GstObject.video_bin GstState.GST_STATE_READY,
                Effect.gst_pad_add_probe GstObject.video_bin ProbeCallback.gst_video_probecb
                  (session_preview_full.video_pad.n_added + 1),
                Effect.gst_element_unlink GstObject.video_bin GstObject.output_bin]
              ++ (if session_preview_full.photo_block_id ≠ 0
                    then [Effect.gst_pad_remove_probe GstObject.photo_bin
                      session_preview_full.photo_block_id]
                    else [])
              ++ [Effect.gst_element_link GstObject.photo_bin GstObject.output_bin,
                  Effect.gst_element_set_state GstObject.photo_bin
                    GstState.GST_STATE_PLAYING])
        ∧ calls (Effect.send_command ControlCommand.CONTROL_PHOTO)
            (new_calls session_preview_full
              (photo_booth_snapshot_prepare session_preview_full)) = 1
        ∧ (photo_booth_snapshot_prepare session_preview_full).control
            = (if session_preview_full.control.length < session_preview_full.control_capacity
                then session_preview_full.control ++ [ControlCommand.CONTROL_PHOTO]
                else session_preview_full.control))
      ∧ (photo_booth_snapshot_prepare session_preview_full).control
          = session_preview_full.control :=
  ⟨start_photo_sent_before_switch session_preview camera_ready rfl,
    by decide,
    start_photo_sent_before_switch session_preview_full camera_ready rfl,
    by decide⟩

/-! ### C22: protocol violations -/

/-- C22, counterexample: a byte that is no command is pending while the worker
is in INIT without a camera session and the probe succeeds.  After the
iteration the worker state is VIDEO, not the INIT it had before, and a camera
session exists where there was none. -/
theorem illegal_byte_after_probe_changes_state :
    worker_init.state = PhotoboothCaptureThreadState.CAPTURE_INIT
      ∧ session_started_illegal.cam_info = none
      ∧ commands_read (new_calls session_started_illegal
          (capture_iteration env_ok session_started_illegal worker_init).pb)
        = [ControlCommand.illegal 63]
      ∧ (capture_iteration env_ok session_started_illegal worker_init).thread.state
        = PhotoboothCaptureThreadState.CAPTURE_VIDEO
      ∧ (capture_iteration env_ok session_started_illegal worker_init).thread.state
        ≠ worker_init.state
      ∧ (capture_iteration env_ok session_started_illegal worker_init).pb.cam_info ≠ none := by
  decide

/-- C22, amended: a protocol violation never terminates the capture worker and
does not itself change the worker's state or camera session.  For every
command byte that is not one of STOP, PAUSE, START_VIDEO, START_PHOTO, the
iteration ends normally with the worker state, the camera session and the
frame counter as they were when the byte was read; that is the state and
session from before the iteration, except that an iteration entered in INIT
without a session first probes the camera and, if the probe succeeds, is in
VIDEO with the new session.  For every preview capture whose MIME type differs
from the JPEG MIME constant the worker stays in VIDEO with its session, the
iteration ends normally, and the captured-frame counter is not incremented. -/
theorem protocol_violation_skipped (env : CameraEnv) (pb : PhotoBooth) (t : CaptureThread)
    (hlive : t.state ≠ PhotoboothCaptureThreadState.CAPTURE_STOP)
    (hp : env.poll_error = false) :
    (∀ c rest, pb.control = ControlCommand.illegal c :: rest →
        ∃ pb1 t1, capture_iteration env pb t = LoopResult.next pb1 t1
          ∧ pb1.control = rest
          ∧ t1.state = (prepare_poll env pb t).2.1.state
          ∧ pb1.cam_info = (prepare_poll env pb t).1.cam_info
          ∧ t1.captured_frames = t.captured_frames
          ∧ (¬(t.state = PhotoboothCaptureThreadState.CAPTURE_INIT ∧ pb.cam_info = none) →
              t1.state = t.state ∧ pb1.cam_info = pb.cam_info)
          ∧ (t.state = PhotoboothCaptureThreadState.CAPTURE_INIT → pb.cam_info = none →
              env.gp_camera_init ≠ 0 → t1.state = t.state ∧ pb1.cam_info = none)
          ∧ (t.state = PhotoboothCaptureThreadState.CAPTURE_INIT → pb.cam_info = none →
              env.gp_camera_init = 0 →
              t1.state = PhotoboothCaptureThreadState.CAPTURE_VIDEO
                ∧ pb1.cam_info = some camera_ready))
      ∧ (∀ ci, pb.control = [] →
          (prepare_poll env pb t).2.1.state = PhotoboothCaptureThreadState.CAPTURE_VIDEO →
          (prepare_poll env pb t).1.cam_info = some ci → ci.mutex_locked = false →
          0 ≤ env.gp_camera_capture_preview → env.mime_is_jpeg = false →
          ∃ pb1 t1, capture_iteration env pb t = LoopResult.next pb1 t1
            ∧ t1.state = PhotoboothCaptureThreadState.CAPTURE_VIDEO
            ∧ pb1.cam_info = some ci
            ∧ t1.captured_frames = t.captured_frames) := by
  obtain ⟨_, _, hst, hcam, _, hfr⟩ := prepare_poll_eq env pb t
  constructor
  · intro c rest hq
    refine ⟨_, _, capture_iteration_command_eq env pb t (ControlCommand.illegal c) rest hlive hq hp,
      rfl, rfl, rfl, hfr, ?_, ?_, ?_⟩
    · intro hno
      have h3 : ¬(t.state = PhotoboothCaptureThreadState.CAPTURE_INIT ∧ pb.cam_info = none
          ∧ env.gp_camera_init = 0) := fun h => hno ⟨h.1, h.2.1⟩
      simp [apply_command, hst, hcam, h3]
    · intro hs hc hbad
      simp [apply_command, hst, hcam, hs, hc, hbad]
    · intro hs hc hok
      simp [apply_command, hst, hcam, hs, hc, hok]
  · intro ci hq hv hc hl h0 hm
    have hctl : (prepare_poll env pb t).1.control = [] := by
      rw [(prepare_poll_frame env pb t).1, hq]
    refine ⟨{ (prepare_poll env pb t).1 with
                log := (prepare_poll env pb t).1.log
                  ++ [Effect.poll (prepare_poll env pb t).2.2, Effect.gp_camera_capture_preview,
                      Effect.gp_file_get_mime_type] },
      (prepare_poll env pb t).2.1, ?_, hv, hc, hfr⟩
    simp [capture_iteration, hlive, handle_poll, hp, PhotoBooth.emit, hctl, hv, hc, hl,
      not_lt.mpr h0, hm]

/-- Witness of C22: an illegal byte read while the preview streams, and a
preview file of the wrong MIME type. -/
theorem protocol_violation_skipped_witness :
    (∃ pb1 t1, capture_iteration env_ok
          { session_preview with control := [ControlCommand.illegal 63] } worker_video
          = LoopResult.next pb1 t1
        ∧ pb1.control = []
        ∧ t1.state = (prepare_poll env_ok
            { session_preview with control := [ControlCommand.illegal 63] } worker_video).2.1.state
        ∧ pb1.cam_info = (prepare_poll env_ok
            { session_preview with control := [ControlCommand.illegal 63] } worker_video).1.cam_info
        ∧ t1.captured_frames = worker_video.captured_frames)
      ∧ (∃ pb1 t1, capture_iteration env_wrong_mime session_preview worker_video
          = LoopResult.next pb1 t1
        ∧ t1.state = PhotoboothCaptureThreadState.CAPTURE_VIDEO
        ∧ pb1.cam_info = some camera_ready
        ∧ t1.captured_frames = worker_video.captured_frames) :=
  ⟨by
      obtain ⟨pb1, t1, h1, h2, h3, h4, h5, _⟩ :=
        (protocol_violation_skipped env_ok
          { session_preview with control := [ControlCommand.illegal 63] } worker_video
          (by decide) rfl).1 63 [] rfl
      exact ⟨pb1, t1, h1, h2, h3, h4, h5⟩,
   (protocol_violation_skipped env_wrong_mime session_preview worker_video (by decide) rfl).2
      camera_ready rfl rfl rfl rfl (by decide) rfl⟩

/-! ### C23: construction of the photo sub-graph -/

/-- C23, the code at the failing input: `photo-overlay` could not be created
(`gdkpixbufoverlay` missing), every other element was.  `build_photo_bin` does
not abort: it returns the bin, with `photo-appsrc` to `photo-capsfilter` added
and linked in a chain (the argument lists end at the NULL) and the tee left
outside.  The same happens when `photo-freeze` is missing; when `photo-bin`
itself is NULL the elements are still linked; when `photo-decoder` is missing
the source has been added before the link fails.  Only a missing `photo-tee`
stops the construction before anything is added. -/
theorem build_photo_bin_ignores_missing_element :
    (build_photo_bin { all_elements_made with photo_overlay := false } none).returned = true
      ∧ (build_photo_bin { all_elements_made with photo_overlay := false } none).added
        = [ElementName.photo_appsrc, ElementName.photo_decoder, ElementName.photo_freeze,
            ElementName.photo_scale, ElementName.photo_capsfilter]
      ∧ (build_photo_bin { all_elements_made with photo_overlay := false } none).linked
        = [(ElementName.photo_appsrc, ElementName.photo_decoder),
            (ElementName.photo_decoder, ElementName.photo_freeze),
            (ElementName.photo_freeze, ElementName.photo_scale),
            (ElementName.photo_scale, ElementName.photo_capsfilter)]
      ∧ (build_photo_bin { all_elements_made with photo_freeze := false } none).returned = true
      ∧ (build_photo_bin { all_elements_made with photo_bin := false } none).linked ≠ []
      ∧ (build_photo_bin { all_elements_made with photo_decoder := false } none).added
        = [ElementName.photo_appsrc]
      ∧ build_photo_bin { all_elements_made with photo_tee := false } none
        = { returned := false, added := [], linked := [], ghost_pad := false }
      ∧ (build_photo_bin all_elements_made none).returned = true
      ∧ (build_photo_bin all_elements_made none).added = session_started.photo_elements
      ∧ (build_photo_bin all_elements_made none).linked = session_started.photo_links := by
  decide

/-! ### C24: the paused worker -/

/-- C24: an iteration entered in PAUSED polls with 1000 ms and makes no camera
call, whether the poll fails, times out or reports a command, and whether or
not a camera session exists: besides the poll it only reads the pending
command, or releases the preview file object when it leaves after a failed
poll.  There is no probe, no preview capture, no still capture and no close;
the camera session is untouched.  When the poll times out the state stays
PAUSED and nothing but the log has changed. -/
theorem paused_makes_no_camera_call (env : CameraEnv) (pb : PhotoBooth) (t : CaptureThread)
    (hs : t.state = PhotoboothCaptureThreadState.CAPTURE_PAUSED) :
    new_calls pb (capture_iteration env pb t).pb
        = Effect.poll 1000 ::
          (if env.poll_error then (if t.gp_file then [Effect.gp_file_unref] else [])
           else match pb.control with
             | [] => []
             | c :: _ => [Effect.read_command c])
      ∧ (∀ e ∈ new_calls pb (capture_iteration env pb t).pb, is_camera_call e = false)
      ∧ (capture_iteration env pb t).pb.cam_info = pb.cam_info
      ∧ (env.poll_error = false → pb.control = [] →
          capture_iteration env pb t
            = LoopResult.next { pb with log := pb.log ++ [Effect.poll 1000] } t) := by
  have hlog : new_calls pb (capture_iteration env pb t).pb
        = Effect.poll 1000 ::
          (if env.poll_error then (if t.gp_file then [Effect.gp_file_unref] else [])
           else match pb.control with
             | [] => []
             | c :: _ => [Effect.read_command c])
      ∧ (capture_iteration env pb t).pb.cam_info = pb.cam_info := by
    cases hp : env.poll_error
    · cases hq : pb.control <;>
        simp [capture_iteration, hs, prepare_poll, handle_poll, hp, hq, PhotoBooth.emit,
          LoopResult.pb, new_calls]
    · cases hf : t.gp_file <;>
        simp [capture_iteration, hs, prepare_poll, handle_poll, hp, stop_running, hf,
          PhotoBooth.emit, LoopResult.pb, new_calls]
  refine ⟨hlog.1, ?_, hlog.2, ?_⟩
  · rw [hlog.1]
    cases hp : env.poll_error
    · cases hq : pb.control <;> simp [is_camera_call]
    · cases hf : t.gp_file <;> simp [is_camera_call]
  · intro hp hq
    simp [capture_iteration, hs, prepare_poll, handle_poll, hp, hq, PhotoBooth.emit]

/-- Witness of C24: the paused worker with a camera session and nothing
pending. -/
theorem paused_makes_no_camera_call_witness :
    capture_iteration env_ok session_photo_armed worker_paused
      = LoopResult.next
          { session_photo_armed with log := session_photo_armed.log ++ [Effect.poll 1000] }
          worker_paused :=
  (paused_makes_no_camera_call env_ok session_photo_armed worker_paused rfl).2.2.2 rfl rfl

/-! ### C25: the session mutex in `photo_booth_take_photo` -/

/-- C25, the code at the failing input: `photo_booth_take_photo` is entered
with the session mutex free and `gp_camera_capture` fails (or the capture
succeeds and `gp_camera_file_get` fails).  The function returns FALSE through
an early `return` that skips `g_mutex_unlock`: the mutex is still held when it
returns.  Only the path that returns TRUE releases it.  A later call on that
session never returns, and the worker that reads START_PHOTO again hangs in
its next still capture. -/
theorem take_photo_failure_keeps_mutex_locked :
    camera_ready.mutex_locked = false
      ∧ (photo_booth_take_photo env_capture_fails session_photo_armed camera_ready).1
        = some false
      ∧ (photo_booth_take_photo env_capture_fails session_photo_armed camera_ready).2.cam_info
        = some { camera_ready with mutex_locked := true }
      ∧ (photo_booth_take_photo env_file_get_fails session_photo_armed camera_ready).1
        = some false
      ∧ (photo_booth_take_photo env_file_get_fails session_photo_armed camera_ready).2.cam_info
        = some { camera_ready with mutex_locked := true }
      ∧ (photo_booth_take_photo env_ok session_photo_armed camera_ready).1 = some true
      ∧ (photo_booth_take_photo env_ok session_photo_armed camera_ready).2.cam_info
        = some { camera_ready with data := some env_ok.still, size := env_ok.still.length }
      ∧ (photo_booth_take_photo env_ok
          (photo_booth_take_photo env_capture_fails session_photo_armed camera_ready).2
          { camera_ready with mutex_locked := true }).1 = none
      ∧ (capture_loop [env_ok, env_ok] session_retry_after_failure
          (capture_iteration env_capture_fails session_photo_armed worker_photo).thread).hangs
        = true := by
  decide

/-! ### C26: masks on faces in the order of their x coordinate -/

theorem insert_sorted_perm (l : List Face) (d : Face) :
    (g_list_insert_sorted_with_data l d _pbm_sort_faces_by_xpos).Perm (d :: l) := by
  induction l with
  | nil => simp [g_list_insert_sorted_with_data]
  | cons e rest ih =>
    unfold g_list_insert_sorted_with_data
    split
    · exact (List.Perm.cons e ih).trans (List.Perm.swap d e rest)
    · exact List.Perm.refl _

theorem insert_sorted_pairwise (l : List Face) (d : Face)
    (h : l.Pairwise (fun a b => a.x ≤ b.x)) :
    (g_list_insert_sorted_with_data l d _pbm_sort_faces_by_xpos).Pairwise
      (fun a b => a.x ≤ b.x) := by
  induction l with
  | nil => simp [g_list_insert_sorted_with_data]
  | cons e rest ih =>
    rw [List.pairwise_cons] at h
    unfold g_list_insert_sorted_with_data
    split
    · rename_i hgt
      have hlt : e.x < d.x := by
        unfold _pbm_sort_faces_by_xpos at hgt
        by_cases hx : d.x > e.x
        · exact hx
        · simp [hx] at hgt
      rw [List.pairwise_cons]
      refine ⟨?_, ih h.2⟩
      intro y hy
      have hy2 := (insert_sorted_perm rest d).subset hy
      rcases List.mem_cons.mp hy2 with hyd | hyr
      · rw [hyd]; exact Nat.le_of_lt hlt
      · exact h.1 y hyr
    · rename_i hle
      have hdx : d.x ≤ e.x := by
        unfold _pbm_sort_faces_by_xpos at hle
        by_cases hx : d.x > e.x
        · simp [hx] at hle
        · exact Nat.le_of_not_lt hx
      rw [List.pairwise_cons]
      refine ⟨?_, List.pairwise_cons.mpr h⟩
      intro y hy
      rcases List.mem_cons.mp hy with hye | hyr
      · rw [hye]; exact hdx
      · exact Nat.le_trans hdx (h.1 y hyr)

theorem foldl_insert_sorted (fs acc : List Face)
    (h : acc.Pairwise (fun a b => a.x ≤ b.x)) :
    (fs.foldl (fun sorted face =>
        g_list_insert_sorted_with_data sorted face _pbm_sort_faces_by_xpos) acc).Perm (acc ++ fs)
      ∧ (fs.foldl (fun sorted face =>
        g_list_insert_sorted_with_data sorted face _pbm_sort_faces_by_xpos) acc).Pairwise
          (fun a b => a.x ≤ b.x) := by
  induction fs generalizing acc with
  | nil => simpa using h
  | cons f rest ih =>
    simp only [List.foldl_cons]
    have h1 := ih _ (insert_sorted_pairwise acc f h)
    refine ⟨h1.1.trans ?_, h1.2⟩
    have h2 : (g_list_insert_sorted_with_data acc f _pbm_sort_faces_by_xpos ++ rest).Perm
        ((f :: acc) ++ rest) := List.Perm.append_right rest (insert_sorted_perm acc f)
    refine h2.trans ?_
    simpa using (List.perm_middle).symm

theorem masks_loop_spec (sorted : List Face) (state : MaskState) (ms : List PhotoBoothMask)
    (i : Nat) :
    masks_loop sorted.length sorted state i (ms.map some)
      = some (((ms.zip (sorted.drop i)).map
            (fun mf => (photo_booth_mask_show mf.1 (some mf.2) state).getD [])).flatten
          ++ ((ms.drop (sorted.length - i)).map
            (fun m => (photo_booth_mask_hide (some m)).getD [])).flatten) := by
  induction ms generalizing i with
  | nil => simp [masks_loop]
  | cons m rest ih =>
    simp only [List.map_cons, masks_loop]
    rw [ih (i + 1)]
    by_cases hi : i < sorted.length
    · have hd : sorted.drop i = sorted.get ⟨i, hi⟩ :: sorted.drop (i + 1) := by
        simp
      have hg : sorted.get? i = some (sorted.get ⟨i, hi⟩) := by
        simp [List.getElem?_eq_getElem hi]
      have hsub : sorted.length - i = (sorted.length - (i + 1)) + 1 := by omega
      rw [hd, hsub, hg]
      simp only [hi, if_true, List.zip_cons_cons, List.map_cons, List.flatten_cons,
        List.drop_succ_cons, List.append_assoc]
      cases hs : photo_booth_mask_show m (some (sorted.get ⟨i, hi⟩)) state with
      | none => simp [photo_booth_mask_show] at hs; split at hs <;> simp at hs
      | some es => simp
    · have hd : sorted.drop i = [] := List.drop_eq_nil_of_le (Nat.le_of_not_lt hi)
      have hd1 : sorted.drop (i + 1) = [] := List.drop_eq_nil_of_le (by omega)
      have hsub : sorted.length - i = 0 := by omega
      have hsub1 : sorted.length - (i + 1) = 0 := by omega
      rw [hd, hd1, hsub, hsub1]
      simp only [hi, if_false, List.zip_nil_right, List.map_nil, List.flatten_nil, List.drop_zero,
        List.nil_append, List.map_cons, List.flatten_cons]
      cases hs : photo_booth_mask_hide (some m) with
      | none => simp [photo_booth_mask_hide] at hs; split at hs <;> simp at hs
      | some es => simp

/-- The toolkit calls of `photo_booth_mask_show` on a face. -/
theorem mask_show_calls (m : PhotoBoothMask) (f : Face) (state : MaskState) :
    (photo_booth_mask_show m (some f) state).getD []
      = if m.imagew then
          (if state = MaskState.PB_STATE_ASK_PRINT
            then [MaskEffect.photo_booth_mask_connect_events m] else [])
          ++ [MaskEffect.gtk_fixed_move m f
                (decide (state = MaskState.PB_STATE_COUNTDOWN)
                  || decide (state = MaskState.PB_STATE_PREVIEW)),
              MaskEffect.gtk_image_set_from_pixbuf m f
                (decide (state = MaskState.PB_STATE_COUNTDOWN)
                  || decide (state = MaskState.PB_STATE_PREVIEW)),
              MaskEffect.gtk_widget_show m MaskWidget.eventw,
              MaskEffect.gtk_widget_show m MaskWidget.imagew]
        else [] := by
  cases state <;> cases h : m.imagew <;> simp [photo_booth_mask_show, h]

/-- The toolkit calls of `photo_booth_mask_hide` on a mask. -/
theorem mask_hide_calls (m : PhotoBoothMask) :
    (photo_booth_mask_hide (some m)).getD []
      = if m.imagew then
          [MaskEffect.gtk_widget_hide m MaskWidget.eventw,
           MaskEffect.gtk_widget_hide m MaskWidget.imagew]
        else [] := by
  cases h : m.imagew <;> simp [photo_booth_mask_hide, h]

/-- A NULL entry in the list of masks: the loop reaches
`photo_booth_mask_hide (NULL)`, which reads `mask->imagew`. -/
theorem masks_loop_null (n_faces : Nat) (sorted : List Face) (state : MaskState)
    (before after : List (Option PhotoBoothMask)) :
    ∀ i, masks_loop n_faces sorted state i (before ++ none :: after) = none := by
  induction before with
  | nil => intro i; simp [masks_loop, photo_booth_mask_hide]
  | cons m rest ih =>
    intro i
    have h := ih (i + 1)
    rw [List.cons_append]
    unfold masks_loop
    rw [h]
    simp only []
    split
    · rfl
    · rfl

/-- C26: for every list of detected faces and every list of masks,
`sorted_faces` is a permutation of the detected faces in non-decreasing order
of `x`.  The handler then makes these toolkit calls, mask by mask in the order
of the list.  For each of the first `min n_masks n_faces` masks, paired with
the face of the same rank in `sorted_faces`: it connects the mouse events when
the state is ASK_PRINT, moves the mask's event box to the position computed
from that face, sets the image from the pixbuf scaled for that face, and shows
the event box and the image.  For every mask from index `n_faces` on: it hides
the event box and the image.  When the faces value is not a list it hides
every mask.  (A mask whose `imagew` is unset, as after its finalisation, gets
no call.)  The masks of a list are objects made by `photo_booth_mask_new`; a
list node whose data pointer is NULL, which the loop tests for with `mask &&`,
is passed to `photo_booth_mask_hide`, which reads through it: the handler does
not return, whatever the faces value is. -/
theorem masks_follow_faces_in_x_order (masks : List PhotoBoothMask) (faces : List Face)
    (state : MaskState) (before after : List (Option PhotoBoothMask))
    (value : Option (List Face)) :
    (sorted_faces faces).Perm faces
      ∧ (sorted_faces faces).Pairwise (fun a b => a.x ≤ b.x)
      ∧ photo_booth_masquerade_faces_detected (masks.map some) (some faces) state
        = some (((masks.zip (sorted_faces faces)).map
              (fun mf =>
                if mf.1.imagew then
                  (if state = MaskState.PB_STATE_ASK_PRINT
                    then [MaskEffect.photo_booth_mask_connect_events mf.1] else [])
                  ++ [MaskEffect.gtk_fixed_move mf.1 mf.2
                        (decide (state = MaskState.PB_STATE_COUNTDOWN)
                          || decide (state = MaskState.PB_STATE_PREVIEW)),
                      MaskEffect.gtk_image_set_from_pixbuf mf.1 mf.2
                        (decide (state = MaskState.PB_STATE_COUNTDOWN)
                          || decide (state = MaskState.PB_STATE_PREVIEW)),
                      MaskEffect.gtk_widget_show mf.1 MaskWidget.eventw,
                      MaskEffect.gtk_widget_show mf.1 MaskWidget.imagew]
                else [])).flatten
            ++ ((masks.drop faces.length).map
              (fun m =>
                if m.imagew then
                  [MaskEffect.gtk_widget_hide m MaskWidget.eventw,
                   MaskEffect.gtk_widget_hide m MaskWidget.imagew]
                else [])).flatten)
      ∧ photo_booth_masquerade_faces_detected (masks.map some) none state
        = some ((masks.map
            (fun m =>
              if m.imagew then
                [MaskEffect.gtk_widget_hide m MaskWidget.eventw,
                 MaskEffect.gtk_widget_hide m MaskWidget.imagew]
              else [])).flatten)
      ∧ photo_booth_masquerade_faces_detected (before ++ none :: after) value state = none := by
  have hs := foldl_insert_sorted faces [] List.Pairwise.nil
  have hperm : (sorted_faces faces).Perm faces := by simpa [sorted_faces] using hs.1
  have hlen : (sorted_faces faces).length = faces.length := hperm.length_eq
  refine ⟨hperm, hs.2, ?_, ?_, ?_⟩
  · have h := masks_loop_spec (sorted_faces faces) state masks 0
    simp only [mask_show_calls, mask_hide_calls] at h
    simp only [photo_booth_masquerade_faces_detected]
    rw [← hlen, h]
    simp
  · have h := masks_loop_spec [] state masks 0
    simp only [mask_hide_calls] at h
    simpa [photo_booth_masquerade_faces_detected] using h
  · simp only [photo_booth_masquerade_faces_detected]
    exact masks_loop_null _ _ _ _ _ 0

end Photobooth
